import Mathlib

/-!
# HVF accelerator: memory slot manager, CPUID virtualizer and vCPU

A shallow embedding of `target/i386/hvf-all.c` (memory slots, vCPU creation and
reset, register synchronisation, the run loop and its exit handlers) and
`target/i386/hvf-utils/x86_cpuid.c` (CPUID leaves), with the properties of the
specification stated and settled over it.

Conventions of the embedding:
* `uint64_t` / `uint32_t` values are natural numbers; an operation that can
  leave the range is followed by an explicit reduction (`u64`, `u32`).
* a pointer into `hvf_state->slots` is the index of the slot.
* calls into Hypervisor.framework are recorded in a trace; the status each
  call returns is given by an oracle `hv` that sees the trace up to and
  including the call.
* `abort()` is the `aborted` result, carrying the state at the abort.
-/

namespace HVF

/-! ## Machine integers -/

/-- Reduction to `uint64_t`. -/
def u64 (x : Nat) : Nat := x % 2 ^ 64

/-- Reduction to `uint32_t`. -/
def u32 (x : Nat) : Nat := x % 2 ^ 32

/-! ## Memory slots (`include/sysemu/hvf.h`, `hvf-all.c`) -/

/-- `typedef struct hvf_slot` of `sysemu/hvf.h`. -/
structure hvf_slot where
  start : Nat
  size : Nat
  mem : Nat
  slot_id : Nat
  deriving DecidableEq, Repr

/-- `struct mac_slot` of `hvf-all.c`. -/
structure mac_slot where
  present : Nat
  size : Nat
  gpa_start : Nat
  gva : Nat
  deriving DecidableEq, Repr

/-- The two Hypervisor.framework memory calls issued by `__hvf_set_memory`. -/
inductive HvCall where
  | hv_vm_map (uva gpa size flags : Nat)
  | hv_vm_unmap (gpa size : Nat)
  deriving DecidableEq, Repr

/-- `typedef struct HVFState`: the slot array and `num_slots`. -/
structure HVFState where
  slots : List hvf_slot
  num_slots : Nat
  deriving DecidableEq, Repr

/-- The process-wide state the slot manager works on: `hvf_state`, the global
`mac_slots[32]` shadow table, and the hypervisor calls issued so far. -/
structure MemWorld where
  hvf_state : HVFState
  mac_slots : List mac_slot
  trace : List HvCall
  deriving DecidableEq, Repr

/-- Result of a routine that may call `abort()`. -/
inductive Run (α : Type) where
  | done (a : α)
  | aborted (w : MemWorld)
  deriving Repr

/-- `HV_SUCCESS` of `<Hypervisor/hv_error.h>` (system header). -/
def HV_SUCCESS : Nat := 0

/-- `HV_MEMORY_READ | HV_MEMORY_WRITE | HV_MEMORY_EXEC` of `<Hypervisor/hv.h>`. -/
def HV_MEMORY_RWX : Nat := 1 ||| 2 ||| 4

/-- `assert_hvf_ok`: returns normally (`some ()`) on `HV_SUCCESS`, aborts
(`none`) on every other status. -/
def assert_hvf_ok (ret : Nat) : Option Unit :=
  if ret = HV_SUCCESS then some () else none

/-- The zero-filled slot, as left by `g_new0`. -/
def hvf_slot.zero : hvf_slot := { start := 0, size := 0, mem := 0, slot_id := 0 }

/-- The zero-filled `mac_slot` of the global array. -/
def mac_slot.zero : mac_slot := { present := 0, size := 0, gpa_start := 0, gva := 0 }

/-- The loop of `hvf_find_overlap_slot`, from index `x` over the remaining slots. -/
def hvf_find_overlap_slot.loop (start end_ : Nat) : List hvf_slot → Nat → Option Nat
  | [], _ => none
  | slot :: rest, x =>
    if slot.size ≠ 0 ∧ start < u64 (slot.start + slot.size) ∧ end_ > slot.start then
      some x
    else
      hvf_find_overlap_slot.loop start end_ rest (x + 1)

/-- `hvf_find_overlap_slot(start, end)`: index of the first slot `x < num_slots`
with `slot->size && start < slot->start + slot->size && end > slot->start`, or
`none` for `NULL`. -/
def hvf_find_overlap_slot (s : HVFState) (start end_ : Nat) : Option Nat :=
  hvf_find_overlap_slot.loop start end_ (s.slots.take s.num_slots) 0

/-- Issue a hypervisor call: append it to the trace and read its status. -/
def hv_call (hv : List HvCall → Nat) (w : MemWorld) (c : HvCall) : MemWorld × Nat :=
  let t := w.trace ++ [c]
  ({ w with trace := t }, hv t)

/-- `__hvf_set_memory(slot)` for the slot at index `i`. Returns the new state
and the `int` result, or the state at the `abort()` of `assert_hvf_ok`. -/
def __hvf_set_memory (hv : List HvCall → Nat) (w : MemWorld) (i : Nat) : Run (MemWorld × Nat) :=
  let slot := w.hvf_state.slots.getD i hvf_slot.zero
  let m := slot.slot_id
  let macslot := w.mac_slots.getD m mac_slot.zero
  -- if (macslot->present) { if (macslot->size != slot->size) { ... } }
  let r1 : Run MemWorld :=
    if macslot.present ≠ 0 ∧ macslot.size ≠ slot.size then
      let macslot1 := { macslot with present := 0 }
      let w1 := { w with mac_slots := w.mac_slots.set m macslot1 }
      let (w2, ret) := hv_call hv w1 (.hv_vm_unmap macslot.gpa_start macslot.size)
      match assert_hvf_ok ret with
      | some _ => .done w2
      | none => .aborted w2
    else .done w
  match r1 with
  | .aborted wa => .aborted wa
  | .done w2 =>
    if slot.size = 0 then .done (w2, 0)
    else
      let macslot2 := w2.mac_slots.getD m mac_slot.zero
      let macslot3 := { macslot2 with present := 1, gpa_start := slot.start, size := slot.size }
      let w3 := { w2 with mac_slots := w2.mac_slots.set m macslot3 }
      let (w4, ret) := hv_call hv w3 (.hv_vm_map slot.mem slot.start slot.size HV_MEMORY_RWX)
      match assert_hvf_ok ret with
      | some _ => .done (w4, 0)
      | none => .aborted w4

/-- The fields of a `MemoryRegionSection` read by `hvf_set_phys_mem`:
`memory_region_is_ram(section->mr)`, `offset_within_address_space`,
`int128_get64(section->size)`, `memory_region_get_ram_ptr(section->mr)` and
`offset_within_region`. -/
structure MemoryRegionSection where
  is_ram : Bool
  offset_within_address_space : Nat
  size : Nat
  ram_ptr : Nat
  offset_within_region : Nat
  deriving DecidableEq, Repr

/-- `memory_region_get_ram_ptr(area) + section->offset_within_region`. -/
def MemoryRegionSection.host (sec : MemoryRegionSection) : Nat :=
  u64 (sec.ram_ptr + sec.offset_within_region)

/-- The free-slot scan of `hvf_set_phys_mem`: first `x` with `!mem->size`,
counting from `x`; `none` when the loop runs to `num_slots`. -/
def find_free_slot : List hvf_slot → Nat → Option Nat
  | [], _ => none
  | mem :: rest, x => if mem.size = 0 then some x else find_free_slot rest (x + 1)

/-- Store `f slot` into `slots[i]`. -/
def update_slot (w : MemWorld) (i : Nat) (f : hvf_slot → hvf_slot) : MemWorld :=
  { w with hvf_state := { w.hvf_state with
      slots := w.hvf_state.slots.set i (f (w.hvf_state.slots.getD i hvf_slot.zero)) } }

/-- `hvf_set_phys_mem(section, add)`. -/
def hvf_set_phys_mem (hv : List HvCall → Nat) (w : MemWorld) (sec : MemoryRegionSection)
    (add : Bool) : Run MemWorld :=
  if !sec.is_ram then .done w
  else
    let mem := hvf_find_overlap_slot w.hvf_state sec.offset_within_address_space
                 (u64 (sec.offset_within_address_space + sec.size))
    -- if (mem && add) { if (same size, start, mem) return; }
    let same : Bool :=
      match mem with
      | some i =>
        let s := w.hvf_state.slots.getD i hvf_slot.zero
        add && decide (s.size = sec.size ∧ s.start = sec.offset_within_address_space ∧
                        s.mem = sec.host)
      | none => false
    if same then .done w
    else
      -- if (mem) { mem->size = 0; if (__hvf_set_memory(mem)) abort(); }
      let r1 : Run MemWorld :=
        match mem with
        | some i =>
          match __hvf_set_memory hv (update_slot w i (fun s => { s with size := 0 })) i with
          | .aborted wa => .aborted wa
          | .done (w1, ret) => if ret ≠ 0 then .aborted w1 else .done w1
        | none => .done w
      match r1 with
      | .aborted wa => .aborted wa
      | .done w1 =>
        if !add then .done w1
        else
          match find_free_slot (w1.hvf_state.slots.take w1.hvf_state.num_slots) 0 with
          | none => .aborted w1
          | some x =>
            let w2 := update_slot w1 x (fun s =>
              { s with size := sec.size, mem := sec.host,
                       start := sec.offset_within_address_space })
            match __hvf_set_memory hv w2 x with
            | .aborted wa => .aborted wa
            | .done (w3, ret) => if ret ≠ 0 then .aborted w3 else .done w3

/-- The state built by `hvf_accel_init` once `hv_vm_create` has returned `ret`:
`num_slots = 32`, every slot zero-filled with `size = 0` and `slot_id = x`;
the global `mac_slots` array is zero-initialised. `none` when `assert_hvf_ok`
aborts. -/
def hvf_accel_init (ret : Nat) : Option MemWorld :=
  match assert_hvf_ok ret with
  | none => none
  | some _ =>
    some { hvf_state := { slots := (List.range 32).map (fun x => { hvf_slot.zero with slot_id := x }),
                          num_slots := 32 },
           mac_slots := List.replicate 32 mac_slot.zero,
           trace := [] }

/-- A region event of the memory listener: `hvf_region_add` calls
`hvf_set_phys_mem(section, true)`, `hvf_region_del` calls it with `false`. -/
structure RegionEvent where
  sec : MemoryRegionSection
  add : Bool
  deriving DecidableEq, Repr

/-- Apply a finite sequence of region events, stopping at the first abort. -/
def apply_events (hv : List HvCall → Nat) : MemWorld → List RegionEvent → Run MemWorld
  | w, [] => .done w
  | w, e :: es =>
    match hvf_set_phys_mem hv w e.sec e.add with
    | .aborted wa => .aborted wa
    | .done w1 => apply_events hv w1 es

/-- The half-open guest-physical ranges of two active slots intersect. -/
def slots_intersect (a b : hvf_slot) : Prop :=
  a.size ≠ 0 ∧ b.size ≠ 0 ∧ a.start < b.start + b.size ∧ b.start < a.start + a.size

instance (a b : hvf_slot) : Decidable (slots_intersect a b) := by
  unfold slots_intersect; infer_instance

/-- No two distinct slots of the table are active with intersecting ranges. -/
def no_overlap (slots : List hvf_slot) : Prop :=
  slots.Pairwise (fun a b => ¬ slots_intersect a b)

instance (slots : List hvf_slot) : Decidable (no_overlap slots) := by
  unfold no_overlap; infer_instance

/-- The slots with nonzero size, in index order. -/
def active_slots (w : MemWorld) : List hvf_slot :=
  w.hvf_state.slots.filter (fun s => s.size ≠ 0)

/-- A hypervisor whose every call returns `HV_SUCCESS`. -/
def hv_ok : List HvCall → Nat := fun _ => HV_SUCCESS

/-- A RAM section `[start, start + size)` whose host backing address is `host`. -/
def ram_section (start size host : Nat) : MemoryRegionSection :=
  { is_ram := true, offset_within_address_space := start, size := size,
    ram_ptr := host, offset_within_region := 0 }

/-- A table in which slot 0 is the only slot that may be active: slot 0 and its
`mac_slots` entry are given, the other 31 slots are `rest`. -/
def head_world (slot : hvf_slot) (rest : List hvf_slot) (m : mac_slot) (mrest : List mac_slot)
    (tr : List HvCall) : MemWorld :=
  { hvf_state := { slots := slot :: rest, num_slots := 32 }, mac_slots := m :: mrest, trace := tr }


/-! ## CPUID virtualizer (`hvf-utils/x86_cpuid.c`) -/

/-- Modelled from the spec: `struct x86_cpuid` is declared in `x86_cpuid.h`, which
is not among the sources. The profile of the specification (vendor triplet,
family/model/stepping, extended feature sets, level and extended level, model
string) with the fields named by the initialisers of `builtin_cpus` and read by
`get_cpuid_func`. `xlevel2` is read by `get_cpuid_func` and named by no
initialiser, hence zero in every built-in profile. The base feature words
`features` and `ext_features` are read by no function of the sources and are
left out. -/
structure x86_cpuid where
  name : String
  level : Nat
  vendor1 : Nat
  vendor2 : Nat
  vendor3 : Nat
  family : Nat
  model : Nat
  stepping : Nat
  ext2_features : Nat
  ext3_features : Nat
  xlevel : Nat
  model_id : String
  xlevel2 : Nat
  deriving DecidableEq, Repr

/-- Modelled from the spec: `CPUID_VENDOR_INTEL_1` ("Genu") of `target/i386/cpu.h`,
which is not among the sources. -/
def CPUID_VENDOR_INTEL_1 : Nat := 0x756e6547
/-- Modelled from the spec: `CPUID_VENDOR_INTEL_2` ("ineI") of `target/i386/cpu.h`. -/
def CPUID_VENDOR_INTEL_2 : Nat := 0x49656e69
/-- Modelled from the spec: `CPUID_VENDOR_INTEL_3` ("ntel") of `target/i386/cpu.h`. -/
def CPUID_VENDOR_INTEL_3 : Nat := 0x6c65746e

/-- Modelled from the spec: leaf 0x80000001 EDX bits of `target/i386/cpu.h`
(SYSCALL bit 11, NX bit 20, long mode bit 29). -/
def CPUID_EXT2_SYSCALL : Nat := 1 <<< 11
/-- Modelled from the spec: `CPUID_EXT2_NX`, bit 20. -/
def CPUID_EXT2_NX : Nat := 1 <<< 20
/-- Modelled from the spec: `CPUID_EXT2_LM`, bit 29. -/
def CPUID_EXT2_LM : Nat := 1 <<< 29
/-- Modelled from the spec: `CPUID_EXT3_LAHF_LM`, leaf 0x80000001 ECX bit 0. -/
def CPUID_EXT3_LAHF_LM : Nat := 1 <<< 0

/-- Modelled from the spec: leaf 1 ECX bits of `target/i386/cpu.h`, which is not
among the sources; the bit positions are the architectural ones the
specification names (MONITOR 3, VMX 5, EST 7, TM2 8, PCID 17, SSE4.1 19,
SSE4.2 20, x2APIC 21, TSC-deadline 24, OSXSAVE 27, hypervisor 31). -/
def CPUID_EXT_MONITOR : Nat := 1 <<< 3
/-- Modelled from the spec: `CPUID_EXT_VMX`, bit 5. -/
def CPUID_EXT_VMX : Nat := 1 <<< 5
/-- Modelled from the spec: `CPUID_EXT_EST`, bit 7. -/
def CPUID_EXT_EST : Nat := 1 <<< 7
/-- Modelled from the spec: `CPUID_EXT_TM2`, bit 8. -/
def CPUID_EXT_TM2 : Nat := 1 <<< 8
/-- Modelled from the spec: `CPUID_EXT_PCID`, bit 17. -/
def CPUID_EXT_PCID : Nat := 1 <<< 17
/-- Modelled from the spec: `CPUID_EXT_SSE41`, bit 19. -/
def CPUID_EXT_SSE41 : Nat := 1 <<< 19
/-- Modelled from the spec: `CPUID_EXT_SSE42`, bit 20. -/
def CPUID_EXT_SSE42 : Nat := 1 <<< 20
/-- Modelled from the spec: `CPUID_EXT_X2APIC`, bit 21. -/
def CPUID_EXT_X2APIC : Nat := 1 <<< 21
/-- Modelled from the spec: `CPUID_EXT_TSC_DEADLINE_TIMER`, bit 24. -/
def CPUID_EXT_TSC_DEADLINE_TIMER : Nat := 1 <<< 24
/-- Modelled from the spec: `CPUID_EXT_OSXSAVE`, bit 27. -/
def CPUID_EXT_OSXSAVE : Nat := 1 <<< 27
/-- Modelled from the spec: `CPUID_EXT_HYPERVISOR`, bit 31. -/
def CPUID_EXT_HYPERVISOR : Nat := 1 <<< 31

/-- Modelled from the spec: leaf 7 EBX bits of `target/i386/cpu.h`, which is not
among the sources (INVPCID 10, MPX 14, AVX512F 16, AVX512PF 26, AVX512ER 27,
AVX512CD 28, AVX512BW 30, AVX512VL 31). -/
def CPUID_7_0_EBX_INVPCID : Nat := 1 <<< 10
/-- Modelled from the spec: `CPUID_7_0_EBX_MPX`, bit 14. -/
def CPUID_7_0_EBX_MPX : Nat := 1 <<< 14
/-- Modelled from the spec: `CPUID_7_0_EBX_AVX512F`, bit 16. -/
def CPUID_7_0_EBX_AVX512F : Nat := 1 <<< 16
/-- Modelled from the spec: `CPUID_7_0_EBX_AVX512PF`, bit 26. -/
def CPUID_7_0_EBX_AVX512PF : Nat := 1 <<< 26
/-- Modelled from the spec: `CPUID_7_0_EBX_AVX512ER`, bit 27. -/
def CPUID_7_0_EBX_AVX512ER : Nat := 1 <<< 27
/-- Modelled from the spec: `CPUID_7_0_EBX_AVX512CD`, bit 28. -/
def CPUID_7_0_EBX_AVX512CD : Nat := 1 <<< 28
/-- Modelled from the spec: `CPUID_7_0_EBX_AVX512BW`, bit 30. -/
def CPUID_7_0_EBX_AVX512BW : Nat := 1 <<< 30
/-- Modelled from the spec: `CPUID_7_0_EBX_AVX512VL`, bit 31. -/
def CPUID_7_0_EBX_AVX512VL : Nat := 1 <<< 31
/-- Modelled from the spec: `CPUID_7_0_ECX_AVX512BMI` (AVX512VBMI), leaf 7 ECX bit 1. -/
def CPUID_7_0_ECX_AVX512BMI : Nat := 1 <<< 1

/-- Modelled from the spec: XSAVE state-component masks of `target/i386/cpu.h`
(x87 bit 0, SSE bit 1, AVX/YMM bit 2). -/
def XSTATE_FP_MASK : Nat := 1 <<< 0
/-- Modelled from the spec: `XSTATE_SSE_MASK`, bit 1. -/
def XSTATE_SSE_MASK : Nat := 1 <<< 1
/-- Modelled from the spec: `XSTATE_YMM_MASK`, bit 2. -/
def XSTATE_YMM_MASK : Nat := 1 <<< 2
/-- Modelled from the spec: `CPUID_XSAVE_XSAVEOPT`, leaf 0xD sub-leaf 1 EAX bit 0. -/
def CPUID_XSAVE_XSAVEOPT : Nat := 1 <<< 0
/-- Modelled from the spec: `CPUID_XSAVE_XSAVEC`, leaf 0xD sub-leaf 1 EAX bit 1. -/
def CPUID_XSAVE_XSAVEC : Nat := 1 <<< 1

/-- `builtin_cpus[0]`, "vmx32". -/
def cpu_vmx32 : x86_cpuid :=
  { name := "vmx32",
    vendor1 := CPUID_VENDOR_INTEL_1, vendor2 := CPUID_VENDOR_INTEL_2,
    vendor3 := CPUID_VENDOR_INTEL_3,
    level := 4, family := 6, model := 3, stepping := 3,
    ext2_features := CPUID_EXT2_LM ||| CPUID_EXT2_SYSCALL ||| CPUID_EXT2_NX,
    ext3_features := 0,
    xlevel := 0x80000004,
    model_id := "vmx32",
    xlevel2 := 0 }

/-- `builtin_cpus[1]`, "core2duo". -/
def cpu_core2duo : x86_cpuid :=
  { name := "core2duo",
    vendor1 := CPUID_VENDOR_INTEL_1, vendor2 := CPUID_VENDOR_INTEL_2,
    vendor3 := CPUID_VENDOR_INTEL_3,
    level := 10, family := 6, model := 15, stepping := 11,
    ext2_features := CPUID_EXT2_LM ||| CPUID_EXT2_SYSCALL ||| CPUID_EXT2_NX,
    ext3_features := CPUID_EXT3_LAHF_LM,
    xlevel := 0x80000008,
    model_id := "Intel(R) Core(TM)2 Duo GETCPU     T7700  @ 2.40GHz",
    xlevel2 := 0 }

/-- `builtin_cpus[2]`, "vmX". -/
def cpu_vmX : x86_cpuid :=
  { name := "vmX",
    vendor1 := CPUID_VENDOR_INTEL_1, vendor2 := CPUID_VENDOR_INTEL_2,
    vendor3 := CPUID_VENDOR_INTEL_3,
    level := 0xd, family := 6, model := 15, stepping := 11,
    ext2_features := CPUID_EXT2_LM ||| CPUID_EXT2_SYSCALL ||| CPUID_EXT2_NX,
    ext3_features := CPUID_EXT3_LAHF_LM,
    xlevel := 0x80000008,
    model_id := "Common vmX processor",
    xlevel2 := 0 }

/-- `struct x86_cpuid builtin_cpus[]`. -/
def builtin_cpus : List x86_cpuid := [cpu_vmx32, cpu_core2duo, cpu_vmX]

/-- `init_cpuid`: the value stored in the static `_cpuid`, `&builtin_cpus[2]`. -/
def init_cpuid : x86_cpuid := builtin_cpus.get ⟨2, by decide⟩

/-- The four output registers of CPUID (also the four values `host_cpuid` returns). -/
structure cpuid_regs where
  eax : Nat
  ebx : Nat
  ecx : Nat
  edx : Nat
  deriving DecidableEq, Repr

/-- Bitwise complement of a `uint32_t`. -/
def not32 (m : Nat) : Nat := 0xffffffff ^^^ m

/-- The statements of `case 0xC0000000`, which `case 0x80000019` falls into. -/
def cpuid_case_C0000000 (_cpuid : x86_cpuid) (r : cpuid_regs) : cpuid_regs :=
  { r with eax := _cpuid.xlevel2, ebx := 0, ecx := 0, edx := 0 }

/-- `get_cpuid_func(cpu, func, cnt, &eax, &ebx, &ecx, &edx)`.
`_cpuid` is the static profile pointer, `host` the result of
`host_cpuid(func, cnt, ...)`, `apic_id` is `X86_CPU(cpu)->apic_id`, and
`nr_cores`, `nr_threads` are the fields of `cpu`. `func` is the 32-bit pattern
the `int` argument carries (the caller passes the guest's `uint32_t` RAX). -/
def get_cpuid_func (_cpuid : x86_cpuid) (host : cpuid_regs) (apic_id nr_cores nr_threads : Nat)
    (func cnt : Nat) : cpuid_regs :=
  let h_rax := host.eax
  let h_rbx := host.ebx
  let h_rcx := host.ecx
  let h_rdx := host.edx
  if func = 0 then
    { eax := _cpuid.level, ebx := _cpuid.vendor1, edx := _cpuid.vendor2, ecx := _cpuid.vendor3 }
  else if func = 1 then
    let eax := h_rax
    let ebx := u32 (apic_id <<< 24) ||| (h_rbx &&& 0x00ffffff)
    let ecx := h_rcx
    let edx := h_rdx
    let ebx := if nr_cores * nr_threads > 1 then ebx ||| u32 ((nr_cores * nr_threads) <<< 16)
               else ebx
    let edx := if nr_cores * nr_threads > 1 then edx ||| (1 <<< 28) else edx
    let ecx := ecx &&& not32 (CPUID_EXT_OSXSAVE ||| CPUID_EXT_MONITOR |||
                              CPUID_EXT_X2APIC ||| CPUID_EXT_VMX |||
                              CPUID_EXT_TSC_DEADLINE_TIMER ||| CPUID_EXT_TM2 |||
                              CPUID_EXT_PCID ||| CPUID_EXT_EST ||| CPUID_EXT_SSE42 |||
                              CPUID_EXT_SSE41)
    let ecx := ecx ||| CPUID_EXT_HYPERVISOR
    { eax := eax, ebx := ebx, ecx := ecx, edx := edx }
  else if func = 2 then
    { eax := h_rax, ebx := h_rbx, ecx := h_rcx, edx := h_rdx }
  else if func = 4 then
    { eax := h_rax, ebx := h_rbx, ecx := h_rcx, edx := h_rdx }
  else if func = 5 then
    { eax := h_rax, ebx := h_rbx, ecx := h_rcx, edx := h_rdx }
  else if func = 6 then
    { eax := 0, ebx := 0, ecx := 0, edx := 0 }
  else if func = 7 then
    { eax := h_rax,
      ebx := h_rbx &&& not32 (CPUID_7_0_EBX_AVX512F ||| CPUID_7_0_EBX_AVX512PF |||
                              CPUID_7_0_EBX_AVX512ER ||| CPUID_7_0_EBX_AVX512CD |||
                              CPUID_7_0_EBX_AVX512BW ||| CPUID_7_0_EBX_AVX512VL |||
                              CPUID_7_0_EBX_MPX ||| CPUID_7_0_EBX_INVPCID),
      ecx := h_rcx &&& not32 CPUID_7_0_ECX_AVX512BMI,
      edx := h_rdx }
  else if func = 9 then
    { eax := h_rax, ebx := h_rbx, ecx := h_rcx, edx := h_rdx }
  else if func = 0xA then
    { eax := 0, ebx := 0, ecx := 0, edx := 0 }
  else if func = 0xB then
    { eax := 0, ebx := 0, ecx := 0, edx := 0 }
  else if func = 0xD then
    let eax := h_rax
    let eax := if cnt = 0 then eax &&& (XSTATE_FP_MASK ||| XSTATE_SSE_MASK ||| XSTATE_YMM_MASK)
               else eax
    let eax := if 1 = cnt then eax &&& (CPUID_XSAVE_XSAVEOPT ||| CPUID_XSAVE_XSAVEC) else eax
    { eax := eax, ebx := h_rbx, ecx := h_rcx, edx := h_rdx }
  else if func = 0x80000000 then
    { eax := _cpuid.xlevel, ebx := _cpuid.vendor1, edx := _cpuid.vendor2, ecx := _cpuid.vendor3 }
  else if func = 0x80000001 then
    { eax := h_rax, ebx := 0, ecx := _cpuid.ext3_features &&& h_rcx,
      edx := _cpuid.ext2_features &&& h_rdx }
  else if func = 0x80000002 ∨ func = 0x80000003 ∨ func = 0x80000004 then
    { eax := h_rax, ebx := h_rbx, ecx := h_rcx, edx := h_rdx }
  else if func = 0x80000005 then
    { eax := h_rax, ebx := h_rbx, ecx := h_rcx, edx := h_rdx }
  else if func = 0x80000006 then
    { eax := h_rax, ebx := h_rbx, ecx := h_rcx, edx := h_rdx }
  else if func = 0x80000007 then
    { eax := 0, ebx := 0, ecx := 0, edx := 0 }
  else if func = 0x80000008 then
    { eax := h_rax, ebx := 0, ecx := 0, edx := 0 }
  else if func = 0x8000000A then
    { eax := 0, ebx := 0, ecx := 0, edx := 0 }
  else if func = 0x80000019 then
    -- no break: control falls into case 0xC0000000
    cpuid_case_C0000000 _cpuid { eax := h_rax, ebx := h_rbx, ecx := 0, edx := 0 }
  else if func = 0xC0000000 then
    cpuid_case_C0000000 _cpuid { eax := 0, ebx := 0, ecx := 0, edx := 0 }
  else
    { eax := 0, ebx := 0, ecx := 0, edx := 0 }

/-- The logical-processor-count field, bits 23..16 of leaf 1 EBX. -/
def ebx_logical_count (ebx : Nat) : Nat := (ebx >>> 16) % 256

/-! ## vCPU state and the run loop (`hvf-all.c`) -/

/-- `HV_X86_RIP` and the other `hv_x86_reg_t` values used by `hvf-all.c`, as numbered
in `<Hypervisor/hv_arch_x86.h>` (system header). -/
def HV_X86_RIP : Nat := 0
/-- `HV_X86_RFLAGS`. -/
def HV_X86_RFLAGS : Nat := 1
/-- `HV_X86_RAX`. -/
def HV_X86_RAX : Nat := 2
/-- `HV_X86_RCX`. -/
def HV_X86_RCX : Nat := 3
/-- `HV_X86_RDX`. -/
def HV_X86_RDX : Nat := 4
/-- `HV_X86_RBX`. -/
def HV_X86_RBX : Nat := 5
/-- `HV_X86_RSI`. -/
def HV_X86_RSI : Nat := 6
/-- `HV_X86_RDI`. -/
def HV_X86_RDI : Nat := 7
/-- `HV_X86_RSP`. -/
def HV_X86_RSP : Nat := 8
/-- `HV_X86_RBP`. -/
def HV_X86_RBP : Nat := 9
/-- `HV_X86_R8`; `HV_X86_R8 + i` is `R(8 + i)` for `i < 8`. -/
def HV_X86_R8 : Nat := 10
/-- `HV_X86_TPR`. -/
def HV_X86_TPR : Nat := 49
/-- `HV_X86_XCR0`. -/
def HV_X86_XCR0 : Nat := 50

/-- Modelled from the spec: the VMCS field names of `hvf-utils/vmcs.h`, which is not
among the sources. The control fields are named, not numbered: the code only
passes them to `rvmcs` / `wvmcs`. -/
inductive vmcs_field where
  | VMCS_PIN_BASED_CTLS | VMCS_PRI_PROC_BASED_CTLS | VMCS_SEC_PROC_BASED_CTLS
  | VMCS_ENTRY_CTLS | VMCS_EXCEPTION_BITMAP | VMCS_TPR_THRESHOLD
  | VMCS_EXIT_REASON | VMCS_EXIT_QUALIFICATION | VMCS_EXIT_INSTRUCTION_LENGTH
  | VMCS_IDT_VECTORING_INFO | VMCS_GUEST_PHYSICAL_ADDRESS | VMCS_GUEST_INTERRUPTIBILITY
  | VMCS_GUEST_IA32_EFER | VMCS_CR4_MASK | VMCS_CR4_SHADOW | VMCS_GUEST_CR4 | VMCS_GUEST_CR3
  | VMCS_GUEST_CS_SELECTOR | VMCS_GUEST_CS_LIMIT | VMCS_GUEST_CS_ACCESS_RIGHTS | VMCS_GUEST_CS_BASE
  | VMCS_GUEST_DS_SELECTOR | VMCS_GUEST_DS_LIMIT | VMCS_GUEST_DS_ACCESS_RIGHTS | VMCS_GUEST_DS_BASE
  | VMCS_GUEST_ES_SELECTOR | VMCS_GUEST_ES_LIMIT | VMCS_GUEST_ES_ACCESS_RIGHTS | VMCS_GUEST_ES_BASE
  | VMCS_GUEST_FS_SELECTOR | VMCS_GUEST_FS_LIMIT | VMCS_GUEST_FS_ACCESS_RIGHTS | VMCS_GUEST_FS_BASE
  | VMCS_GUEST_GS_SELECTOR | VMCS_GUEST_GS_LIMIT | VMCS_GUEST_GS_ACCESS_RIGHTS | VMCS_GUEST_GS_BASE
  | VMCS_GUEST_SS_SELECTOR | VMCS_GUEST_SS_LIMIT | VMCS_GUEST_SS_ACCESS_RIGHTS | VMCS_GUEST_SS_BASE
  | VMCS_GUEST_LDTR_SELECTOR | VMCS_GUEST_LDTR_LIMIT | VMCS_GUEST_LDTR_ACCESS_RIGHTS
  | VMCS_GUEST_LDTR_BASE
  | VMCS_GUEST_TR_SELECTOR | VMCS_GUEST_TR_LIMIT | VMCS_GUEST_TR_ACCESS_RIGHTS | VMCS_GUEST_TR_BASE
  | VMCS_GUEST_GDTR_LIMIT | VMCS_GUEST_GDTR_BASE | VMCS_GUEST_IDTR_LIMIT | VMCS_GUEST_IDTR_BASE
  deriving DecidableEq, Repr

/-- The hardware side of a vCPU, reached through `cpu->hvf_fd`: the native
register file (`rreg` / `wreg`) and the VMCS fields (`rvmcs` / `wvmcs`). -/
structure HwState where
  reg : Nat → Nat
  vmcs : vmcs_field → Nat

/-- Modelled from the spec: the emulator register view `cpu->hvf_x86` behind the
macros `RRX(cpu, i)`, `RAX(cpu)`, `AL(cpu)`, `AX(cpu)`, `RIP(cpu)`, `RFLAGS(cpu)`
and `EFLAGS(cpu)` of `hvf-utils/x86.h`, which is not among the sources:
sixteen general registers indexed by their instruction encoding (0 = RAX,
1 = RCX, 2 = RDX, 3 = RBX, 4 = RSP, 5 = RBP, 6 = RSI, 7 = RDI, 8..15),
the instruction pointer and the flags. -/
structure EmuRegs where
  regs : Nat → Nat
  rip : Nat
  rflags : Nat

/-- The capability words `hvf_init_vcpu` reads with `hv_vmx_read_capability`
(`hv_vmx_capability_t` of `<Hypervisor/hv_vmx.h>`, system header). -/
inductive hv_vmx_capability_t where
  | HV_VMX_CAP_PINBASED | HV_VMX_CAP_PROCBASED | HV_VMX_CAP_PROCBASED2 | HV_VMX_CAP_ENTRY
  deriving DecidableEq, Repr

/-- The model-specific registers `hvf_init_vcpu` hands to `hv_vcpu_enable_native_msr`,
by the names the code uses. -/
inductive native_msr where
  | MSR_STAR | MSR_LSTAR | MSR_CSTAR | MSR_FMASK | MSR_FSBASE | MSR_GSBASE
  | MSR_KERNELGSBASE | MSR_TSC_AUX | MSR_IA32_SYSENTER_CS | MSR_IA32_SYSENTER_EIP
  | MSR_IA32_SYSENTER_ESP
  deriving DecidableEq, Repr

/-- `struct hvf_vcpu_caps` of `sysemu/hvf.h`: the capability snapshot. -/
structure hvf_vcpu_caps where
  vmx_cap_pinbased : Nat
  vmx_cap_procbased : Nat
  vmx_cap_procbased2 : Nat
  vmx_cap_entry : Nat
  vmx_cap_exit : Nat
  vmx_cap_preemption_timer : Nat
  deriving DecidableEq, Repr

/-- Calls that leave `hvf-all.c`, in the order they are made. -/
inductive Event where
  | hvf_process_events
  | hvf_put_registers
  | hvf_get_registers
  | hvf_inject_interrupts
  | hv_vcpu_run
  | load_regs
  | store_regs
  | decode_instruction
  | exec_instruction
  | address_space_rw (port size is_write val : Nat)
  | simulate_rdmsr
  | simulate_wrmsr
  | macvm_set_cr0 (v : Nat)
  | macvm_set_cr4 (v : Nat)
  | vmx_handle_task_switch (sel reason gate_valid gate gate_type : Nat)
  | vmx_set_nmi_blocking
  | vmx_clear_int_window_exiting
  | vmx_clear_nmi_window_exiting
  | qemu_system_reset_request
  | usleep (us : Nat)
  | mark_slot_page_dirty (slot gpa : Nat)
  | hv_vm_protect (gpa size flags : Nat)
  | unhandled_exit (rip reason : Nat)
  | hv_vm_sync_tsc (tsc : Nat)
  | hv_vcpu_invalidate_tlb
  | hv_vcpu_flush
  | hv_vcpu_destroy
  | init_emu
  | init_decoder
  | init_cpuid
  | hv_vcpu_create
  | hv_vmx_read_capability (field : hv_vmx_capability_t)
  | hv_vcpu_enable_native_msr (msr : native_msr)
  deriving DecidableEq, Repr

/-- The fields of `CPUState` / `CPUX86State` that `hvf-all.c` reads and writes,
the hardware side, the emulator register view, the task priority held by the
APIC model (`cpu_get_apic_tpr` / `cpu_set_apic_tpr`), the capability snapshot
`cpu->hvf_caps`, and the log of calls. -/
structure VcpuState where
  halted : Nat
  hvf_vcpu_dirty : Nat
  interrupt_request : Nat
  hw : HwState
  emu : EmuRegs
  env_eflags : Nat
  env_xcr0 : Nat
  fetch_rip : Nat
  interruptable : Nat
  apic_tpr : Nat
  hvf_caps : hvf_vcpu_caps
  log : List Event

/-- Result of a vCPU routine: it returns, it reaches `abort()`, or it stays inside
`hv_vcpu_run` because the guest produces no further exit. -/
inductive Exec (α : Type) where
  | done (a : α)
  | aborted (s : VcpuState)
  | blocked (s : VcpuState)

/-- What the hardware holds when `hv_vcpu_run` comes back: its status and the
register file and VMCS after the guest ran (the exit record is read from them). -/
structure RunResult where
  ret : Nat
  hw : HwState

/-- The collaborators of `hvf-all.c` that are not among the sources, and the
configuration of the vCPU. Each collaborator is an arbitrary function of the
state it is given; the run loop fixes only which part of the state it may
replace. -/
structure VcpuEnv where
  /-- The static profile pointer of `x86_cpuid.c`. -/
  _cpuid : x86_cpuid
  /-- `X86_CPU(cpu)->apic_id`. -/
  apic_id : Nat
  /-- `cpu->nr_cores`. -/
  nr_cores : Nat
  /-- `cpu->nr_threads`. -/
  nr_threads : Nat
  /-- `cpu_is_bsp(X86_CPU(cpu))`. -/
  cpu_is_bsp : Bool
  /-- Whether `DIRTY_VGA_TRACKING` is defined. -/
  DIRTY_VGA_TRACKING : Bool
  /-- `host_cpuid(func, cnt, ...)`. -/
  host_cpuid : Nat → Nat → cpuid_regs
  /-- `hvf_process_events(cpu)`: new state and return value. -/
  hvf_process_events : VcpuState → VcpuState × Nat
  /-- `hvf_put_registers(cpu)`: the hardware state after the push. -/
  hvf_put_registers : VcpuState → HwState
  /-- `hvf_get_registers(cpu)`: the emulator-side `eflags` and `xcr0` after the pull. -/
  hvf_get_registers : VcpuState → Nat × Nat
  /-- `hvf_inject_interrupts(cpu)`: the hardware state and `interrupt_request` after it. -/
  hvf_inject_interrupts : VcpuState → HwState × Nat
  /-- `apic_get_highest_priority_irr(apic_state)`. -/
  apic_get_highest_priority_irr : VcpuState → Int
  /-- The value an I/O-space read of `size` bytes at `port` delivers. -/
  io_read : Nat → Nat → Nat
  /-- `decode.len` as filled in by `decode_instruction`. -/
  decode_len : VcpuState → Nat
  /-- `exec_instruction(cpu, &decode)`. -/
  exec_instruction : VcpuState → VcpuState
  /-- `simulate_rdmsr(cpu)`. -/
  simulate_rdmsr : VcpuState → VcpuState
  /-- `simulate_wrmsr(cpu)`. -/
  simulate_wrmsr : VcpuState → VcpuState
  /-- `vmx_handle_task_switch(cpu, ...)`. -/
  vmx_handle_task_switch : VcpuState → VcpuState
  /-- `macvm_set_cr0(cpu->hvf_fd, v)`: it is handed the hardware handle only. -/
  macvm_set_cr0 : HwState → Nat → HwState
  /-- `macvm_set_cr4(cpu->hvf_fd, v)`. -/
  macvm_set_cr4 : HwState → Nat → HwState
  /-- `vmx_set_nmi_blocking(cpu)`. -/
  vmx_set_nmi_blocking : HwState → HwState
  /-- `vmx_clear_int_window_exiting(cpu)`. -/
  vmx_clear_int_window_exiting : HwState → HwState
  /-- `vmx_clear_nmi_window_exiting(cpu)`. -/
  vmx_clear_nmi_window_exiting : HwState → HwState

/-- Modelled from the spec: `EXCP_INTERRUPT` of QEMU's `exec/cpu-all.h`, the
"interrupted" outcome. -/
def EXCP_INTERRUPT : Nat := 0x10000
/-- Modelled from the spec: `EXCP_HLT` of QEMU's `exec/cpu-all.h`, the "halted" outcome. -/
def EXCP_HLT : Nat := 0x10001
/-- Modelled from the spec: `CPU_INTERRUPT_HARD` of QEMU's `qom/cpu.h`. -/
def CPU_INTERRUPT_HARD : Nat := 0x0002
/-- Modelled from the spec: `CPU_INTERRUPT_NMI` of QEMU's `target/i386/cpu.h`. -/
def CPU_INTERRUPT_NMI : Nat := 0x0200
/-- Modelled from the spec: `IF_MASK`, the interrupt-enable bit of EFLAGS (bit 9). -/
def IF_MASK : Nat := 0x00000200
/-- Modelled from the spec: the valid bit (bit 31) of the IDT-vectoring information
field, `VMCS_IDT_VEC_VALID` of `vmcs.h`. -/
def VMCS_IDT_VEC_VALID : Nat := 1 <<< 31
/-- Modelled from the spec: `VMCS_INTR_VALID` (bit 31) of `vmcs.h`. -/
def VMCS_INTR_VALID : Nat := 1 <<< 31
/-- Modelled from the spec: `VMCS_INTR_T_MASK` (bits 10..8) of `vmcs.h`. -/
def VMCS_INTR_T_MASK : Nat := 0x700
/-- `VECTORING_INFO_VECTOR_MASK` of `hvf-all.c`. -/
def VECTORING_INFO_VECTOR_MASK : Nat := 0xff
/-- Modelled from the spec: blocking by STI, bit 0 of the interruptibility state. -/
def VMCS_INTERRUPTIBILITY_STI_BLOCKING : Nat := 1 <<< 0
/-- Modelled from the spec: blocking by MOV SS, bit 1 of the interruptibility state. -/
def VMCS_INTERRUPTIBILITY_MOVSS_BLOCKING : Nat := 1 <<< 1
/-- Modelled from the spec: "NMI unblocking due to IRET", bit 12 of the exit
qualification, `EXIT_QUAL_NMIUDTI` of `vmx.h`. -/
def EXIT_QUAL_NMIUDTI : Nat := 1 <<< 12
/-- Modelled from the spec: data-read bit (bit 0) of an EPT-violation qualification. -/
def EPT_VIOLATION_DATA_READ : Nat := 1 <<< 0
/-- Modelled from the spec: data-write bit (bit 1) of an EPT-violation qualification. -/
def EPT_VIOLATION_DATA_WRITE : Nat := 1 <<< 1
/-- Modelled from the spec: instruction-fetch bit (bit 2) of an EPT-violation
qualification. -/
def EPT_VIOLATION_INST_FETCH : Nat := 1 <<< 2
/-- Modelled from the spec: guest-linear-address-valid bit (bit 7) of an EPT-violation
qualification. -/
def EPT_VIOLATION_GLA_VALID : Nat := 1 <<< 7
/-- Modelled from the spec: translation-valid bit (bit 8) of an EPT-violation
qualification. -/
def EPT_VIOLATION_XLAT_VALID : Nat := 1 <<< 8
/-- `HV_MEMORY_READ | HV_MEMORY_EXEC` of `<Hypervisor/hv.h>`. -/
def HV_MEMORY_RX : Nat := 1 ||| 4
/-- `HV_MEMORY_WRITE` of `<Hypervisor/hv.h>`. -/
def HV_MEMORY_WRITE : Nat := 2

/-- Modelled from the spec: the basic exit reasons of `vmcs.h` / `<Hypervisor/hv_vmx.h>`,
which are not among the sources, with their architectural numbers. -/
def EXIT_REASON_EXT_INTR : Nat := 1
/-- Modelled from the spec: triple fault, exit reason 2. -/
def EXIT_REASON_TRIPLE_FAULT : Nat := 2
/-- Modelled from the spec: interrupt window, exit reason 7. -/
def EXIT_REASON_INTR_WINDOW : Nat := 7
/-- Modelled from the spec: NMI window, exit reason 8. -/
def EXIT_REASON_NMI_WINDOW : Nat := 8
/-- Modelled from the spec: task switch, exit reason 9. -/
def EXIT_REASON_TASK_SWITCH : Nat := 9
/-- Modelled from the spec: CPUID, exit reason 10. -/
def EXIT_REASON_CPUID : Nat := 10
/-- Modelled from the spec: HLT, exit reason 12. -/
def EXIT_REASON_HLT : Nat := 12
/-- Modelled from the spec: RDPMC, exit reason 15. -/
def EXIT_REASON_RDPMC : Nat := 15
/-- Modelled from the spec: VMCALL, exit reason 18. -/
def VMX_REASON_VMCALL : Nat := 18
/-- Modelled from the spec: control-register access, exit reason 28. -/
def EXIT_REASON_CR_ACCESS : Nat := 28
/-- Modelled from the spec: I/O instruction, exit reason 30. -/
def EXIT_REASON_INOUT : Nat := 30
/-- Modelled from the spec: RDMSR, exit reason 31. -/
def EXIT_REASON_RDMSR : Nat := 31
/-- Modelled from the spec: WRMSR, exit reason 32. -/
def EXIT_REASON_WRMSR : Nat := 32
/-- Modelled from the spec: MWAIT, exit reason 36. -/
def EXIT_REASON_MWAIT : Nat := 36
/-- Modelled from the spec: TPR below threshold, exit reason 43. -/
def EXIT_REASON_TPR : Nat := 43
/-- Modelled from the spec: APIC access, exit reason 44. -/
def EXIT_REASON_APIC_ACCESS : Nat := 44
/-- Modelled from the spec: EPT violation, exit reason 48. -/
def EXIT_REASON_EPT_FAULT : Nat := 48
/-- Modelled from the spec: XSETBV, exit reason 55. -/
def EXIT_REASON_XSETBV : Nat := 55

/-- Modelled from the spec: `rreg(cpu->hvf_fd, r)` of `vmx.h`, a read of the native
register file. -/
def rreg (s : VcpuState) (r : Nat) : Nat := s.hw.reg r

/-- Modelled from the spec: `wreg(cpu->hvf_fd, r, v)` of `vmx.h`, a write of a native
64-bit register. -/
def wreg (s : VcpuState) (r v : Nat) : VcpuState :=
  { s with hw := { s.hw with reg := Function.update s.hw.reg r (u64 v) } }

/-- Modelled from the spec: `rvmcs(cpu->hvf_fd, f)` of `vmx.h`. -/
def rvmcs (s : VcpuState) (f : vmcs_field) : Nat := s.hw.vmcs f

/-- Modelled from the spec: `wvmcs(cpu->hvf_fd, f, v)` of `vmx.h`. -/
def wvmcs (s : VcpuState) (f : vmcs_field) (v : Nat) : VcpuState :=
  { s with hw := { s.hw with vmcs := Function.update s.hw.vmcs f (u64 v) } }

/-- Record a call in the log. -/
def emit (s : VcpuState) (e : Event) : VcpuState := { s with log := s.log ++ [e] }

/-- A call of a collaborator that is handed `cpu`: it may replace every field of the
state; the call is recorded. -/
def collab_call (f : VcpuState → VcpuState) (e : Event) (s : VcpuState) : VcpuState :=
  { f s with log := s.log ++ [e] }

/-- A call of a collaborator that works on the hardware side only; the call is recorded. -/
def hw_call (f : HwState → HwState) (e : Event) (s : VcpuState) : VcpuState :=
  { s with hw := f s.hw, log := s.log ++ [e] }

/-- Modelled from the spec: `macvm_set_rip(cpu, rip)` of `vmx.h`, which is not among the
sources: the guest RIP in the native register file becomes `rip`. -/
def macvm_set_rip (s : VcpuState) (rip : Nat) : VcpuState := wreg s HV_X86_RIP rip

/-- The native register that holds the general register with encoding `i`. -/
def hv_gpr (i : Nat) : Nat :=
  [HV_X86_RAX, HV_X86_RCX, HV_X86_RDX, HV_X86_RBX, HV_X86_RSP, HV_X86_RBP, HV_X86_RSI,
   HV_X86_RDI, HV_X86_R8, HV_X86_R8 + 1, HV_X86_R8 + 2, HV_X86_R8 + 3, HV_X86_R8 + 4,
   HV_X86_R8 + 5, HV_X86_R8 + 6, HV_X86_R8 + 7].getD i 0

/-- The encoding of the general register held by native register `r`, `2 ≤ r < 18`. -/
def emu_gpr (r : Nat) : Nat :=
  [0, 1, 2, 3, 6, 7, 4, 5, 8, 9, 10, 11, 12, 13, 14, 15].getD (r - 2) 0

/-- Modelled from the spec: `load_regs(cpu)` (declared in `x86_emu.h`, defined outside
the sources) materialises the register view: the sixteen general registers,
RFLAGS and RIP are read from the native register file. -/
def load_regs (s : VcpuState) : VcpuState :=
  { s with
    emu := { regs := fun i => if i < 16 then s.hw.reg (hv_gpr i) else s.emu.regs i,
             rflags := s.hw.reg HV_X86_RFLAGS,
             rip := s.hw.reg HV_X86_RIP },
    log := s.log ++ [.load_regs] }

/-- Modelled from the spec: `store_regs(cpu)` (declared in `x86_emu.h`, defined outside
the sources) writes the register view back: the sixteen general registers,
RFLAGS and RIP go to the native register file. -/
def store_regs (s : VcpuState) : VcpuState :=
  { s with
    hw := { s.hw with
      reg := fun r =>
        if r = HV_X86_RIP then u64 s.emu.rip
        else if r = HV_X86_RFLAGS then u64 s.emu.rflags
        else if 2 ≤ r ∧ r < 18 then u64 (s.emu.regs (emu_gpr r))
        else s.hw.reg r },
    log := s.log ++ [.store_regs] }

/-- `RRX(cpu, reg) = v`. -/
def set_rrx (s : VcpuState) (reg v : Nat) : VcpuState :=
  { s with emu := { s.emu with regs := Function.update s.emu.regs reg (u64 v) } }

/-- `RIP(cpu) += n`. -/
def add_rip (s : VcpuState) (n : Nat) : VcpuState :=
  { s with emu := { s.emu with rip := u64 (s.emu.rip + n) } }

/-- `EFLAGS(cpu)`: the low 32 bits of `RFLAGS(cpu)`. -/
def EFLAGS (s : VcpuState) : Nat := u32 s.emu.rflags

/-- `cpu_set_apic_tpr(apic_state, val)` of the APIC model, with its `uint8_t` argument. -/
def cpu_set_apic_tpr (s : VcpuState) (val : Nat) : VcpuState :=
  { s with apic_tpr := val % 256 }

/-- `cpu_get_apic_tpr(apic_state)` of the APIC model. -/
def cpu_get_apic_tpr (s : VcpuState) : Nat := s.apic_tpr

/-- `vmx_update_tpr(cpu)`. -/
def vmx_update_tpr (env : VcpuEnv) (s : VcpuState) : VcpuState :=
  let tpr : Int := ((cpu_get_apic_tpr s) <<< 4 : Nat)
  let irr : Int := env.apic_get_highest_priority_irr s
  let s1 := wreg s HV_X86_TPR tpr.toNat
  if irr = -1 then
    wvmcs s1 .VMCS_TPR_THRESHOLD 0
  else
    wvmcs s1 .VMCS_TPR_THRESHOLD
      (if irr > tpr then tpr.toNat >>> 4 else ((irr >>> 4) % (2 ^ 64 : Int)).toNat)

/-- `update_apic_tpr(cpu)`. -/
def update_apic_tpr (s : VcpuState) : VcpuState :=
  let tpr := rreg s HV_X86_TPR >>> 4
  cpu_set_apic_tpr s tpr

/-- One access of `hvf_handle_io`: `address_space_rw(&address_space_io, port, ...,
ptr, size, direction)`. A read delivers `size` bytes from the I/O space; a
write takes the low `size` bytes of `data`. Returns the state and the value
transferred. -/
def address_space_rw (env : VcpuEnv) (s : VcpuState) (port data direction size : Nat) :
    VcpuState × Nat :=
  let v := if direction = 0 then env.io_read port size % 2 ^ (8 * size)
           else data % 2 ^ (8 * size)
  (emit s (.address_space_rw port size direction v), v)

/-- `hvf_handle_io(env, port, buffer, direction, size, count)`: `count` accesses of
`size` bytes at `port`, the buffer advancing by `size` each time. `buffer`
holds the units to be written; the result holds the units transferred. -/
def hvf_handle_io (env : VcpuEnv) (s : VcpuState) (port : Nat) (buffer : List Nat)
    (direction size : Nat) : Nat → VcpuState × List Nat
  | 0 => (s, [])
  | count + 1 =>
    let (s1, v) := address_space_rw env s (port % 2 ^ 16) (buffer.headD 0) direction size
    let (s2, vs) := hvf_handle_io env s1 port buffer.tail direction size count
    (s2, v :: vs)

/-- `__hvf_cpu_synchronize_state(cpu, arg)`. -/
def __hvf_cpu_synchronize_state (env : VcpuEnv) (s : VcpuState) : VcpuState :=
  let s1 :=
    if s.hvf_vcpu_dirty = 0 then
      { s with env_eflags := (env.hvf_get_registers s).1,
               env_xcr0 := (env.hvf_get_registers s).2,
               log := s.log ++ [.hvf_get_registers] }
    else s
  { s1 with hvf_vcpu_dirty := 1 }

/-- `hvf_cpu_synchronize_state(cpu_state)`; `run_on_cpu` runs the function on the
vCPU and waits for it. -/
def hvf_cpu_synchronize_state (env : VcpuEnv) (s : VcpuState) : VcpuState :=
  if s.hvf_vcpu_dirty = 0 then __hvf_cpu_synchronize_state env s else s

/-- `__hvf_cpu_synchronize_post_reset(cpu, arg)`. -/
def __hvf_cpu_synchronize_post_reset (env : VcpuEnv) (s : VcpuState) : VcpuState :=
  { s with hw := env.hvf_put_registers s, log := s.log ++ [.hvf_put_registers],
           hvf_vcpu_dirty := 0 }

/-- `ept_emulation_fault(ept_qual)`. -/
def ept_emulation_fault (ept_qual : Nat) : Bool :=
  if ept_qual &&& EPT_VIOLATION_INST_FETCH ≠ 0 then false
  else
    let read := if ept_qual &&& EPT_VIOLATION_DATA_READ ≠ 0 then 1 else 0
    let write := if ept_qual &&& EPT_VIOLATION_DATA_WRITE ≠ 0 then 1 else 0
    if (read ||| write) = 0 then false
    else if ept_qual &&& EPT_VIOLATION_GLA_VALID = 0 ∨
            ept_qual &&& EPT_VIOLATION_XLAT_VALID = 0 then false
    else true

/-- The exit record read from the hardware after `hv_vcpu_run`. -/
structure ExitRecord where
  exit_reason : Nat
  exit_qual : Nat
  ins_len : Nat
  idtvec_info : Nat
  rip : Nat

/-- The delegation to the instruction emulator used by three exit handlers:
`load_regs`, `fetch_rip = rip`, `decode_instruction`, for port I/O
`VM_PANIC_ON(ins_len != decode.len)`, `exec_instruction`, `store_regs`. -/
def emulate_instruction (env : VcpuEnv) (s : VcpuState) (rip : Nat) (check_len : Option Nat) :
    Exec VcpuState :=
  let s1 := load_regs s
  let s2 := { s1 with fetch_rip := rip }
  let s3 := emit s2 .decode_instruction
  if check_len.isSome ∧ check_len ≠ some (env.decode_len s2) then .aborted s3
  else
    let s4 := collab_call env.exec_instruction .exec_instruction s3
    .done (store_regs s4)

/-- The `switch (exit_reason)` of `hvf_vcpu_exec`, entered with `ret = 0`: the state
after the handler and the value of `ret` at the `while (ret == 0)` test.
`mem` is the slot table `hvf_state`. -/
def hvf_vcpu_exec.dispatch (env : VcpuEnv) (mem : HVFState) (s : VcpuState) (x : ExitRecord) :
    Exec (VcpuState × Nat) :=
  let exit_reason := x.exit_reason
  let exit_qual := x.exit_qual
  let ins_len := x.ins_len
  let idtvec_info := x.idtvec_info
  let rip := x.rip
  if exit_reason = EXIT_REASON_HLT then
    let s1 := macvm_set_rip s (rip + ins_len)
    let (s2, _ret) :=
      if ¬ (s1.interrupt_request &&& CPU_INTERRUPT_HARD ≠ 0 ∧ EFLAGS s1 &&& IF_MASK ≠ 0) ∧
          ¬ (s1.interrupt_request &&& CPU_INTERRUPT_NMI ≠ 0) ∧
          ¬ (idtvec_info &&& VMCS_IDT_VEC_VALID ≠ 0) then
        ({ s1 with halted := 1 }, EXCP_HLT)
      else (s1, 0)
    -- ret = EXCP_INTERRUPT, after the if
    .done (s2, EXCP_INTERRUPT)
  else if exit_reason = EXIT_REASON_MWAIT then
    .done (s, EXCP_INTERRUPT)
  else if exit_reason = EXIT_REASON_EPT_FAULT then
    let gpa := rvmcs s .VMCS_GUEST_PHYSICAL_ADDRESS
    let s1 :=
      if idtvec_info &&& VMCS_IDT_VEC_VALID = 0 ∧ exit_qual &&& EXIT_QUAL_NMIUDTI ≠ 0 then
        hw_call env.vmx_set_nmi_blocking .vmx_set_nmi_blocking s
      else s
    let slot := hvf_find_overlap_slot mem gpa gpa
    if ept_emulation_fault exit_qual ∧ slot = none then
      match emulate_instruction env s1 rip none with
      | .done s2 => .done (s2, 0)
      | .aborted sa => .aborted sa
      | .blocked sb => .blocked sb
    else
      match env.DIRTY_VGA_TRACKING, slot with
      | true, some i =>
        let read := exit_qual &&& EPT_VIOLATION_DATA_READ ≠ 0
        let write := exit_qual &&& EPT_VIOLATION_DATA_WRITE ≠ 0
        if ¬ read ∧ ¬ write then .done (s1, 0)
        else
          let flags := if write then HV_MEMORY_RX ||| HV_MEMORY_WRITE else HV_MEMORY_RX
          let s2 := if write then emit s1 (.mark_slot_page_dirty i gpa) else s1
          .done (emit s2 (.hv_vm_protect (gpa - gpa % 4096) 4096 flags), 0)
      | _, _ => .done (s1, 0)
  else if exit_reason = EXIT_REASON_INOUT then
    let in_ := exit_qual &&& 8 ≠ 0
    let size := u32 ((exit_qual &&& 7) + 1)
    let string := exit_qual &&& 16 ≠ 0
    let port := u32 (exit_qual >>> 16)
    if ¬ string ∧ in_ then
      let s1 := load_regs s
      let (s2, vals) := hvf_handle_io env s1 port [0] 0 size 1
      let val := vals.headD 0
      let rax := s2.emu.regs 0
      if size = 1 then
        -- AL(cpu) = val
        let s3 := set_rrx s2 0 (rax - rax % 2 ^ 8 + val % 2 ^ 8)
        .done (store_regs (add_rip s3 ins_len), 0)
      else if size = 2 then
        -- AX(cpu) = val
        let s3 := set_rrx s2 0 (rax - rax % 2 ^ 16 + val % 2 ^ 16)
        .done (store_regs (add_rip s3 ins_len), 0)
      else if size = 4 then
        -- RAX(cpu) = (uint32_t)val
        let s3 := set_rrx s2 0 (u32 val)
        .done (store_regs (add_rip s3 ins_len), 0)
      else
        -- VM_PANIC("size")
        .aborted s2
    else if ¬ string ∧ ¬ in_ then
      let s1 := set_rrx s 0 (rreg s HV_X86_RAX)
      let (s2, _) := hvf_handle_io env s1 port [s1.emu.regs 0] 1 size 1
      .done (macvm_set_rip s2 (rip + ins_len), 0)
    else
      match emulate_instruction env s rip (some ins_len) with
      | .done s2 => .done (s2, 0)
      | .aborted sa => .aborted sa
      | .blocked sb => .blocked sb
  else if exit_reason = EXIT_REASON_CPUID then
    let rax := u32 (rreg s HV_X86_RAX)
    let rcx := u32 (rreg s HV_X86_RCX)
    let r := get_cpuid_func env._cpuid (env.host_cpuid rax rcx) env.apic_id env.nr_cores
               env.nr_threads rax rcx
    let s1 := wreg s HV_X86_RAX r.eax
    let s2 := wreg s1 HV_X86_RBX r.ebx
    let s3 := wreg s2 HV_X86_RCX r.ecx
    let s4 := wreg s3 HV_X86_RDX r.edx
    .done (macvm_set_rip s4 (rip + ins_len), 0)
  else if exit_reason = EXIT_REASON_XSETBV then
    let eax := u32 (rreg s HV_X86_RAX)
    let ecx := u32 (rreg s HV_X86_RCX)
    let edx := u32 (rreg s HV_X86_RDX)
    if ecx ≠ 0 then
      .done (macvm_set_rip s (rip + ins_len), 0)
    else
      let s1 := { s with env_xcr0 := (edx <<< 32) ||| eax }
      let s2 := wreg s1 HV_X86_XCR0 (s1.env_xcr0 ||| 1)
      .done (macvm_set_rip s2 (rip + ins_len), 0)
  else if exit_reason = EXIT_REASON_INTR_WINDOW then
    .done (hw_call env.vmx_clear_int_window_exiting .vmx_clear_int_window_exiting s,
           EXCP_INTERRUPT)
  else if exit_reason = EXIT_REASON_NMI_WINDOW then
    .done (hw_call env.vmx_clear_nmi_window_exiting .vmx_clear_nmi_window_exiting s,
           EXCP_INTERRUPT)
  else if exit_reason = EXIT_REASON_EXT_INTR then
    .done (s, EXCP_INTERRUPT)
  else if exit_reason = EXIT_REASON_RDMSR ∨ exit_reason = EXIT_REASON_WRMSR then
    let s1 := load_regs s
    let s2 :=
      if exit_reason = EXIT_REASON_RDMSR then collab_call env.simulate_rdmsr .simulate_rdmsr s1
      else collab_call env.simulate_wrmsr .simulate_wrmsr s1
    let s3 := add_rip s2 (rvmcs s2 .VMCS_EXIT_INSTRUCTION_LENGTH)
    .done (store_regs s3, 0)
  else if exit_reason = EXIT_REASON_CR_ACCESS then
    let s1 := load_regs s
    let cr := exit_qual &&& 15
    let reg := (exit_qual >>> 8) &&& 15
    let r : Exec (VcpuState × Nat) :=
      if cr = 0 then
        .done (hw_call (fun h => env.macvm_set_cr0 h (s1.emu.regs reg))
                 (.macvm_set_cr0 (s1.emu.regs reg)) s1, 0)
      else if cr = 4 then
        .done (hw_call (fun h => env.macvm_set_cr4 h (s1.emu.regs reg))
                 (.macvm_set_cr4 (s1.emu.regs reg)) s1, 0)
      else if cr = 8 then
        if exit_qual &&& 0x10 ≠ 0 then
          .done (set_rrx s1 reg (cpu_get_apic_tpr s1), 0)
        else
          let tpr := s1.emu.regs reg
          .done (cpu_set_apic_tpr s1 tpr, EXCP_INTERRUPT)
      else
        -- fprintf(stderr, "Unrecognized CR %d\n", cr); abort();
        .aborted s1
    match r with
    | .done (s2, ret) => .done (store_regs (add_rip s2 ins_len), ret)
    | .aborted sa => .aborted sa
    | .blocked sb => .blocked sb
  else if exit_reason = EXIT_REASON_APIC_ACCESS then
    match emulate_instruction env s rip none with
    | .done s2 => .done (s2, 0)
    | .aborted sa => .aborted sa
    | .blocked sb => .blocked sb
  else if exit_reason = EXIT_REASON_TPR then
    .done (s, 1)
  else if exit_reason = EXIT_REASON_TASK_SWITCH then
    let vinfo := rvmcs s .VMCS_IDT_VECTORING_INFO
    .done (collab_call env.vmx_handle_task_switch
             (.vmx_handle_task_switch (exit_qual &&& 0xffff) ((exit_qual >>> 30) &&& 0x3)
               (vinfo &&& VMCS_INTR_VALID) (vinfo &&& VECTORING_INFO_VECTOR_MASK)
               (vinfo &&& VMCS_INTR_T_MASK)) s, 0)
  else if exit_reason = EXIT_REASON_TRIPLE_FAULT then
    let s1 := emit s .qemu_system_reset_request
    let s2 := emit s1 (.usleep (1000 * 100))
    .done (s2, EXCP_INTERRUPT)
  else if exit_reason = EXIT_REASON_RDPMC then
    let s1 := wreg s HV_X86_RAX 0
    let s2 := wreg s1 HV_X86_RDX 0
    .done (macvm_set_rip s2 (rip + ins_len), 0)
  else if exit_reason = VMX_REASON_VMCALL then
    .done (s, 0)
  else
    -- fprintf(stderr, "%llx: unhandled exit %llx\n", rip, exit_reason);
    .done (emit s (.unhandled_exit rip exit_reason), 0)

/-- The body of the `do` loop of `hvf_vcpu_exec` up to the call of `hv_vcpu_run`:
the push of dirty registers, the interruptibility flag, `hvf_inject_interrupts`
and `vmx_update_tpr`. -/
def hvf_vcpu_exec.before_run (env : VcpuEnv) (s : VcpuState) : VcpuState :=
  let s1 :=
    if s.hvf_vcpu_dirty ≠ 0 then
      { s with hw := env.hvf_put_registers s, log := s.log ++ [.hvf_put_registers],
               hvf_vcpu_dirty := 0 }
    else s
  let interruptable :=
    if rvmcs s1 .VMCS_GUEST_INTERRUPTIBILITY &&&
        (VMCS_INTERRUPTIBILITY_STI_BLOCKING ||| VMCS_INTERRUPTIBILITY_MOVSS_BLOCKING) ≠ 0
    then 0 else 1
  let s2 := { s1 with interruptable := interruptable }
  let s3 := { s2 with hw := (env.hvf_inject_interrupts s2).1,
                      interrupt_request := (env.hvf_inject_interrupts s2).2,
                      log := s2.log ++ [.hvf_inject_interrupts] }
  vmx_update_tpr env s3

/-- The state in which `hv_vcpu_run` comes back with `r`: the hardware side is what
the guest left, the call is recorded. -/
def hvf_vcpu_exec.run (s : VcpuState) (r : RunResult) : VcpuState :=
  { s with hw := r.hw, log := s.log ++ [.hv_vcpu_run] }

/-- The body of the `do` loop from `assert_hvf_ok(r)` to the end of the `switch`:
the exit record is read, `RFLAGS(cpu)` and `env->eflags` are set,
`update_apic_tpr` runs, and the exit is dispatched. `s` is the state
`hv_vcpu_run` came back in. -/
def hvf_vcpu_exec.after_run (env : VcpuEnv) (mem : HVFState) (s : VcpuState) (ret : Nat) :
    Exec (VcpuState × Nat) :=
  match assert_hvf_ok ret with
  | none => .aborted s
  | some _ =>
    let x : ExitRecord :=
      { exit_reason := rvmcs s .VMCS_EXIT_REASON,
        exit_qual := rvmcs s .VMCS_EXIT_QUALIFICATION,
        ins_len := u32 (rvmcs s .VMCS_EXIT_INSTRUCTION_LENGTH),
        idtvec_info := rvmcs s .VMCS_IDT_VECTORING_INFO,
        rip := rreg s HV_X86_RIP }
    let s1 := { s with emu := { s.emu with rflags := rreg s HV_X86_RFLAGS } }
    let s2 := { s1 with env_eflags := s1.emu.rflags }
    let s3 := update_apic_tpr s2
    hvf_vcpu_exec.dispatch env mem s3 x

/-- The `do { ... } while (ret == 0)` loop of `hvf_vcpu_exec`, over the exits the
guest will produce. -/
def hvf_vcpu_exec.loop (env : VcpuEnv) (mem : HVFState) :
    List RunResult → VcpuState → Exec (VcpuState × Nat)
  | [], s =>
    let s1 := hvf_vcpu_exec.before_run env s
    if !env.cpu_is_bsp && decide (s1.halted ≠ 0) then .done (s1, EXCP_HLT)
    else .blocked s1
  | r :: rest, s =>
    let s1 := hvf_vcpu_exec.before_run env s
    if !env.cpu_is_bsp && decide (s1.halted ≠ 0) then .done (s1, EXCP_HLT)
    else
      match hvf_vcpu_exec.after_run env mem (hvf_vcpu_exec.run s1 r) r.ret with
      | .done (s2, ret) => if ret = 0 then hvf_vcpu_exec.loop env mem rest s2 else .done (s2, ret)
      | .aborted sa => .aborted sa
      | .blocked sb => .blocked sb

/-- `hvf_vcpu_exec(cpu)`: the state at the return and the value returned. -/
def hvf_vcpu_exec (env : VcpuEnv) (mem : HVFState) (runs : List RunResult) (s : VcpuState) :
    Exec (VcpuState × Nat) :=
  let s0 := { s with halted := 0 }
  let s1 := collab_call (fun t => (env.hvf_process_events t).1) .hvf_process_events s0
  if (env.hvf_process_events s0).2 ≠ 0 then .done (s1, EXCP_HLT)
  else hvf_vcpu_exec.loop env mem runs s1

/-- The test of the overlap scan over the natural numbers: the slot is active and the
half-open ranges `[slot.start, slot.start + slot.size)` and `[start, end_)`
satisfy `start < slot.start + slot.size` and `slot.start < end_`. -/
def slot_meets (slot : hvf_slot) (start end_ : Nat) : Prop :=
  slot.size ≠ 0 ∧ start < slot.start + slot.size ∧ slot.start < end_

instance (slot : hvf_slot) (start end_ : Nat) : Decidable (slot_meets slot start end_) := by
  unfold slot_meets; infer_instance

/-- The state a slot-manager routine ends in, whether it returned or aborted. -/
def Run.world : Run MemWorld → MemWorld
  | .done w => w
  | .aborted w => w

/-- The condition under which the HLT handler marks the vCPU halted, on the state
`hv_vcpu_run` came back in: not (a hard interrupt is requested and the IF bit of
the guest RFLAGS is set), no NMI is requested, and the valid bit of the
IDT-vectoring information is clear. -/
def hlt_halts (s : VcpuState) : Prop :=
  ¬ (s.interrupt_request &&& CPU_INTERRUPT_HARD ≠ 0 ∧
      u32 (rreg s HV_X86_RFLAGS) &&& IF_MASK ≠ 0) ∧
  s.interrupt_request &&& CPU_INTERRUPT_NMI = 0 ∧
  rvmcs s .VMCS_IDT_VECTORING_INFO &&& VMCS_IDT_VEC_VALID = 0

instance (s : VcpuState) : Decidable (hlt_halts s) := by
  unfold hlt_halts; infer_instance

/-- A hardware state with the given exit record and register values, everything else
zero. -/
def sample_hw (reason qual len gpa rip rflags rax : Nat) : HwState :=
  { reg := fun r =>
      if r = HV_X86_RIP then rip
      else if r = HV_X86_RFLAGS then rflags
      else if r = HV_X86_RAX then rax
      else 0,
    vmcs := fun f =>
      match f with
      | .VMCS_EXIT_REASON => reason
      | .VMCS_EXIT_QUALIFICATION => qual
      | .VMCS_EXIT_INSTRUCTION_LENGTH => len
      | .VMCS_GUEST_PHYSICAL_ADDRESS => gpa
      | _ => 0 }

/-- A vCPU state with the given flags over the given hardware state, everything else
zero and an empty log. -/
def sample_vcpu (dirty interrupt_request : Nat) (hw : HwState) : VcpuState :=
  { halted := 0, hvf_vcpu_dirty := dirty, interrupt_request := interrupt_request,
    hw := hw,
    emu := { regs := fun _ => 0, rip := 0, rflags := 0 },
    env_eflags := 0, env_xcr0 := 0, fetch_rip := 0, interruptable := 0, apic_tpr := 0,
    hvf_caps := { vmx_cap_pinbased := 0, vmx_cap_procbased := 0, vmx_cap_procbased2 := 0,
                  vmx_cap_entry := 0, vmx_cap_exit := 0, vmx_cap_preemption_timer := 0 },
    log := [] }

/-- Collaborators that leave the state as it is, on the boot processor, with an
I/O space that delivers `0x1234abcd` truncated to the access size. -/
def sample_env : VcpuEnv :=
  { _cpuid := init_cpuid, apic_id := 0, nr_cores := 1, nr_threads := 1,
    cpu_is_bsp := true, DIRTY_VGA_TRACKING := false,
    host_cpuid := fun _ _ => { eax := 0, ebx := 0, ecx := 0, edx := 0 },
    hvf_process_events := fun s => (s, 0),
    hvf_put_registers := fun s => s.hw,
    hvf_get_registers := fun s => (s.hw.reg HV_X86_RFLAGS, s.hw.reg HV_X86_XCR0),
    hvf_inject_interrupts := fun s => (s.hw, s.interrupt_request),
    apic_get_highest_priority_irr := fun _ => -1,
    io_read := fun _ _ => 0x1234abcd,
    decode_len := fun _ => 1,
    exec_instruction := fun s => s,
    simulate_rdmsr := fun s => s,
    simulate_wrmsr := fun s => s,
    vmx_handle_task_switch := fun s => s,
    macvm_set_cr0 := fun h _ => h,
    macvm_set_cr4 := fun h _ => h,
    vmx_set_nmi_blocking := fun h => h,
    vmx_clear_int_window_exiting := fun h => h,
    vmx_clear_nmi_window_exiting := fun h => h }

/-- The 32-slot table with every slot free, as built by `hvf_accel_init`. -/
def free_world : MemWorld :=
  head_world hvf_slot.zero ((List.range' 1 31).map (fun x => { hvf_slot.zero with slot_id := x }))
    mac_slot.zero (List.replicate 31 mac_slot.zero) []

/-- A 32-slot table with every slot active: slot `x` holds `[x * 0x1000, (x + 1) * 0x1000)`. -/
def full_world : MemWorld :=
  { hvf_state :=
      { slots := (List.range 32).map (fun x =>
          { start := x * 0x1000, size := 0x1000, mem := 0x7f0000000000 + x * 0x1000,
            slot_id := x }),
        num_slots := 32 },
    mac_slots := (List.range 32).map (fun x =>
      { present := 1, size := 0x1000, gpa_start := x * 0x1000, gva := 0 }),
    trace := [] }

/-- The port of a port-I/O exit: bits 31..16 of the exit qualification. -/
def inout_port (qual : Nat) : Nat := (qual >>> 16) % 2 ^ 16

/-- The access size of a port-I/O exit: `(qual & 7) + 1`. -/
def inout_size (qual : Nat) : Nat := (qual &&& 7) + 1

/-- The state a vCPU routine ends in, whether it returned, aborted or stayed in the
guest. -/
def Exec.state : Exec (VcpuState × Nat) → VcpuState
  | .done (s, _) => s
  | .aborted s => s
  | .blocked s => s

/-- `hvf_vcpu_destroy(cpu)`, with `ret` the status `hv_vcpu_destroy` returns. -/
def hvf_vcpu_destroy (ret : Nat) (s : VcpuState) : Exec VcpuState :=
  let s1 := emit s .hv_vcpu_destroy
  match assert_hvf_ok ret with
  | none => .aborted s1
  | some _ => .done s1

/-- Modelled from the spec: `CR4_VMXE_MASK` of `hvf-utils/x86.h`, which is not among the
sources: the hardware-virtualization-extensions bit of CR4 (bit 13). -/
def CR4_VMXE_MASK : Nat := 1 <<< 13

/-- The part of `vmx_reset_vcpu` from `wvmcs(VMCS_CR4_MASK, ...)` to the loop over
`HV_X86_R8 + i`: the guest-state fields and the native registers. -/
def vmx_reset_vcpu.guest_state (s : VcpuState) : VcpuState :=
  let s := wvmcs s .VMCS_CR4_MASK CR4_VMXE_MASK
  let s := wvmcs s .VMCS_CR4_SHADOW 0x0
  let s := wvmcs s .VMCS_GUEST_CR4 CR4_VMXE_MASK
  -- set VMCS guest state fields
  let s := wvmcs s .VMCS_GUEST_CS_SELECTOR 0xf000
  let s := wvmcs s .VMCS_GUEST_CS_LIMIT 0xffff
  let s := wvmcs s .VMCS_GUEST_CS_ACCESS_RIGHTS 0x9b
  let s := wvmcs s .VMCS_GUEST_CS_BASE 0xffff0000
  let s := wvmcs s .VMCS_GUEST_DS_SELECTOR 0
  let s := wvmcs s .VMCS_GUEST_DS_LIMIT 0xffff
  let s := wvmcs s .VMCS_GUEST_DS_ACCESS_RIGHTS 0x93
  let s := wvmcs s .VMCS_GUEST_DS_BASE 0
  let s := wvmcs s .VMCS_GUEST_ES_SELECTOR 0
  let s := wvmcs s .VMCS_GUEST_ES_LIMIT 0xffff
  let s := wvmcs s .VMCS_GUEST_ES_ACCESS_RIGHTS 0x93
  let s := wvmcs s .VMCS_GUEST_ES_BASE 0
  let s := wvmcs s .VMCS_GUEST_FS_SELECTOR 0
  let s := wvmcs s .VMCS_GUEST_FS_LIMIT 0xffff
  let s := wvmcs s .VMCS_GUEST_FS_ACCESS_RIGHTS 0x93
  let s := wvmcs s .VMCS_GUEST_FS_BASE 0
  let s := wvmcs s .VMCS_GUEST_GS_SELECTOR 0
  let s := wvmcs s .VMCS_GUEST_GS_LIMIT 0xffff
  let s := wvmcs s .VMCS_GUEST_GS_ACCESS_RIGHTS 0x93
  let s := wvmcs s .VMCS_GUEST_GS_BASE 0
  let s := wvmcs s .VMCS_GUEST_SS_SELECTOR 0
  let s := wvmcs s .VMCS_GUEST_SS_LIMIT 0xffff
  let s := wvmcs s .VMCS_GUEST_SS_ACCESS_RIGHTS 0x93
  let s := wvmcs s .VMCS_GUEST_SS_BASE 0
  let s := wvmcs s .VMCS_GUEST_LDTR_SELECTOR 0
  let s := wvmcs s .VMCS_GUEST_LDTR_LIMIT 0
  let s := wvmcs s .VMCS_GUEST_LDTR_ACCESS_RIGHTS 0x10000
  let s := wvmcs s .VMCS_GUEST_LDTR_BASE 0
  let s := wvmcs s .VMCS_GUEST_TR_SELECTOR 0
  let s := wvmcs s .VMCS_GUEST_TR_LIMIT 0
  let s := wvmcs s .VMCS_GUEST_TR_ACCESS_RIGHTS 0x83
  let s := wvmcs s .VMCS_GUEST_TR_BASE 0
  let s := wvmcs s .VMCS_GUEST_GDTR_LIMIT 0
  let s := wvmcs s .VMCS_GUEST_GDTR_BASE 0
  let s := wvmcs s .VMCS_GUEST_IDTR_LIMIT 0
  let s := wvmcs s .VMCS_GUEST_IDTR_BASE 0
  -- wvmcs(cpu->hvf_fd, VMCS_GUEST_CR2, 0x0) is commented out
  let s := wvmcs s .VMCS_GUEST_CR3 0x0
  let s := wreg s HV_X86_RIP 0xfff0
  let s := wreg s HV_X86_RDX 0x623
  let s := wreg s HV_X86_RFLAGS 0x2
  let s := wreg s HV_X86_RSP 0x0
  let s := wreg s HV_X86_RAX 0x0
  let s := wreg s HV_X86_RBX 0x0
  let s := wreg s HV_X86_RCX 0x0
  let s := wreg s HV_X86_RSI 0x0
  let s := wreg s HV_X86_RDI 0x0
  let s := wreg s HV_X86_RBP 0x0
  (List.range 8).foldl (fun t i => wreg t (HV_X86_R8 + i) 0x0) s

/-- `vmx_reset_vcpu(cpu)`. `macvm_set_cr0` (of `vmx.h`) is a collaborator that works
on the hardware side; `hv_vm_sync_tsc`, `hv_vcpu_invalidate_tlb` and
`hv_vcpu_flush` are recorded. -/
def vmx_reset_vcpu (env : VcpuEnv) (s : VcpuState) : VcpuState :=
  let s1 := wvmcs s .VMCS_ENTRY_CTLS 0
  let s2 := wvmcs s1 .VMCS_GUEST_IA32_EFER 0
  let s3 := hw_call (fun h => env.macvm_set_cr0 h 0x60000010) (.macvm_set_cr0 0x60000010) s2
  let s4 := vmx_reset_vcpu.guest_state s3
  let s5 := emit s4 (.hv_vm_sync_tsc 0)
  let s6 := { s5 with halted := 0 }
  let s7 := emit s6 .hv_vcpu_invalidate_tlb
  emit s7 .hv_vcpu_flush

/-- Modelled from the spec: `cap2ctrl(cap, ctrl)` of `vmx.h`, which is not among the
sources. A capability word holds the allowed-0 bits (the bits the hardware
requires) in its low 32 bits and the allowed-1 bits in its high 32 bits; "the
effective control value sets any bit the hardware requires and additionally
sets the caller-requested optional bits that the hardware allows". -/
def cap2ctrl (cap ctrl : Nat) : Nat := (cap &&& 0xffffffff) ||| (ctrl &&& (cap >>> 32))

/-- Modelled from the spec: "HLT exiting", bit 7 of the primary processor-based
controls (`vmcs.h`). -/
def VMCS_PRI_PROC_BASED_CTLS_HLT : Nat := 1 <<< 7
/-- Modelled from the spec: "MWAIT exiting", bit 10 of the primary processor-based
controls. -/
def VMCS_PRI_PROC_BASED_CTLS_MWAIT : Nat := 1 <<< 10
/-- Modelled from the spec: "use TSC offsetting", bit 3 of the primary processor-based
controls. -/
def VMCS_PRI_PROC_BASED_CTLS_TSC_OFFSET : Nat := 1 <<< 3
/-- Modelled from the spec: "use TPR shadow", bit 21 of the primary processor-based
controls. -/
def VMCS_PRI_PROC_BASED_CTLS_TPR_SHADOW : Nat := 1 <<< 21
/-- Modelled from the spec: "activate secondary controls", bit 31 of the primary
processor-based controls. -/
def VMCS_PRI_PROC_BASED_CTLS_SEC_CONTROL : Nat := 1 <<< 31
/-- Modelled from the spec: "virtualize APIC accesses", bit 0 of the secondary
processor-based controls. -/
def VMCS_PRI_PROC_BASED2_CTLS_APIC_ACCESSES : Nat := 1 <<< 0

/-- The collaborators of `hvf_init_vcpu` that are not among the sources: `init_emu`
and `init_decoder` (handed `cpu`), the status of `hv_vcpu_create`, and the
status and value each `hv_vmx_read_capability` delivers. -/
structure VcpuInitEnv where
  /-- `init_emu(cpu)`. -/
  init_emu : VcpuState → VcpuState
  /-- `init_decoder(cpu)`. -/
  init_decoder : VcpuState → VcpuState
  /-- The status `hv_vcpu_create` returns. -/
  hv_vcpu_create : Nat
  /-- The status `hv_vmx_read_capability(field, &value)` returns, and the value. -/
  hv_vmx_read_capability : hv_vmx_capability_t → Nat × Nat

/-- The "set VMCS control fields" block of `hvf_init_vcpu`: the six `wvmcs` calls
between the capability reads and `vmx_reset_vcpu`. -/
def hvf_init_vcpu.set_controls (s : VcpuState) : VcpuState :=
  let s1 := wvmcs s .VMCS_PIN_BASED_CTLS (cap2ctrl s.hvf_caps.vmx_cap_pinbased 0)
  let s2 := wvmcs s1 .VMCS_PRI_PROC_BASED_CTLS
    (cap2ctrl s1.hvf_caps.vmx_cap_procbased
        (VMCS_PRI_PROC_BASED_CTLS_HLT |||
         VMCS_PRI_PROC_BASED_CTLS_MWAIT |||
         VMCS_PRI_PROC_BASED_CTLS_TSC_OFFSET |||
         VMCS_PRI_PROC_BASED_CTLS_TPR_SHADOW) |||
      VMCS_PRI_PROC_BASED_CTLS_SEC_CONTROL)
  let s3 := wvmcs s2 .VMCS_SEC_PROC_BASED_CTLS
    (cap2ctrl s2.hvf_caps.vmx_cap_procbased2 VMCS_PRI_PROC_BASED2_CTLS_APIC_ACCESSES)
  let s4 := wvmcs s3 .VMCS_ENTRY_CTLS (cap2ctrl s3.hvf_caps.vmx_cap_entry 0)
  let s5 := wvmcs s4 .VMCS_EXCEPTION_BITMAP 0
  wvmcs s5 .VMCS_TPR_THRESHOLD 0

/-- One `if (hv_vmx_read_capability(field, &cpu->hvf_caps->...)) abort();` of
`hvf_init_vcpu`: the call is recorded, a nonzero status aborts, otherwise the
64-bit value is stored by `store`. -/
def hvf_init_vcpu.read_capability (ienv : VcpuInitEnv) (field : hv_vmx_capability_t)
    (store : hvf_vcpu_caps → Nat → hvf_vcpu_caps) (s : VcpuState) : Exec VcpuState :=
  let s1 := emit s (.hv_vmx_read_capability field)
  if (ienv.hv_vmx_read_capability field).1 ≠ 0 then .aborted s1
  else .done { s1 with hvf_caps := store s1.hvf_caps (u64 (ienv.hv_vmx_read_capability field).2) }

/-- `hvf_init_vcpu(cpu)`: the state at the return and the value returned. The signal
set-up and the two allocations do not touch the vCPU state and are left out;
`init_cpuid` selects the static profile and is recorded. -/
def hvf_init_vcpu (env : VcpuEnv) (ienv : VcpuInitEnv) (s : VcpuState) :
    Exec (VcpuState × Nat) :=
  let s1 := collab_call ienv.init_emu .init_emu s
  let s2 := collab_call ienv.init_decoder .init_decoder s1
  let s3 := emit s2 .init_cpuid
  -- r = hv_vcpu_create(...); cpu->hvf_vcpu_dirty = 1; assert_hvf_ok(r);
  let s4 := { emit s3 .hv_vcpu_create with hvf_vcpu_dirty := 1 }
  match assert_hvf_ok ienv.hv_vcpu_create with
  | none => .aborted s4
  | some _ =>
    match hvf_init_vcpu.read_capability ienv .HV_VMX_CAP_PINBASED
        (fun c v => { c with vmx_cap_pinbased := v }) s4 with
    | .aborted sa => .aborted sa
    | .blocked sb => .blocked sb
    | .done s5 =>
    match hvf_init_vcpu.read_capability ienv .HV_VMX_CAP_PROCBASED
        (fun c v => { c with vmx_cap_procbased := v }) s5 with
    | .aborted sa => .aborted sa
    | .blocked sb => .blocked sb
    | .done s6 =>
    match hvf_init_vcpu.read_capability ienv .HV_VMX_CAP_PROCBASED2
        (fun c v => { c with vmx_cap_procbased2 := v }) s6 with
    | .aborted sa => .aborted sa
    | .blocked sb => .blocked sb
    | .done s7 =>
    match hvf_init_vcpu.read_capability ienv .HV_VMX_CAP_ENTRY
        (fun c v => { c with vmx_cap_entry := v }) s7 with
    | .aborted sa => .aborted sa
    | .blocked sb => .blocked sb
    | .done s8 =>
      let s9 := hvf_init_vcpu.set_controls s8
      let s10 := vmx_reset_vcpu env s9
      let s11 :=
        [native_msr.MSR_STAR, .MSR_LSTAR, .MSR_CSTAR, .MSR_FMASK, .MSR_FSBASE, .MSR_GSBASE,
         .MSR_KERNELGSBASE, .MSR_TSC_AUX, .MSR_IA32_SYSENTER_CS, .MSR_IA32_SYSENTER_EIP,
         .MSR_IA32_SYSENTER_ESP].foldl (fun t m => emit t (.hv_vcpu_enable_native_msr m)) s10
      .done (s11, 0)

/-- Bit `i` of the low half of a capability word is set: the hardware requires control
bit `i`. -/
def cap_requires (cap i : Nat) : Prop := i < 32 ∧ cap.testBit i = true

instance (cap i : Nat) : Decidable (cap_requires cap i) := by
  unfold cap_requires; infer_instance

/-- Bit `i` of the high half of a capability word is set: the hardware allows control
bit `i`. -/
def cap_allows (cap i : Nat) : Prop := i < 32 ∧ cap.testBit (32 + i) = true

instance (cap i : Nat) : Decidable (cap_allows cap i) := by
  unfold cap_allows; infer_instance

/-- A capability word in which every bit the hardware requires is a bit it allows. -/
def cap_consistent (cap : Nat) : Prop :=
  ∀ i, i < 32 → cap.testBit i = true → cap.testBit (32 + i) = true

instance (cap : Nat) : Decidable (cap_consistent cap) := by
  unfold cap_consistent; infer_instance

/-- A control value `v` fits the capability word `cap` for the requested bits `req`:
it contains every bit the hardware requires, contains no bit the hardware does
not allow, and among the requested bits exactly the allowed ones are set. -/
def ctl_fits (cap req v : Nat) : Prop :=
  (∀ i, cap_requires cap i → v.testBit i = true) ∧
  (∀ i, v.testBit i = true → cap_allows cap i) ∧
  (∀ i, req.testBit i = true → (v.testBit i = true ↔ cap_allows cap i))

/-- A vCPU state with the given four capability words in `cpu->hvf_caps`. -/
def sample_caps_vcpu (pin proc proc2 entry : Nat) : VcpuState :=
  { sample_vcpu 0 0 (sample_hw 0 0 0 0 0 0 0) with
    hvf_caps := { vmx_cap_pinbased := pin, vmx_cap_procbased := proc,
                  vmx_cap_procbased2 := proc2, vmx_cap_entry := entry, vmx_cap_exit := 0,
                  vmx_cap_preemption_timer := 0 } }

/-- Capability reads that all succeed and deliver the given four words. -/
def sample_init_env (pin proc proc2 entry : Nat) : VcpuInitEnv :=
  { init_emu := fun s => s, init_decoder := fun s => s, hv_vcpu_create := HV_SUCCESS,
    hv_vmx_read_capability := fun f =>
      match f with
      | .HV_VMX_CAP_PINBASED => (0, pin)
      | .HV_VMX_CAP_PROCBASED => (0, proc)
      | .HV_VMX_CAP_PROCBASED2 => (0, proc2)
      | .HV_VMX_CAP_ENTRY => (0, entry) }

/-- The state `__hvf_set_memory` ends in, whether it returned or aborted. -/
def set_memory_world (hv : List HvCall → Nat) (w : MemWorld) (i : Nat) : MemWorld :=
  match __hvf_set_memory hv w i with
  | .done (w1, _) => w1
  | .aborted wa => wa

/-- The hypervisor calls `__hvf_set_memory(slot)` issues for the slot at index `i`,
each paired with `slot->slot_id`, the index of the `mac_slots` entry the call is
issued for (`macslot = &mac_slots[slot->slot_id]`). -/
def __hvf_set_memory.calls (hv : List HvCall → Nat) (w : MemWorld) (i : Nat) :
    List (Nat × HvCall) :=
  let slot := w.hvf_state.slots.getD i hvf_slot.zero
  ((set_memory_world hv w i).trace.drop w.trace.length).map (fun c => (slot.slot_id, c))

/-- The hypervisor calls one `hvf_set_phys_mem(section, add)` issues, each paired with
the `mac_slots` index it is issued for: the calls of the `__hvf_set_memory`
that resets the overlapping slot, then the calls of the `__hvf_set_memory`
that registers the new slot. The control flow is that of `hvf_set_phys_mem`. -/
def hvf_set_phys_mem.calls (hv : List HvCall → Nat) (w : MemWorld) (sec : MemoryRegionSection)
    (add : Bool) : List (Nat × HvCall) :=
  if !sec.is_ram then []
  else
    let mem := hvf_find_overlap_slot w.hvf_state sec.offset_within_address_space
                 (u64 (sec.offset_within_address_space + sec.size))
    let same : Bool :=
      match mem with
      | some i =>
        let s := w.hvf_state.slots.getD i hvf_slot.zero
        add && decide (s.size = sec.size ∧ s.start = sec.offset_within_address_space ∧
                        s.mem = sec.host)
      | none => false
    if same then []
    else
      let c1 : List (Nat × HvCall) :=
        match mem with
        | some i => __hvf_set_memory.calls hv (update_slot w i (fun s => { s with size := 0 })) i
        | none => []
      let r1 : Run MemWorld :=
        match mem with
        | some i =>
          match __hvf_set_memory hv (update_slot w i (fun s => { s with size := 0 })) i with
          | .aborted wa => .aborted wa
          | .done (w1, ret) => if ret ≠ 0 then .aborted w1 else .done w1
        | none => .done w
      match r1 with
      | .aborted _ => c1
      | .done w1 =>
        if !add then c1
        else
          match find_free_slot (w1.hvf_state.slots.take w1.hvf_state.num_slots) 0 with
          | none => c1
          | some x =>
            c1 ++ __hvf_set_memory.calls hv
              (update_slot w1 x (fun s =>
                { s with size := sec.size, mem := sec.host,
                         start := sec.offset_within_address_space })) x

/-- The hypervisor calls a sequence of region events issues, each paired with the
`mac_slots` index it is issued for. -/
def apply_events.calls (hv : List HvCall → Nat) : MemWorld → List RegionEvent →
    List (Nat × HvCall)
  | _, [] => []
  | w, e :: es =>
    hvf_set_phys_mem.calls hv w e.sec e.add ++
      match hvf_set_phys_mem hv w e.sec e.add with
      | .aborted _ => []
      | .done w1 => apply_events.calls hv w1 es

/-- The most recent call issued for `mac_slots[m]` in a log of calls. -/
def last_call_for (m : Nat) (calls : List (Nat × HvCall)) : Option HvCall :=
  ((calls.filter (fun p => decide (p.1 = m))).getLast?).map Prod.snd

/-- Every `hv_vm_unmap` of the log is issued for the guest-physical start and the size
of the most recent call for the same `mac_slots` index before it, and that call
is an `hv_vm_map`. -/
def unmaps_match (calls : List (Nat × HvCall)) : Prop :=
  ∀ k m gpa size, calls[k]? = some (m, HvCall.hv_vm_unmap gpa size) →
    ∃ uva flags, last_call_for m (calls.take k) = some (HvCall.hv_vm_map uva gpa size flags)

/-- The shadow table agrees with the slot table: both have 32 entries, and for every
index `i < 32`, `slots[i].slot_id = i`, `mac_slots[i].present` is nonzero
exactly when `slots[i].size` is, and a present entry records the start and the
size of the slot. -/
def shadow_inv (w : MemWorld) : Prop :=
  w.hvf_state.slots.length = 32 ∧ w.hvf_state.num_slots = 32 ∧ w.mac_slots.length = 32 ∧
  ∀ i, i < 32 →
    (w.hvf_state.slots.getD i hvf_slot.zero).slot_id = i ∧
    ((w.mac_slots.getD i mac_slot.zero).present ≠ 0 ↔
      (w.hvf_state.slots.getD i hvf_slot.zero).size ≠ 0) ∧
    ((w.mac_slots.getD i mac_slot.zero).present ≠ 0 →
      (w.mac_slots.getD i mac_slot.zero).gpa_start =
        (w.hvf_state.slots.getD i hvf_slot.zero).start ∧
      (w.mac_slots.getD i mac_slot.zero).size = (w.hvf_state.slots.getD i hvf_slot.zero).size)

/-- Every present entry of the shadow table records the arguments of the most recent
call for it in the log, and that call is an `hv_vm_map`. -/
def records_last_map (w : MemWorld) (calls : List (Nat × HvCall)) : Prop :=
  ∀ m, m < 32 → (w.mac_slots.getD m mac_slot.zero).present ≠ 0 →
    ∃ uva flags, last_call_for m calls =
      some (HvCall.hv_vm_map uva (w.mac_slots.getD m mac_slot.zero).gpa_start
        (w.mac_slots.getD m mac_slot.zero).size flags)

/-! ## Slot manager: lemmas and properties -/

/-- The overlap scan finds nothing in a list of free slots. -/
theorem find_overlap_loop_free (start end_ : Nat) (l : List hvf_slot)
    (h : ∀ s ∈ l, s.size = 0) (x : Nat) :
    hvf_find_overlap_slot.loop start end_ l x = none := by
  induction l generalizing x with
  | nil => rfl
  | cons a l ih =>
    have ha : a.size = 0 := h a (List.mem_cons_self _ _)
    simp [hvf_find_overlap_slot.loop, ha]
    exact ih (fun s hs => h s (List.mem_cons_of_mem _ hs)) _

/-- The table built by a successful `hvf_accel_init`: 32 free slots, empty shadow
table, no hypervisor call issued. -/
theorem hvf_accel_init_eq :
    hvf_accel_init HV_SUCCESS =
      some (head_world hvf_slot.zero ((List.range' 1 31).map (fun x => { hvf_slot.zero with slot_id := x }))
        mac_slot.zero (List.replicate 31 mac_slot.zero) []) := by
  decide

/-- Adding a nonempty RAM section to an all-free table installs it in slot 0 with
one `hv_vm_map`. -/
theorem add_to_free_head (hv : List HvCall → Nat) (hok : ∀ t, hv t = HV_SUCCESS)
    (rest : List hvf_slot) (hlen : rest.length = 31) (hfree : ∀ s ∈ rest, s.size = 0)
    (slot : hvf_slot) (hs : slot.size = 0) (hid : slot.slot_id = 0)
    (m : mac_slot) (hm : m.present = 0) (mrest : List mac_slot) (tr : List HvCall)
    (sec : MemoryRegionSection) (hram : sec.is_ram = true) (hn : 0 < sec.size) :
    hvf_set_phys_mem hv (head_world slot rest m mrest tr) sec true =
      .done (head_world
        { slot with size := sec.size, mem := sec.host, start := sec.offset_within_address_space }
        rest
        { m with present := 1, gpa_start := sec.offset_within_address_space, size := sec.size }
        mrest
        (tr ++ [.hv_vm_map sec.host sec.offset_within_address_space sec.size HV_MEMORY_RWX])) := by
  have hall : ∀ s ∈ slot :: rest, s.size = 0 := by
    intro s hs'
    rcases List.mem_cons.1 hs' with h | h
    · rw [h]; exact hs
    · exact hfree s h
  have htake : (slot :: rest).take 32 = slot :: rest := by
    apply List.take_of_length_le; simp [hlen]
  have hne : sec.size ≠ 0 := by omega
  simp [hvf_set_phys_mem, hvf_find_overlap_slot, head_world, hram, htake,
    find_overlap_loop_free _ _ _ hall, find_free_slot, hs, update_slot, __hvf_set_memory,
    hid, hm, hne, hv_call, hok, assert_hvf_ok]


/-- Adding a section that overlaps the only active slot (slot 0) and differs from
it unmaps slot 0 and installs the section in slot 0 again. -/
theorem replace_active_head (hv : List HvCall → Nat) (hok : ∀ t, hv t = HV_SUCCESS)
    (rest : List hvf_slot) (hlen : rest.length = 31)
    (slot : hvf_slot) (hs : slot.size ≠ 0) (hid : slot.slot_id = 0)
    (hwrap : slot.start + slot.size < 2 ^ 64)
    (m : mac_slot) (hm : m.present ≠ 0) (hmsz : m.size = slot.size)
    (mrest : List mac_slot) (tr : List HvCall)
    (sec : MemoryRegionSection) (hram : sec.is_ram = true) (hn : 0 < sec.size)
    (hwrap2 : sec.offset_within_address_space + sec.size < 2 ^ 64)
    (hov : sec.offset_within_address_space < slot.start + slot.size ∧
            slot.start < sec.offset_within_address_space + sec.size)
    (hdiff : ¬ (slot.size = sec.size ∧ slot.start = sec.offset_within_address_space ∧
                slot.mem = sec.host)) :
    hvf_set_phys_mem hv (head_world slot rest m mrest tr) sec true =
      .done (head_world
        { slot with size := sec.size, mem := sec.host, start := sec.offset_within_address_space }
        rest
        { m with present := 1, gpa_start := sec.offset_within_address_space, size := sec.size }
        mrest
        (tr ++ [.hv_vm_unmap m.gpa_start m.size,
                .hv_vm_map sec.host sec.offset_within_address_space sec.size HV_MEMORY_RWX])) := by
  have htake : (slot :: rest).take 32 = slot :: rest := by
    apply List.take_of_length_le; simp [hlen]
  have hne : sec.size ≠ 0 := by omega
  have h1 : u64 (slot.start + slot.size) = slot.start + slot.size := Nat.mod_eq_of_lt hwrap
  have h2 : u64 (sec.offset_within_address_space + sec.size) =
      sec.offset_within_address_space + sec.size := Nat.mod_eq_of_lt hwrap2
  have hms : m.size ≠ 0 := by rw [hmsz]; exact hs
  simp [hvf_set_phys_mem, hvf_find_overlap_slot, head_world, hram, htake,
    hvf_find_overlap_slot.loop, h1, h2, hs, hov, hdiff,
    find_free_slot, update_slot, __hvf_set_memory,
    hid, hm, hms, hne, hv_call, hok, assert_hvf_ok]

/-- Removing a section that overlaps the only active slot (slot 0) unmaps it and
frees the slot. -/
theorem remove_active_head (hv : List HvCall → Nat) (hok : ∀ t, hv t = HV_SUCCESS)
    (rest : List hvf_slot) (hlen : rest.length = 31)
    (slot : hvf_slot) (hs : slot.size ≠ 0) (hid : slot.slot_id = 0)
    (hwrap : slot.start + slot.size < 2 ^ 64)
    (m : mac_slot) (hm : m.present ≠ 0) (hmsz : m.size = slot.size)
    (mrest : List mac_slot) (tr : List HvCall)
    (sec : MemoryRegionSection) (hram : sec.is_ram = true)
    (hwrap2 : sec.offset_within_address_space + sec.size < 2 ^ 64)
    (hov : sec.offset_within_address_space < slot.start + slot.size ∧
            slot.start < sec.offset_within_address_space + sec.size) :
    hvf_set_phys_mem hv (head_world slot rest m mrest tr) sec false =
      .done (head_world { slot with size := 0 } rest { m with present := 0 } mrest
        (tr ++ [.hv_vm_unmap m.gpa_start m.size])) := by
  have htake : (slot :: rest).take 32 = slot :: rest := by
    apply List.take_of_length_le; simp [hlen]
  have h1 : u64 (slot.start + slot.size) = slot.start + slot.size := Nat.mod_eq_of_lt hwrap
  have h2 : u64 (sec.offset_within_address_space + sec.size) =
      sec.offset_within_address_space + sec.size := Nat.mod_eq_of_lt hwrap2
  have hms : m.size ≠ 0 := by rw [hmsz]; exact hs
  simp [hvf_set_phys_mem, hvf_find_overlap_slot, head_world, hram, htake,
    hvf_find_overlap_slot.loop, h1, h2, hs, hov,
    update_slot, __hvf_set_memory,
    hid, hm, hms, hv_call, hok, assert_hvf_ok]

/-- In a table whose other slots are free, an active slot 0 is the only active slot. -/
theorem active_head_world (slot : hvf_slot) (rest : List hvf_slot) (m : mac_slot)
    (mrest : List mac_slot) (tr : List HvCall) (hs : slot.size ≠ 0)
    (hfree : ∀ s ∈ rest, s.size = 0) :
    active_slots (head_world slot rest m mrest tr) = [slot] := by
  have hnil : rest.filter (fun s => decide (s.size ≠ 0)) = [] := by
    rw [List.filter_eq_nil_iff]
    intro s hs'
    simp [hfree s hs']
  simp only [active_slots, head_world]
  rw [List.filter_cons, hnil]
  simp [hs]

/-- C3: for any two RAM regions R1 and R2 of nonzero size whose ranges do not wrap
around 2^64, that intersect and differ in start, size or host address, and a
hypervisor whose calls all succeed: from the table built by `hvf_accel_init`,
adding R1 leaves exactly one active slot, holding R1; adding R2 then leaves
exactly one active slot, holding R2, after unmapping R1; removing R2 leaves
every slot with size 0; and the hypervisor trace is map(R1), unmap(R1), map(R2),
unmap(R2). -/
theorem C3_add_overlap_remove (hv : List HvCall → Nat) (hok : ∀ t, hv t = HV_SUCCESS)
    (w0 : MemWorld) (hinit : hvf_accel_init HV_SUCCESS = some w0)
    (R1 R2 : MemoryRegionSection) (hram1 : R1.is_ram = true) (hram2 : R2.is_ram = true)
    (hn1 : 0 < R1.size) (hn2 : 0 < R2.size)
    (hw1 : R1.offset_within_address_space + R1.size < 2 ^ 64)
    (hw2 : R2.offset_within_address_space + R2.size < 2 ^ 64)
    (hov : R1.offset_within_address_space < R2.offset_within_address_space + R2.size ∧
           R2.offset_within_address_space < R1.offset_within_address_space + R1.size)
    (hne : ¬ (R1.offset_within_address_space = R2.offset_within_address_space ∧
              R1.size = R2.size ∧ R1.host = R2.host)) :
    ∃ w1 w2 w3 : MemWorld,
      hvf_set_phys_mem hv w0 R1 true = .done w1 ∧
      active_slots w1 =
        [{ start := R1.offset_within_address_space, size := R1.size, mem := R1.host,
           slot_id := 0 }] ∧
      w1.trace = [.hv_vm_map R1.host R1.offset_within_address_space R1.size HV_MEMORY_RWX] ∧
      hvf_set_phys_mem hv w1 R2 true = .done w2 ∧
      active_slots w2 =
        [{ start := R2.offset_within_address_space, size := R2.size, mem := R2.host,
           slot_id := 0 }] ∧
      w2.trace = [.hv_vm_map R1.host R1.offset_within_address_space R1.size HV_MEMORY_RWX,
                  .hv_vm_unmap R1.offset_within_address_space R1.size,
                  .hv_vm_map R2.host R2.offset_within_address_space R2.size HV_MEMORY_RWX] ∧
      hvf_set_phys_mem hv w2 R2 false = .done w3 ∧
      (∀ s ∈ w3.hvf_state.slots, s.size = 0) ∧
      w3.trace = [.hv_vm_map R1.host R1.offset_within_address_space R1.size HV_MEMORY_RWX,
                  .hv_vm_unmap R1.offset_within_address_space R1.size,
                  .hv_vm_map R2.host R2.offset_within_address_space R2.size HV_MEMORY_RWX,
                  .hv_vm_unmap R2.offset_within_address_space R2.size] := by
  rw [hvf_accel_init_eq] at hinit
  cases hinit
  generalize hrest : (List.range' 1 31).map (fun x => { hvf_slot.zero with slot_id := x }) = rest
  have hlen : rest.length = 31 := by rw [← hrest]; simp
  have hfree : ∀ s ∈ rest, s.size = 0 := by
    rw [← hrest]; intro s hs
    simp only [List.mem_map] at hs
    obtain ⟨x, _, rfl⟩ := hs
    rfl
  have hs1 : R1.size ≠ 0 := by omega
  have hs2 : R2.size ≠ 0 := by omega
  have h1 := add_to_free_head hv hok rest hlen hfree hvf_slot.zero rfl rfl mac_slot.zero rfl
    (List.replicate 31 mac_slot.zero) [] R1 hram1 hn1
  have h2 := replace_active_head hv hok rest hlen
    { hvf_slot.zero with size := R1.size, mem := R1.host, start := R1.offset_within_address_space }
    hs1 rfl hw1
    { mac_slot.zero with present := 1, gpa_start := R1.offset_within_address_space,
                         size := R1.size }
    (by simp) rfl (List.replicate 31 mac_slot.zero)
    ([] ++ [.hv_vm_map R1.host R1.offset_within_address_space R1.size HV_MEMORY_RWX])
    R2 hram2 hn2 hw2 ⟨hov.2, hov.1⟩ (fun h => hne ⟨h.2.1, h.1, h.2.2⟩)
  have h3 := remove_active_head hv hok rest hlen
    { hvf_slot.zero with size := R2.size, mem := R2.host, start := R2.offset_within_address_space }
    hs2 rfl hw2
    { mac_slot.zero with present := 1, gpa_start := R2.offset_within_address_space,
                         size := R2.size }
    (by simp) rfl (List.replicate 31 mac_slot.zero)
    (([] ++ [.hv_vm_map R1.host R1.offset_within_address_space R1.size HV_MEMORY_RWX]) ++
      [.hv_vm_unmap R1.offset_within_address_space R1.size,
       .hv_vm_map R2.host R2.offset_within_address_space R2.size HV_MEMORY_RWX])
    R2 hram2 hw2 ⟨by simp only; omega, by simp only; omega⟩
  refine ⟨_, _, _, h1, ?_, rfl, h2, ?_, rfl, h3, ?_, rfl⟩
  · rw [active_head_world _ _ _ _ _ hs1 hfree]; rfl
  · rw [active_head_world _ _ _ _ _ hs2 hfree]; rfl
  · intro s hs
    simp only [head_world] at hs
    rcases List.mem_cons.1 hs with h | h
    · rw [h]
    · exact hfree s h

/-- C3 at the regions of the specification: [0x0, 0x1000) and [0x800, 0x1800), each
with its own host address. -/
theorem C3_add_overlap_remove_witness :
    ∃ w1 w2 w3 : MemWorld,
      hvf_set_phys_mem hv_ok
        (head_world hvf_slot.zero
          ((List.range' 1 31).map (fun x => { hvf_slot.zero with slot_id := x }))
          mac_slot.zero (List.replicate 31 mac_slot.zero) [])
        (ram_section 0x0 0x1000 0x7f0000000000) true = .done w1 ∧
      active_slots w1 =
        [{ start := 0x0, size := 0x1000, mem := 0x7f0000000000, slot_id := 0 }] ∧
      w1.trace = [.hv_vm_map 0x7f0000000000 0x0 0x1000 HV_MEMORY_RWX] ∧
      hvf_set_phys_mem hv_ok w1 (ram_section 0x800 0x1000 0x7f0000200000) true = .done w2 ∧
      active_slots w2 =
        [{ start := 0x800, size := 0x1000, mem := 0x7f0000200000, slot_id := 0 }] ∧
      w2.trace = [.hv_vm_map 0x7f0000000000 0x0 0x1000 HV_MEMORY_RWX,
                  .hv_vm_unmap 0x0 0x1000,
                  .hv_vm_map 0x7f0000200000 0x800 0x1000 HV_MEMORY_RWX] ∧
      hvf_set_phys_mem hv_ok w2 (ram_section 0x800 0x1000 0x7f0000200000) false = .done w3 ∧
      (∀ s ∈ w3.hvf_state.slots, s.size = 0) ∧
      w3.trace = [.hv_vm_map 0x7f0000000000 0x0 0x1000 HV_MEMORY_RWX,
                  .hv_vm_unmap 0x0 0x1000,
                  .hv_vm_map 0x7f0000200000 0x800 0x1000 HV_MEMORY_RWX,
                  .hv_vm_unmap 0x800 0x1000] :=
  C3_add_overlap_remove hv_ok (fun _ => rfl) _ hvf_accel_init_eq
    (ram_section 0x0 0x1000 0x7f0000000000) (ram_section 0x800 0x1000 0x7f0000200000)
    rfl rfl (by decide) (by decide) (by decide) (by decide) (by decide) (by decide)

/-- The early return of `hvf_set_phys_mem`: when the slot returned by the overlap
scan has the size, start and host address of the section, an add changes
nothing and issues no hypervisor call. -/
theorem add_same_as_found_slot (hv : List HvCall → Nat) (w : MemWorld)
    (sec : MemoryRegionSection) (i : Nat)
    (hfind : hvf_find_overlap_slot w.hvf_state sec.offset_within_address_space
      (u64 (sec.offset_within_address_space + sec.size)) = some i)
    (hsize : (w.hvf_state.slots.getD i hvf_slot.zero).size = sec.size)
    (hstart : (w.hvf_state.slots.getD i hvf_slot.zero).start = sec.offset_within_address_space)
    (hmem : (w.hvf_state.slots.getD i hvf_slot.zero).mem = sec.host) :
    hvf_set_phys_mem hv w sec true = .done w := by
  unfold hvf_set_phys_mem
  by_cases hram : sec.is_ram = true
  · simp only [List.getD_eq_getElem?_getD] at hsize hstart hmem
    simp [hram, hfind, hsize, hstart, hmem]
  · simp [hram]

/-- C1 (the no-overlap invariant fails on the code): from the table built by
`hvf_accel_init`, adding [0x0, 0x1000), then [0x1000, 0x2000), then
[0x800, 0x1800) as RAM sections leaves two active slots, [0x800, 0x1800) in
slot 0 and [0x1000, 0x2000) in slot 1, whose ranges intersect: the third add
overlaps both earlier slots and only the first one found is torn down. -/
theorem C1_overlapping_slots_reachable :
    ∃ w0 w : MemWorld,
      hvf_accel_init HV_SUCCESS = some w0 ∧
      apply_events hv_ok w0
        [⟨ram_section 0x0 0x1000 0x7f0000000000, true⟩,
         ⟨ram_section 0x1000 0x1000 0x7f0000100000, true⟩,
         ⟨ram_section 0x800 0x1000 0x7f0000200000, true⟩] = .done w ∧
      active_slots w =
        [{ start := 0x800, size := 0x1000, mem := 0x7f0000200000, slot_id := 0 },
         { start := 0x1000, size := 0x1000, mem := 0x7f0000100000, slot_id := 1 }] ∧
      ¬ no_overlap w.hvf_state.slots := by
  refine ⟨_, _, rfl, rfl, by decide, by decide⟩

/-- C2 (re-adding an identical region is not always a no-op on the code): in the
table reached by adding [0x0, 0x1000), [0x1000, 0x2000) and [0x800, 0x1800),
slot 1 holds [0x1000, 0x2000); adding that very region again (same start, size
and host address) changes the slot table and the shadow table and issues an
unmap and a map, because the overlap scan returns slot 0 first. -/
theorem C2_identical_readd_remaps :
    ∃ w0 w w2 : MemWorld,
      hvf_accel_init HV_SUCCESS = some w0 ∧
      apply_events hv_ok w0
        [⟨ram_section 0x0 0x1000 0x7f0000000000, true⟩,
         ⟨ram_section 0x1000 0x1000 0x7f0000100000, true⟩,
         ⟨ram_section 0x800 0x1000 0x7f0000200000, true⟩] = .done w ∧
      (∃ s ∈ w.hvf_state.slots, s.size ≠ 0 ∧ s.start = 0x1000 ∧ s.size = 0x1000 ∧
        s.mem = (ram_section 0x1000 0x1000 0x7f0000100000).host) ∧
      hvf_set_phys_mem hv_ok w (ram_section 0x1000 0x1000 0x7f0000100000) true = .done w2 ∧
      w2.hvf_state.slots ≠ w.hvf_state.slots ∧
      w2.mac_slots ≠ w.mac_slots ∧
      w2.trace = w.trace ++
        [.hv_vm_unmap 0x800 0x1000, .hv_vm_map 0x7f0000100000 0x1000 0x1000 HV_MEMORY_RWX] := by
  refine ⟨_, _, _, rfl, rfl, by decide, rfl, by decide, by decide, by decide⟩

/-! ## CPUID virtualizer: lemmas and properties -/

/-- Bits of the complemented leaf 1 ECX mask. -/
theorem leaf1_ecx_mask_bits :
    ∀ i, i < 32 →
      (not32 (CPUID_EXT_OSXSAVE ||| CPUID_EXT_MONITOR ||| CPUID_EXT_X2APIC ||| CPUID_EXT_VMX |||
        CPUID_EXT_TSC_DEADLINE_TIMER ||| CPUID_EXT_TM2 ||| CPUID_EXT_PCID ||| CPUID_EXT_EST |||
        CPUID_EXT_SSE42 ||| CPUID_EXT_SSE41)).testBit i =
      !(decide (i ∈ [27, 3, 21, 5, 24, 8, 7, 17, 19, 20])) := by
  decide

/-- The hypervisor constant is bit 31 alone. -/
theorem hypervisor_bits : ∀ i, i < 32 → CPUID_EXT_HYPERVISOR.testBit i = decide (i = 31) := by
  decide

/-- C8: on leaf 1, for every host result and topology, the returned ECX has bit 31
(hypervisor) set, has bits 27 (OSXSAVE), 3 (MONITOR), 21 (x2APIC), 5 (VMX),
24 (TSC-deadline), 8 (TM2), 7 (EST), 17 (PCID), 19 (SSE4.1) and 20 (SSE4.2)
clear, and every other bit below 32 equals the bit of the host ECX. -/
theorem C8_leaf1_ecx (p : x86_cpuid) (h : cpuid_regs) (apic_id nr_cores nr_threads cnt : Nat)
    (i : Nat) (hi : i < 32) :
    (get_cpuid_func p h apic_id nr_cores nr_threads 1 cnt).ecx.testBit i =
      if i = 31 then true
      else if i ∈ [27, 3, 21, 5, 24, 8, 7, 17, 19, 20] then false
      else h.ecx.testBit i := by
  simp only [get_cpuid_func, Nat.testBit_or, Nat.testBit_and, leaf1_ecx_mask_bits i hi,
    hypervisor_bits i hi, if_neg (show ¬ ((1:Nat) = 0) by decide), if_true]
  by_cases h31 : i = 31
  · simp [h31]
  · by_cases hm : i ∈ [27, 3, 21, 5, 24, 8, 7, 17, 19, 20]
    · simp only [h31, hm]; simp
    · simp only [h31, hm]; simp

/-- C8 at bit 26 (XSAVE) of a host ECX with every bit set: the host bit is kept. -/
theorem C8_leaf1_ecx_witness :
    (get_cpuid_func cpu_vmX ⟨0x306a9, 0x00100800, 0xffffffff, 0xbfebfbff⟩ 0 1 1 1 0).ecx.testBit 26 =
      (if (26 : Nat) = 31 then true
       else if (26 : Nat) ∈ [27, 3, 21, 5, 24, 8, 7, 17, 19, 20] then false
       else Nat.testBit 0xffffffff 26) :=
  C8_leaf1_ecx cpu_vmX ⟨0x306a9, 0x00100800, 0xffffffff, 0xbfebfbff⟩ 0 1 1 0 26 (by decide)

/-- Leaf 1: the logical-processor-count field of the result is the field of the host
EBX, or-ed with the low byte of `nr_cores * nr_threads` when that product exceeds 1. -/
theorem leaf1_count_field (p : x86_cpuid) (h : cpuid_regs) (apic_id nr_cores nr_threads cnt : Nat) :
    ebx_logical_count (get_cpuid_func p h apic_id nr_cores nr_threads 1 cnt).ebx =
      if nr_cores * nr_threads > 1 then
        ebx_logical_count h.ebx ||| (nr_cores * nr_threads) % 256
      else ebx_logical_count h.ebx := by
  have hmask : (0x00ffffff : Nat) = 2 ^ 24 - 1 := by norm_num
  have h256 : (256 : Nat) = 2 ^ 8 := by norm_num
  simp only [get_cpuid_func, if_neg (show ¬ ((1:Nat) = 0) by decide), if_true, ebx_logical_count,
    u32, hmask, h256]
  split
  · apply Nat.eq_of_testBit_eq
    intro i
    simp only [Nat.testBit_mod_two_pow, Nat.testBit_shiftRight, Nat.testBit_or, Nat.testBit_and,
      Nat.testBit_shiftLeft, Nat.testBit_two_pow_sub_one]
    by_cases hi : i < 8
    · have h1 : 16 + i < 32 := by omega
      have h2 : ¬ (16 + i ≥ 24) := by omega
      have h3 : 16 + i < 24 := by omega
      have h4 : 16 + i ≥ 16 := by omega
      simp [hi, h1, h2, h3, h4]
    · simp [hi]
  · apply Nat.eq_of_testBit_eq
    intro i
    simp only [Nat.testBit_mod_two_pow, Nat.testBit_shiftRight, Nat.testBit_or, Nat.testBit_and,
      Nat.testBit_shiftLeft, Nat.testBit_two_pow_sub_one]
    by_cases hi : i < 8
    · have h1 : 16 + i < 32 := by omega
      have h2 : ¬ (16 + i ≥ 24) := by omega
      have h3 : 16 + i < 24 := by omega
      simp [hi, h1, h2, h3]
    · simp [hi]

/-- No built-in profile initialises `xlevel2`. -/
theorem builtin_xlevel2 (p : x86_cpuid) (hp : p ∈ builtin_cpus) : p.xlevel2 = 0 := by
  simp only [builtin_cpus, List.mem_cons, List.mem_singleton, List.not_mem_nil, or_false] at hp
  rcases hp with rfl | rfl | rfl <;> rfl

/-- Leaf 1: the APIC-id field, bits 31..24 of the returned EBX, is `apic_id` whatever
the host EBX holds there, for an `apic_id` and a logical-processor count below
256. -/
theorem leaf1_apic_id_field (p : x86_cpuid) (h : cpuid_regs)
    (apic_id nr_cores nr_threads cnt : Nat) (ha : apic_id < 256)
    (hN : nr_cores * nr_threads < 256) :
    (get_cpuid_func p h apic_id nr_cores nr_threads 1 cnt).ebx >>> 24 = apic_id := by
  have hmask : (0x00ffffff : Nat) = 2 ^ 24 - 1 := by norm_num
  have hbitA : ∀ i, 8 ≤ i → apic_id.testBit i = false := by
    intro i hi
    exact Nat.testBit_lt_two_pow (lt_of_lt_of_le ha (Nat.pow_le_pow_right (Nat.zero_lt_two) hi))
  have hbitN : ∀ i, 8 ≤ i → (nr_cores * nr_threads).testBit i = false := by
    intro i hi
    exact Nat.testBit_lt_two_pow (lt_of_lt_of_le hN (Nat.pow_le_pow_right (Nat.zero_lt_two) hi))
  simp only [get_cpuid_func, if_neg (show ¬ ((1:Nat) = 0) by decide), if_true, u32, hmask]
  split
  · apply Nat.eq_of_testBit_eq
    intro i
    simp only [Nat.testBit_mod_two_pow, Nat.testBit_shiftRight, Nat.testBit_or, Nat.testBit_and,
      Nat.testBit_shiftLeft, Nat.testBit_two_pow_sub_one]
    have h1 : ¬ (24 + i < 24) := by omega
    have h2 : 24 + i ≥ 24 := by omega
    have h3 : 24 + i ≥ 16 := by omega
    have h4 : 24 + i - 24 = i := by omega
    have h5 : (nr_cores * nr_threads).testBit (24 + i - 16) = false := hbitN _ (by omega)
    by_cases hi : i < 8
    · have h6 : 24 + i < 32 := by omega
      simp [h1, h2, h3, h4, h5, h6]
    · have h6 : ¬ (24 + i < 32) := by omega
      simp [h1, h6, hbitA i (by omega)]
  · apply Nat.eq_of_testBit_eq
    intro i
    simp only [Nat.testBit_mod_two_pow, Nat.testBit_shiftRight, Nat.testBit_or, Nat.testBit_and,
      Nat.testBit_shiftLeft, Nat.testBit_two_pow_sub_one]
    have h1 : ¬ (24 + i < 24) := by omega
    have h2 : 24 + i ≥ 24 := by omega
    have h4 : 24 + i - 24 = i := by omega
    by_cases hi : i < 8
    · have h6 : 24 + i < 32 := by omega
      simp [h1, h2, h4, h6]
    · have h6 : ¬ (24 + i < 32) := by omega
      simp [h1, h6, hbitA i (by omega)]

/-- C4 (the processor count is or-ed onto the count of the host): on leaf 1 with
N = nr_cores * nr_threads > 1, `get_cpuid_func` ors N << 16 onto an EBX that
still holds bits 23..16 of the host, which the mask 0x00ffffff keeps; the
logical-processor-count field returned is therefore the field of the host
or-ed with N mod 256, for every host, and not N. The APIC-id field next to it,
bits 31..24, is cleared by that mask before `apic_id` is or-ed in, and is
`apic_id` whatever the host holds there. For a host whose count field is 16,
N = 2, 4, 8 and 12 give the counts 18, 20, 24 and 28, with bit 28 of EDX set;
with N = 1 the count 16 of the host and bit 28 of the host EDX are returned as
they are. -/
theorem C4_leaf1_count_ored_onto_host :
    (∀ (p : x86_cpuid) (h : cpuid_regs) (apic_id nr_cores nr_threads cnt : Nat),
      1 < nr_cores * nr_threads →
      ebx_logical_count (get_cpuid_func p h apic_id nr_cores nr_threads 1 cnt).ebx =
        ebx_logical_count h.ebx ||| (nr_cores * nr_threads) % 256 ∧
      (get_cpuid_func p h apic_id nr_cores nr_threads 1 cnt).edx.testBit 28 = true) ∧
    (∀ (p : x86_cpuid) (h : cpuid_regs) (apic_id nr_cores nr_threads cnt : Nat),
      apic_id < 256 → nr_cores * nr_threads < 256 →
      (get_cpuid_func p h apic_id nr_cores nr_threads 1 cnt).ebx >>> 24 = apic_id) ∧
    ebx_logical_count (0x00100800 : Nat) = 16 ∧
    ebx_logical_count
      (get_cpuid_func cpu_vmX ⟨0x306a9, 0x00100800, 0x7fbae3ff, 0xbfebfbff⟩ 0 2 1 1 0).ebx = 18 ∧
    ebx_logical_count
      (get_cpuid_func cpu_vmX ⟨0x306a9, 0x00100800, 0x7fbae3ff, 0xbfebfbff⟩ 0 2 2 1 0).ebx = 20 ∧
    ebx_logical_count
      (get_cpuid_func cpu_vmX ⟨0x306a9, 0x00100800, 0x7fbae3ff, 0xbfebfbff⟩ 0 4 2 1 0).ebx = 24 ∧
    ebx_logical_count
      (get_cpuid_func cpu_vmX ⟨0x306a9, 0x00100800, 0x7fbae3ff, 0xbfebfbff⟩ 0 6 2 1 0).ebx = 28 ∧
    (get_cpuid_func cpu_vmX ⟨0x306a9, 0x00100800, 0x7fbae3ff, 0xbfebfbff⟩ 0 2 1 1 0).edx.testBit 28
      = true ∧
    ebx_logical_count
      (get_cpuid_func cpu_vmX ⟨0x306a9, 0x00100800, 0x7fbae3ff, 0xbfebfbff⟩ 0 1 1 1 0).ebx = 16 ∧
    (get_cpuid_func cpu_vmX ⟨0x306a9, 0x00100800, 0x7fbae3ff, 0xbfebfbff⟩ 0 1 1 1 0).edx.testBit 28
      = true := by
  refine ⟨?_, ?_, by decide, by decide, by decide, by decide, by decide, by decide, by decide,
    by decide⟩
  · intro p h apic_id nr_cores nr_threads cnt hN
    refine ⟨?_, ?_⟩
    · rw [leaf1_count_field, if_pos hN]
    · have hN' : nr_cores * nr_threads > 1 := hN
      simp only [get_cpuid_func, if_neg (show ¬ ((1:Nat) = 0) by decide), if_true, if_pos hN',
        Nat.testBit_or]
      have hbit : Nat.testBit (1 <<< 28) 28 = true := by decide
      rw [hbit, Bool.or_true]
  · intro p h apic_id nr_cores nr_threads cnt ha hN
    exact leaf1_apic_id_field p h apic_id nr_cores nr_threads cnt ha hN

/-- C5 (the leaf 7 mask misses two AVX-512 bits): for a host whose leaf 7 EBX has
AVX512DQ (bit 17) and AVX512IFMA (bit 21) set, the EBX returned by
`get_cpuid_func` has both bits set, for every profile, topology and subleaf. -/
theorem C5_leaf7_avx512dq_ifma_exposed (p : x86_cpuid) (apic_id nr_cores nr_threads cnt : Nat) :
    (get_cpuid_func p ⟨0, 0x00220000, 0, 0⟩ apic_id nr_cores nr_threads 7 cnt).ebx.testBit 17
        = true ∧
    (get_cpuid_func p ⟨0, 0x00220000, 0, 0⟩ apic_id nr_cores nr_threads 7 cnt).ebx.testBit 21
        = true := by
  simp only [get_cpuid_func, if_neg (show ¬ ((7:Nat) = 0) by decide),
    if_neg (show ¬ ((7:Nat) = 1) by decide), if_neg (show ¬ ((7:Nat) = 2) by decide),
    if_neg (show ¬ ((7:Nat) = 4) by decide), if_neg (show ¬ ((7:Nat) = 5) by decide),
    if_neg (show ¬ ((7:Nat) = 6) by decide), if_true]
  decide

/-- Bits of the complemented leaf 7 EBX mask. -/
theorem leaf7_ebx_mask_bits :
    ∀ i, i < 32 →
      (not32 (CPUID_7_0_EBX_AVX512F ||| CPUID_7_0_EBX_AVX512PF ||| CPUID_7_0_EBX_AVX512ER |||
        CPUID_7_0_EBX_AVX512CD ||| CPUID_7_0_EBX_AVX512BW ||| CPUID_7_0_EBX_AVX512VL |||
        CPUID_7_0_EBX_MPX ||| CPUID_7_0_EBX_INVPCID)).testBit i =
      !(decide (i ∈ [16, 26, 27, 28, 30, 31, 14, 10])) := by
  decide

/-- Leaf 7: EBX bits 10, 14, 16, 26, 27, 28, 30 and 31 are cleared and every other
EBX bit below 32 is the bit of the host. -/
theorem leaf7_ebx_bits (p : x86_cpuid) (h : cpuid_regs) (apic_id nr_cores nr_threads cnt : Nat)
    (i : Nat) (hi : i < 32) :
    (get_cpuid_func p h apic_id nr_cores nr_threads 7 cnt).ebx.testBit i =
      if i ∈ [16, 26, 27, 28, 30, 31, 14, 10] then false else h.ebx.testBit i := by
  simp only [get_cpuid_func, if_neg (show ¬ ((7:Nat) = 0) by decide),
    if_neg (show ¬ ((7:Nat) = 1) by decide), if_neg (show ¬ ((7:Nat) = 2) by decide),
    if_neg (show ¬ ((7:Nat) = 4) by decide), if_neg (show ¬ ((7:Nat) = 5) by decide),
    if_neg (show ¬ ((7:Nat) = 6) by decide), if_true, Nat.testBit_and, leaf7_ebx_mask_bits i hi]
  by_cases hm : i ∈ [16, 26, 27, 28, 30, 31, 14, 10]
  · simp only [hm]; simp
  · simp only [hm]; simp

/-- C6 fails as stated: on leaf 0xD sub-leaf 0, a host EDX of 1 is returned as is,
so the bitmap EDX:EAX has bit 32 set. -/
theorem C6_counterexample :
    (((get_cpuid_func cpu_vmX ⟨0x7, 0x340, 0x340, 0x1⟩ 0 1 1 0xD 0).edx <<< 32) |||
      (get_cpuid_func cpu_vmX ⟨0x7, 0x340, 0x340, 0x1⟩ 0 1 1 0xD 0).eax).testBit 32 = true := by
  decide

/-- Leaf 0xD in closed form. -/
theorem leafD_eq (p : x86_cpuid) (h : cpuid_regs) (apic_id nr_cores nr_threads cnt : Nat) :
    get_cpuid_func p h apic_id nr_cores nr_threads 0xD cnt =
      { eax := if cnt = 0 then h.eax &&& 7 else if cnt = 1 then h.eax &&& 3 else h.eax,
        ebx := h.ebx, ecx := h.ecx, edx := h.edx } := by
  have h7 : XSTATE_FP_MASK ||| XSTATE_SSE_MASK ||| XSTATE_YMM_MASK = 7 := by decide
  have h3 : CPUID_XSAVE_XSAVEOPT ||| CPUID_XSAVE_XSAVEC = 3 := by decide
  simp only [get_cpuid_func, h7, h3]
  by_cases h0 : cnt = 0
  · subst h0; simp
  · by_cases h1 : cnt = 1
    · subst h1; simp
    · have h1' : ¬ (1 = cnt) := fun e => h1 e.symm
      simp [h0, h1, h1']

/-- A value masked with `2 ^ n - 1` has no bit at position `n` or above. -/
theorem and_low_mask_testBit (x n i : Nat) (hi : n ≤ i) : (x &&& (2 ^ n - 1)).testBit i = false := by
  rw [Nat.testBit_and, Nat.testBit_two_pow_sub_one]
  have : ¬ (i < n) := by omega
  simp [this]

/-- C6, amended: on leaf 0xD, sub-leaf 0 returns EAX equal to the host EAX masked
to bits 0, 1, 2 (no bit at position 3 or above) and EDX equal to the host EDX;
sub-leaf 1 returns EAX equal to the host EAX masked to bits 0, 1 (no bit at
position 2 or above). -/
theorem C6_leafD_xsave_masks (p : x86_cpuid) (h : cpuid_regs)
    (apic_id nr_cores nr_threads : Nat) :
    ((get_cpuid_func p h apic_id nr_cores nr_threads 0xD 0).eax = h.eax &&& 7 ∧
      (∀ i, 3 ≤ i → (get_cpuid_func p h apic_id nr_cores nr_threads 0xD 0).eax.testBit i = false) ∧
      (get_cpuid_func p h apic_id nr_cores nr_threads 0xD 0).edx = h.edx) ∧
    ((get_cpuid_func p h apic_id nr_cores nr_threads 0xD 1).eax = h.eax &&& 3 ∧
      (∀ i, 2 ≤ i → (get_cpuid_func p h apic_id nr_cores nr_threads 0xD 1).eax.testBit i = false)) := by
  rw [leafD_eq, leafD_eq]
  refine ⟨⟨by simp, fun i hi => ?_, rfl⟩, by simp, fun i hi => ?_⟩
  · simpa using and_low_mask_testBit h.eax 3 i hi
  · simpa using and_low_mask_testBit h.eax 2 i hi

/-- C6 amended, at a host EAX with bits above the masks set. -/
theorem C6_leafD_xsave_masks_witness :
    (get_cpuid_func cpu_vmX ⟨0xe7, 0x340, 0x340, 0x0⟩ 0 1 1 0xD 0).eax.testBit 5 = false ∧
    (get_cpuid_func cpu_vmX ⟨0xf, 0x340, 0x340, 0x0⟩ 0 1 1 0xD 1).eax.testBit 3 = false :=
  ⟨(C6_leafD_xsave_masks cpu_vmX ⟨0xe7, 0x340, 0x340, 0x0⟩ 0 1 1).1.2.1 5 (by decide),
   (C6_leafD_xsave_masks cpu_vmX ⟨0xf, 0x340, 0x340, 0x0⟩ 0 1 1).2.2 3 (by decide)⟩

/-- C7: on leaf 0, for every subleaf and host result, `get_cpuid_func` returns the
level of the profile in EAX and its vendor dwords 1, 2, 3 in EBX, EDX, ECX; on
leaf 0x80000000 it returns the xlevel in EAX with the same vendor dwords; the
host result does not occur in either output. For the catalog entry named
"core2duo" EAX is 10 on leaf 0 and 0x80000008 on leaf 0x80000000. -/
theorem C7_leaf0_vendor_and_level (p : x86_cpuid) (h : cpuid_regs)
    (apic_id nr_cores nr_threads cnt : Nat) :
    get_cpuid_func p h apic_id nr_cores nr_threads 0 cnt =
      { eax := p.level, ebx := p.vendor1, edx := p.vendor2, ecx := p.vendor3 } ∧
    get_cpuid_func p h apic_id nr_cores nr_threads 0x80000000 cnt =
      { eax := p.xlevel, ebx := p.vendor1, edx := p.vendor2, ecx := p.vendor3 } ∧
    cpu_core2duo.name = "core2duo" ∧
    (get_cpuid_func cpu_core2duo h apic_id nr_cores nr_threads 0 cnt).eax = 10 ∧
    (get_cpuid_func cpu_core2duo h apic_id nr_cores nr_threads 0x80000000 cnt).eax = 0x80000008 := by
  refine ⟨by simp [get_cpuid_func], by simp [get_cpuid_func], rfl, by simp [get_cpuid_func, cpu_core2duo],
    by simp [get_cpuid_func, cpu_core2duo]⟩

/-- C9 fails as stated: on leaf 0x80000008 only EAX is the host value; EBX, ECX
and EDX are zero. -/
theorem C9_counterexample :
    get_cpuid_func cpu_vmX ⟨0x3027, 0x1, 0x2, 0x3⟩ 0 1 1 0x80000008 0 ≠
      ⟨0x3027, 0x1, 0x2, 0x3⟩ := by
  decide

/-- C9, amended: for every leaf in 2, 4, 5, 9, 0x80000002 .. 0x80000006, every
subleaf and every host result, `get_cpuid_func` returns exactly the host
result; on leaf 0x80000008 it returns the host EAX with EBX = ECX = EDX = 0. -/
theorem C9_passthrough_leaves (p : x86_cpuid) (h : cpuid_regs)
    (apic_id nr_cores nr_threads func cnt : Nat)
    (hf : func ∈ [2, 4, 5, 9, 0x80000002, 0x80000003, 0x80000004, 0x80000005, 0x80000006]) :
    get_cpuid_func p h apic_id nr_cores nr_threads func cnt = h ∧
    get_cpuid_func p h apic_id nr_cores nr_threads 0x80000008 cnt =
      { eax := h.eax, ebx := 0, ecx := 0, edx := 0 } := by
  refine ⟨?_, by simp [get_cpuid_func]⟩
  simp only [List.mem_cons, List.mem_singleton, List.not_mem_nil, or_false] at hf
  rcases hf with rfl | rfl | rfl | rfl | rfl | rfl | rfl | rfl | rfl <;> simp [get_cpuid_func]

/-- C9 amended, at leaf 4. -/
theorem C9_passthrough_leaves_witness :
    get_cpuid_func cpu_vmX ⟨0x1c004121, 0x01c0003f, 0x3f, 0x0⟩ 0 1 1 4 0 =
      ⟨0x1c004121, 0x01c0003f, 0x3f, 0x0⟩ ∧
    get_cpuid_func cpu_vmX ⟨0x1c004121, 0x01c0003f, 0x3f, 0x0⟩ 0 1 1 0x80000008 0 =
      { eax := 0x1c004121, ebx := 0, ecx := 0, edx := 0 } :=
  C9_passthrough_leaves cpu_vmX ⟨0x1c004121, 0x01c0003f, 0x3f, 0x0⟩ 0 1 1 4 0 (by decide)

/-- C10 fails as stated: leaf 0x80000001 is not among the listed leaves, and it
returns the host EAX and the host ECX and EDX masked by the profile. -/
theorem C10_counterexample :
    (0x80000001 : Nat) ∉ [0, 1, 2, 4, 5, 7, 9, 0xD, 0x80000000, 0x80000002, 0x80000003,
      0x80000004, 0x80000005, 0x80000006, 0x80000007, 0x80000008] ∧
    get_cpuid_func cpu_vmX ⟨0x306a0, 0x0, 0x1, 0x28100800⟩ 0 1 1 0x80000001 0 =
      { eax := 0x306a0, ebx := 0, ecx := 0x1, edx := 0x20100800 } := by
  decide

/-- C10, amended: for every built-in profile, every leaf that is neither among the
listed ones (0, 1, 2, 4, 5, 7, 9, 0xD, 0x80000000, 0x80000002 .. 0x80000008)
nor 0x80000001, every subleaf and every host result, `get_cpuid_func` returns
EAX = EBX = ECX = EDX = 0. -/
theorem C10_unlisted_leaves_zero (p : x86_cpuid) (hp : p ∈ builtin_cpus) (h : cpuid_regs)
    (apic_id nr_cores nr_threads func cnt : Nat)
    (hf : func ∉ [0, 1, 2, 4, 5, 7, 9, 0xD, 0x80000000, 0x80000002, 0x80000003,
      0x80000004, 0x80000005, 0x80000006, 0x80000007, 0x80000008])
    (h1 : func ≠ 0x80000001) :
    get_cpuid_func p h apic_id nr_cores nr_threads func cnt =
      { eax := 0, ebx := 0, ecx := 0, edx := 0 } := by
  have hx := builtin_xlevel2 p hp
  simp only [List.mem_cons, List.mem_singleton, List.not_mem_nil, or_false, not_or] at hf
  obtain ⟨f0, f1, f2, f4, f5, f7, f9, fD, f8, f82, f83, f84, f85, f86, f87, f88⟩ := hf
  simp only [get_cpuid_func, cpuid_case_C0000000, hx, f0, f1, f2, f4, f5, f7, f9, fD, f8, f82,
    f83, f84, f85, f86, f87, f88, h1, if_false, false_or, ite_self]

/-- C10 amended, at leaf 0x80000019 of the third catalog entry. -/
theorem C10_unlisted_leaves_zero_witness :
    get_cpuid_func cpu_vmX ⟨0x11, 0x22, 0x33, 0x44⟩ 0 1 1 0x80000019 0 =
      { eax := 0, ebx := 0, ecx := 0, edx := 0 } :=
  C10_unlisted_leaves_zero cpu_vmX (by decide) ⟨0x11, 0x22, 0x33, 0x44⟩ 0 1 1 0x80000019 0
    (by decide) (by decide)

/-! ## Slot manager: the overlap scan and the free-slot scan -/

/-- The overlap scan in terms of list positions: a result `some i` is `x` plus the
first position whose slot passes the test of the loop, and `none` means no
slot passes it. -/
theorem find_overlap_loop_spec (start end_ : Nat) (l : List hvf_slot) (x : Nat) :
    match hvf_find_overlap_slot.loop start end_ l x with
    | some i =>
      ∃ k slot, i = x + k ∧ l[k]? = some slot ∧
        (slot.size ≠ 0 ∧ start < u64 (slot.start + slot.size) ∧ end_ > slot.start) ∧
        ∀ j, j < k → ∀ sj, l[j]? = some sj →
          ¬ (sj.size ≠ 0 ∧ start < u64 (sj.start + sj.size) ∧ end_ > sj.start)
    | none =>
      ∀ slot ∈ l, ¬ (slot.size ≠ 0 ∧ start < u64 (slot.start + slot.size) ∧ end_ > slot.start) := by
  induction l generalizing x with
  | nil => simp [hvf_find_overlap_slot.loop]
  | cons a l ih =>
    unfold hvf_find_overlap_slot.loop
    by_cases ha : a.size ≠ 0 ∧ start < u64 (a.start + a.size) ∧ end_ > a.start
    · rw [if_pos ha]
      refine ⟨0, a, rfl, by simp, ha, ?_⟩
      intro j hj
      exact absurd hj (Nat.not_lt_zero j)
    · rw [if_neg ha]
      have h := ih (x + 1)
      revert h
      cases hres : hvf_find_overlap_slot.loop start end_ l (x + 1) with
      | none =>
        intro h slot hslot
        rcases List.mem_cons.1 hslot with rfl | hmem
        · exact ha
        · exact h slot hmem
      | some i =>
        rintro ⟨k, slot, hi, hk, hc, hmin⟩
        refine ⟨k + 1, slot, by omega, by simpa using hk, hc, ?_⟩
        intro j hj sj hsj
        cases j with
        | zero =>
          simp only [List.getElem?_cons_zero, Option.some.injEq] at hsj
          subst hsj
          exact ha
        | succ j =>
          simp only [List.getElem?_cons_succ] at hsj
          exact hmin j (by omega) sj hsj

/-- C19, amended: for every slot table in which no active slot has a range that wraps
around 2^64, and every query (start, end), `hvf_find_overlap_slot` returns the
slot of index `i` exactly when slot `i` is the lowest-index slot below
`num_slots` that is active with `start < s + n` and `s < end`, and returns
NULL exactly when no slot below `num_slots` is such a slot. -/
theorem C19_find_overlap_slot (st : HVFState) (start end_ : Nat)
    (hnowrap : ∀ slot ∈ st.slots.take st.num_slots, slot.size ≠ 0 →
      slot.start + slot.size < 2 ^ 64) :
    match hvf_find_overlap_slot st start end_ with
    | some i =>
      ∃ slot, i < st.num_slots ∧ st.slots[i]? = some slot ∧ slot_meets slot start end_ ∧
        ∀ j, j < i → ∀ sj, st.slots[j]? = some sj → ¬ slot_meets sj start end_
    | none => ∀ slot ∈ st.slots.take st.num_slots, ¬ slot_meets slot start end_ := by
  have hconv : ∀ slot ∈ st.slots.take st.num_slots,
      ((slot.size ≠ 0 ∧ start < u64 (slot.start + slot.size) ∧ end_ > slot.start) ↔
        slot_meets slot start end_) := by
    intro slot hslot
    unfold slot_meets
    constructor
    · rintro ⟨h1, h2, h3⟩
      rw [u64, Nat.mod_eq_of_lt (hnowrap slot hslot h1)] at h2
      exact ⟨h1, h2, h3⟩
    · rintro ⟨h1, h2, h3⟩
      rw [u64, Nat.mod_eq_of_lt (hnowrap slot hslot h1)]
      exact ⟨h1, h2, h3⟩
  have h := find_overlap_loop_spec start end_ (st.slots.take st.num_slots) 0
  unfold hvf_find_overlap_slot
  revert h
  cases hres : hvf_find_overlap_slot.loop start end_ (st.slots.take st.num_slots) 0 with
  | none =>
    intro h slot hslot hm
    exact h slot hslot ((hconv slot hslot).2 hm)
  | some i =>
    rintro ⟨k, slot, hi, hk, hc, hmin⟩
    have hik : i = k := by omega
    subst hik
    have hk' := hk
    rw [List.getElem?_take] at hk'
    have hlt : i < st.num_slots := by
      by_contra hge
      rw [if_neg hge] at hk'
      exact Option.noConfusion hk'
    rw [if_pos hlt] at hk'
    refine ⟨slot, hlt, hk', (hconv slot (List.getElem?_mem hk)).1 hc, ?_⟩
    intro j hj sj hsj hm
    have hsj' : (st.slots.take st.num_slots)[j]? = some sj := by
      rw [List.getElem?_take, if_pos (by omega)]; exact hsj
    exact hmin j hj sj hsj' ((hconv sj (List.getElem?_mem hsj')).2 hm)

/-- C19 fails as stated: after adding the RAM region whose range is the last 0x1000
bytes below 2^64, the query [2^64 - 0x800, 2^64 - 0x400) lies inside the active
slot 0, yet `hvf_find_overlap_slot` returns NULL, because `start + size` of the
slot wraps to 0. -/
theorem C19_counterexample :
    ∃ w0 w : MemWorld,
      hvf_accel_init HV_SUCCESS = some w0 ∧
      hvf_set_phys_mem hv_ok w0 (ram_section 0xfffffffffffff000 0x1000 0x7f0000000000) true
        = .done w ∧
      (∃ slot ∈ w.hvf_state.slots,
        slot_meets slot 0xfffffffffffff800 0xfffffffffffffc00) ∧
      hvf_find_overlap_slot w.hvf_state 0xfffffffffffff800 0xfffffffffffffc00 = none := by
  refine ⟨_, _, rfl, rfl, by decide, by decide⟩

/-- C19 amended, on the table holding [0x0, 0x1000) in slot 0 and [0x1000, 0x2000) in
slot 1: the query [0x1800, 0x3000) returns slot 1, and slot 0 does not meet it. -/
theorem C19_find_overlap_slot_witness :
    ∃ slot, 1 < 32 ∧
      ([({ start := 0x0, size := 0x1000, mem := 0x7f0000000000, slot_id := 0 } : hvf_slot),
        { start := 0x1000, size := 0x1000, mem := 0x7f0000100000, slot_id := 1 }] ++
        (List.range' 2 30).map (fun x => { hvf_slot.zero with slot_id := x }))[1]? = some slot ∧
      slot_meets slot 0x1800 0x3000 ∧
      ∀ j, j < 1 → ∀ sj,
        ([({ start := 0x0, size := 0x1000, mem := 0x7f0000000000, slot_id := 0 } : hvf_slot),
          { start := 0x1000, size := 0x1000, mem := 0x7f0000100000, slot_id := 1 }] ++
          (List.range' 2 30).map (fun x => { hvf_slot.zero with slot_id := x }))[j]? = some sj →
        ¬ slot_meets sj 0x1800 0x3000 :=
  C19_find_overlap_slot
    { slots :=
        [({ start := 0x0, size := 0x1000, mem := 0x7f0000000000, slot_id := 0 } : hvf_slot),
         { start := 0x1000, size := 0x1000, mem := 0x7f0000100000, slot_id := 1 }] ++
         (List.range' 2 30).map (fun x => { hvf_slot.zero with slot_id := x }),
      num_slots := 32 }
    0x1800 0x3000 (by decide)

/-- The free-slot scan in terms of list positions. -/
theorem find_free_slot_spec (l : List hvf_slot) (x : Nat) :
    match find_free_slot l x with
    | some i =>
      ∃ k slot, i = x + k ∧ l[k]? = some slot ∧ slot.size = 0 ∧
        ∀ j, j < k → ∀ sj, l[j]? = some sj → sj.size ≠ 0
    | none => ∀ slot ∈ l, slot.size ≠ 0 := by
  induction l generalizing x with
  | nil => simp [find_free_slot]
  | cons a l ih =>
    unfold find_free_slot
    by_cases ha : a.size = 0
    · rw [if_pos ha]
      refine ⟨0, a, rfl, by simp, ha, ?_⟩
      intro j hj
      exact absurd hj (Nat.not_lt_zero j)
    · rw [if_neg ha]
      have h := ih (x + 1)
      revert h
      cases hres : find_free_slot l (x + 1) with
      | none =>
        intro h slot hslot
        rcases List.mem_cons.1 hslot with rfl | hmem
        · exact ha
        · exact h slot hmem
      | some i =>
        rintro ⟨k, slot, hi, hk, hc, hmin⟩
        refine ⟨k + 1, slot, by omega, by simpa using hk, hc, ?_⟩
        intro j hj sj hsj
        cases j with
        | zero =>
          simp only [List.getElem?_cons_zero, Option.some.injEq] at hsj
          subst hsj
          exact ha
        | succ j =>
          simp only [List.getElem?_cons_succ] at hsj
          exact hmin j (by omega) sj hsj

/-- `__hvf_set_memory` never touches the slot table and never returns a nonzero value;
it returns when every hypervisor call succeeds. -/
theorem set_memory_slots (hv : List HvCall → Nat) (w : MemWorld) (i : Nat) :
    ∃ w', w'.hvf_state = w.hvf_state ∧
      (__hvf_set_memory hv w i = .done (w', 0) ∨ __hvf_set_memory hv w i = .aborted w') ∧
      ((∀ t, hv t = HV_SUCCESS) → __hvf_set_memory hv w i = .done (w', 0)) := by
  unfold __hvf_set_memory
  simp only [hv_call, assert_hvf_ok]
  split_ifs <;> (try simp only []) <;> (try split_ifs) <;> (try simp only []) <;>
    first
    | (refine ⟨_, ?_, Or.inl rfl, ?_⟩
       · rfl
       · intro _; rfl)
    | (refine ⟨_, ?_, Or.inr rfl, ?_⟩
       · rfl
       · intro hok
         exact absurd (hok _) (by assumption))

/-- A region that meets no slot over the natural numbers is not found by the overlap
scan either, whatever wraps. -/
theorem find_overlap_none_of_disjoint (st : HVFState) (start size : Nat)
    (h : ∀ slot ∈ st.slots.take st.num_slots, ¬ slot_meets slot start (start + size)) :
    hvf_find_overlap_slot st start (u64 (start + size)) = none := by
  have hs := find_overlap_loop_spec start (u64 (start + size)) (st.slots.take st.num_slots) 0
  unfold hvf_find_overlap_slot
  revert hs
  cases hres : hvf_find_overlap_slot.loop start (u64 (start + size))
      (st.slots.take st.num_slots) 0 with
  | none => intro _; rfl
  | some i =>
    rintro ⟨k, slot, _, hk, ⟨h1, h2, h3⟩, _⟩
    exfalso
    apply h slot (List.getElem?_mem hk)
    have e1 : u64 (slot.start + slot.size) ≤ slot.start + slot.size := Nat.mod_le _ _
    have e2 : u64 (start + size) ≤ start + size := Nat.mod_le _ _
    exact ⟨h1, by omega, by omega⟩

/-- C20: for an add event of a RAM region that meets no active slot of a 32-slot
table: if some slot has size 0, the region's start, size and host address are
recorded in the lowest-index slot of size 0 and every other slot is unchanged
(and the call returns when the hypervisor calls succeed); if all 32 slots have
nonzero size, `hvf_set_phys_mem` aborts in the state it was called in, so no
map call has been issued. -/
theorem C20_add_takes_first_free_slot (hv : List HvCall → Nat) (w : MemWorld)
    (sec : MemoryRegionSection) (hram : sec.is_ram = true)
    (hlen : w.hvf_state.slots.length = 32) (hnum : w.hvf_state.num_slots = 32)
    (hdisj : ∀ slot ∈ w.hvf_state.slots,
      ¬ slot_meets slot sec.offset_within_address_space
          (sec.offset_within_address_space + sec.size)) :
    ((∃ slot ∈ w.hvf_state.slots, slot.size = 0) →
      ∃ x old, w.hvf_state.slots[x]? = some old ∧ old.size = 0 ∧
        (∀ j, j < x → ∀ sj, w.hvf_state.slots[j]? = some sj → sj.size ≠ 0) ∧
        (hvf_set_phys_mem hv w sec true).world.hvf_state.slots =
          w.hvf_state.slots.set x
            { old with size := sec.size, mem := sec.host,
                       start := sec.offset_within_address_space } ∧
        ((∀ t, hv t = HV_SUCCESS) → ∃ w', hvf_set_phys_mem hv w sec true = .done w')) ∧
    ((∀ slot ∈ w.hvf_state.slots, slot.size ≠ 0) →
      hvf_set_phys_mem hv w sec true = .aborted w) := by
  have htake : w.hvf_state.slots.take 32 = w.hvf_state.slots :=
    List.take_of_length_le (by omega)
  have hfind : hvf_find_overlap_slot w.hvf_state sec.offset_within_address_space
      (u64 (sec.offset_within_address_space + sec.size)) = none := by
    apply find_overlap_none_of_disjoint
    rw [hnum, htake]
    exact hdisj
  have hfree := find_free_slot_spec w.hvf_state.slots 0
  have hstep : hvf_set_phys_mem hv w sec true =
      match find_free_slot w.hvf_state.slots 0 with
      | none => .aborted w
      | some x =>
        match __hvf_set_memory hv (update_slot w x (fun s =>
            { s with size := sec.size, mem := sec.host,
                     start := sec.offset_within_address_space })) x with
        | .aborted wa => .aborted wa
        | .done (w3, ret) => if ret ≠ 0 then .aborted w3 else .done w3 := by
    unfold hvf_set_phys_mem
    simp [hram, hfind, hnum, htake]
  rw [hstep]
  revert hfree
  cases hres : find_free_slot w.hvf_state.slots 0 with
  | none =>
    intro hall
    refine ⟨?_, fun _ => rfl⟩
    rintro ⟨slot, hslot, hz⟩
    exact absurd hz (hall slot hslot)
  | some x =>
    rintro ⟨k, old, hx, hk, hz, hmin⟩
    have hxk : x = k := by omega
    subst hxk
    refine ⟨fun _ => ⟨x, old, hk, hz, hmin, ?_, ?_⟩, fun hall => ?_⟩
    · obtain ⟨w', hst, hcase, _⟩ := set_memory_slots hv (update_slot w x (fun s =>
        { s with size := sec.size, mem := sec.host,
                 start := sec.offset_within_address_space })) x
      rcases hcase with hc | hc
      · simp only [hc]
        simp [Run.world, hst, update_slot, hk]
      · simp only [hc]
        simp [Run.world, hst, update_slot, hk]
    · intro hok
      obtain ⟨w', _, _, hdone⟩ := set_memory_slots hv (update_slot w x (fun s =>
        { s with size := sec.size, mem := sec.host,
                 start := sec.offset_within_address_space })) x
      refine ⟨w', ?_⟩
      simp only [hdone hok]
      simp
    · exact absurd hz (hall old (List.getElem?_mem hk))

/-- C20 on the all-free table, where the region lands in slot 0, and on a table with
32 active slots, where the add aborts. -/
theorem C20_add_takes_first_free_slot_witness :
    (∃ x old, free_world.hvf_state.slots[x]? = some old ∧ old.size = 0 ∧
      (∀ j, j < x → ∀ sj, free_world.hvf_state.slots[j]? = some sj → sj.size ≠ 0) ∧
      (hvf_set_phys_mem hv_ok free_world (ram_section 0x100000 0x1000 0x7f0000100000)
          true).world.hvf_state.slots =
        free_world.hvf_state.slots.set x
          { old with size := (ram_section 0x100000 0x1000 0x7f0000100000).size,
                     mem := (ram_section 0x100000 0x1000 0x7f0000100000).host,
                     start :=
                       (ram_section 0x100000 0x1000 0x7f0000100000).offset_within_address_space } ∧
      ((∀ t, hv_ok t = HV_SUCCESS) →
        ∃ w', hvf_set_phys_mem hv_ok free_world
          (ram_section 0x100000 0x1000 0x7f0000100000) true = .done w')) ∧
    hvf_set_phys_mem hv_ok full_world (ram_section 0x100000 0x1000 0x7f0000100000) true =
      .aborted full_world :=
  ⟨(C20_add_takes_first_free_slot hv_ok free_world
      (ram_section 0x100000 0x1000 0x7f0000100000) rfl (by decide) (by decide) (by decide)).1
      (by decide),
   (C20_add_takes_first_free_slot hv_ok full_world
      (ram_section 0x100000 0x1000 0x7f0000100000) rfl (by decide) (by decide) (by decide)).2
      (by decide)⟩

/-! ## vCPU: register synchronisation and the exit dispatcher -/

/-- What `after_run` does when `hv_vcpu_run` succeeded: the exit record is read from
the hardware, `RFLAGS(cpu)` and `env->eflags` take the guest RFLAGS, the APIC
task priority takes the hardware TPR, and the exit is dispatched. -/
theorem after_run_success (env : VcpuEnv) (mem : HVFState) (s : VcpuState) :
    hvf_vcpu_exec.after_run env mem s HV_SUCCESS =
      hvf_vcpu_exec.dispatch env mem
        (update_apic_tpr
          { s with emu := { s.emu with rflags := rreg s HV_X86_RFLAGS },
                   env_eflags := rreg s HV_X86_RFLAGS })
        { exit_reason := rvmcs s .VMCS_EXIT_REASON,
          exit_qual := rvmcs s .VMCS_EXIT_QUALIFICATION,
          ins_len := u32 (rvmcs s .VMCS_EXIT_INSTRUCTION_LENGTH),
          idtvec_info := rvmcs s .VMCS_IDT_VECTORING_INFO,
          rip := rreg s HV_X86_RIP } := by
  simp [hvf_vcpu_exec.after_run, assert_hvf_ok]

/-- The HLT handler in closed form. -/
theorem dispatch_hlt (env : VcpuEnv) (mem : HVFState) (s : VcpuState) (x : ExitRecord)
    (hx : x.exit_reason = EXIT_REASON_HLT) :
    hvf_vcpu_exec.dispatch env mem s x =
      .done
        (if ¬ ((macvm_set_rip s (x.rip + x.ins_len)).interrupt_request &&& CPU_INTERRUPT_HARD ≠ 0 ∧
              EFLAGS (macvm_set_rip s (x.rip + x.ins_len)) &&& IF_MASK ≠ 0) ∧
            ¬ ((macvm_set_rip s (x.rip + x.ins_len)).interrupt_request &&& CPU_INTERRUPT_NMI ≠ 0) ∧
            ¬ (x.idtvec_info &&& VMCS_IDT_VEC_VALID ≠ 0) then
          { macvm_set_rip s (x.rip + x.ins_len) with halted := 1 }
        else macvm_set_rip s (x.rip + x.ins_len), EXCP_INTERRUPT) := by
  simp only [hvf_vcpu_exec.dispatch, hx, if_true]
  split_ifs <;> rfl

/-- C11: for every HLT exit with guest RIP r and reported instruction length L, the
dispatcher sets the guest RIP to r + L (as a 64-bit value), the outcome of the
iteration is EXCP_INTERRUPT, which is not EXCP_HLT, and `cpu->halted` becomes
1 when not (a hard interrupt is requested and EFLAGS.IF is set), no NMI is
requested and the IDT-vectoring valid bit is clear, and keeps its value
otherwise. -/
theorem C11_hlt_exit (env : VcpuEnv) (mem : HVFState) (s : VcpuState)
    (hreason : rvmcs s .VMCS_EXIT_REASON = EXIT_REASON_HLT) :
    ∃ s', hvf_vcpu_exec.after_run env mem s HV_SUCCESS = .done (s', EXCP_INTERRUPT) ∧
      EXCP_INTERRUPT ≠ EXCP_HLT ∧
      rreg s' HV_X86_RIP =
        u64 (rreg s HV_X86_RIP + u32 (rvmcs s .VMCS_EXIT_INSTRUCTION_LENGTH)) ∧
      (hlt_halts s → s'.halted = 1) ∧
      (¬ hlt_halts s → s'.halted = s.halted) := by
  rw [after_run_success, dispatch_hlt _ _ _ _ hreason]
  refine ⟨_, rfl, by decide, ?_, ?_, ?_⟩
  · split_ifs <;> simp [rreg, macvm_set_rip, wreg, update_apic_tpr, cpu_set_apic_tpr]
  · intro hc
    unfold hlt_halts at hc
    simp only [update_apic_tpr, cpu_set_apic_tpr, EFLAGS, rreg, rvmcs, macvm_set_rip, wreg] at hc ⊢
    rw [if_pos]
    simpa using hc
  · intro hc
    unfold hlt_halts at hc
    simp only [update_apic_tpr, cpu_set_apic_tpr, EFLAGS, rreg, rvmcs, macvm_set_rip, wreg] at hc ⊢
    rw [if_neg]
    simpa using hc

/-- The size of a port-I/O access fits 32 bits. -/
theorem inout_size_u32 (qual : Nat) : u32 ((qual &&& 7) + 1) = inout_size qual := by
  have h : qual &&& 7 ≤ 7 := Nat.and_le_right
  unfold u32 inout_size
  exact Nat.mod_eq_of_lt (by omega)

/-- The port handed to `hvf_handle_io` is bits 31..16 of the qualification. -/
theorem inout_port_u16 (qual : Nat) : u32 (qual >>> 16) % 2 ^ 16 = inout_port qual := by
  unfold u32 inout_port
  exact Nat.mod_mod_of_dvd _ (by decide)

/-- The non-string IN path of the port-I/O handler, for the sizes 1, 2 and 4. -/
theorem dispatch_in (env : VcpuEnv) (mem : HVFState) (s : VcpuState) (x : ExitRecord)
    (hx : x.exit_reason = EXIT_REASON_INOUT)
    (hstr : x.exit_qual &&& 16 = 0) (hin : x.exit_qual &&& 8 ≠ 0)
    (hsize : inout_size x.exit_qual = 1 ∨ inout_size x.exit_qual = 2 ∨
      inout_size x.exit_qual = 4) :
    hvf_vcpu_exec.dispatch env mem s x =
      .done (store_regs (add_rip
        (set_rrx
          (emit (load_regs s)
            (.address_space_rw (inout_port x.exit_qual) (inout_size x.exit_qual) 0
              (env.io_read (inout_port x.exit_qual) (inout_size x.exit_qual) %
                2 ^ (8 * inout_size x.exit_qual))))
          0
          (if inout_size x.exit_qual = 1 then
              s.hw.reg HV_X86_RAX - s.hw.reg HV_X86_RAX % 2 ^ 8 +
                env.io_read (inout_port x.exit_qual) (inout_size x.exit_qual) %
                  2 ^ (8 * inout_size x.exit_qual) % 2 ^ 8
            else if inout_size x.exit_qual = 2 then
              s.hw.reg HV_X86_RAX - s.hw.reg HV_X86_RAX % 2 ^ 16 +
                env.io_read (inout_port x.exit_qual) (inout_size x.exit_qual) %
                  2 ^ (8 * inout_size x.exit_qual) % 2 ^ 16
            else
              u32 (env.io_read (inout_port x.exit_qual) (inout_size x.exit_qual) %
                  2 ^ (8 * inout_size x.exit_qual))))
        x.ins_len), 0) := by
  have hr : hv_gpr 0 = HV_X86_RAX := rfl
  simp only [hvf_vcpu_exec.dispatch, hx, EXIT_REASON_INOUT, EXIT_REASON_HLT, EXIT_REASON_MWAIT,
    EXIT_REASON_EPT_FAULT, hstr, inout_size_u32, hvf_handle_io, address_space_rw, inout_port_u16]
  rcases hsize with h | h | h <;> simp [h, hin, load_regs, emit, hr]

/-- After `store_regs` the native RAX holds the register view's RAX. -/
theorem store_regs_rax (t : VcpuState) : rreg (store_regs t) HV_X86_RAX = u64 (t.emu.regs 0) := by
  have hg : emu_gpr 2 = 0 := rfl
  simp [rreg, store_regs, HV_X86_RAX, HV_X86_RIP, HV_X86_RFLAGS, hg]

/-- After `store_regs` the native RIP holds the register view's RIP. -/
theorem store_regs_rip (t : VcpuState) : rreg (store_regs t) HV_X86_RIP = u64 t.emu.rip := by
  simp [rreg, store_regs]

/-- C12: for every port-I/O exit whose qualification has the string bit (bit 4) clear
and the direction bit (bit 3) set, with size = (qual & 7) + 1 in 1, 2, 4 and
port = bits 31..16 of the qualification: the handler returns with outcome 0,
makes exactly one I/O-space read of `size` bytes at the port between
`load_regs` and `store_regs` and calls neither `decode_instruction` nor
`exec_instruction`; the guest RIP advances by the reported instruction
length; for size 1 the low byte of RAX is the byte read and the other 56 bits
are unchanged, for size 2 the low 16 bits are the value read and the other 48
bits are unchanged, for size 4 RAX is the 32-bit value read, zero-extended. -/
theorem C12_port_in (env : VcpuEnv) (mem : HVFState) (s : VcpuState)
    (hreason : rvmcs s .VMCS_EXIT_REASON = EXIT_REASON_INOUT)
    (hstr : rvmcs s .VMCS_EXIT_QUALIFICATION &&& 16 = 0)
    (hin : rvmcs s .VMCS_EXIT_QUALIFICATION &&& 8 ≠ 0)
    (hsize : inout_size (rvmcs s .VMCS_EXIT_QUALIFICATION) = 1 ∨
      inout_size (rvmcs s .VMCS_EXIT_QUALIFICATION) = 2 ∨
      inout_size (rvmcs s .VMCS_EXIT_QUALIFICATION) = 4)
    (hrax : rreg s HV_X86_RAX < 2 ^ 64) :
    ∃ s' v,
      v = env.io_read (inout_port (rvmcs s .VMCS_EXIT_QUALIFICATION))
            (inout_size (rvmcs s .VMCS_EXIT_QUALIFICATION)) %
          2 ^ (8 * inout_size (rvmcs s .VMCS_EXIT_QUALIFICATION)) ∧
      hvf_vcpu_exec.after_run env mem s HV_SUCCESS = .done (s', 0) ∧
      s'.log = s.log ++
        [.load_regs,
         .address_space_rw (inout_port (rvmcs s .VMCS_EXIT_QUALIFICATION))
           (inout_size (rvmcs s .VMCS_EXIT_QUALIFICATION)) 0 v,
         .store_regs] ∧
      rreg s' HV_X86_RIP =
        u64 (rreg s HV_X86_RIP + u32 (rvmcs s .VMCS_EXIT_INSTRUCTION_LENGTH)) ∧
      (inout_size (rvmcs s .VMCS_EXIT_QUALIFICATION) = 1 →
        rreg s' HV_X86_RAX % 2 ^ 8 = v ∧ rreg s' HV_X86_RAX / 2 ^ 8 = rreg s HV_X86_RAX / 2 ^ 8) ∧
      (inout_size (rvmcs s .VMCS_EXIT_QUALIFICATION) = 2 →
        rreg s' HV_X86_RAX % 2 ^ 16 = v ∧
        rreg s' HV_X86_RAX / 2 ^ 16 = rreg s HV_X86_RAX / 2 ^ 16) ∧
      (inout_size (rvmcs s .VMCS_EXIT_QUALIFICATION) = 4 → rreg s' HV_X86_RAX = v) := by
  rw [after_run_success, dispatch_in env mem _ _ hreason hstr hin hsize]
  have hrax' : s.hw.reg HV_X86_RAX < 2 ^ 64 := hrax
  refine ⟨_, _, rfl, rfl, ?_, ?_, ?_, ?_, ?_⟩
  · simp [store_regs, add_rip, set_rrx, emit, load_regs, update_apic_tpr, cpu_set_apic_tpr]
  · rw [store_regs_rip]
    simp [add_rip, set_rrx, emit, load_regs, update_apic_tpr, cpu_set_apic_tpr, rreg, u64]
  · intro h1
    rw [store_regs_rax]
    simp only [add_rip, set_rrx, emit, load_regs, update_apic_tpr, cpu_set_apic_tpr, rreg, h1,
      if_true, u64, Function.update_same]
    generalize env.io_read _ _ = io
    generalize s.hw.reg HV_X86_RAX = rax at hrax' ⊢
    norm_num
    omega
  · intro h2
    rw [store_regs_rax]
    simp only [add_rip, set_rrx, emit, load_regs, update_apic_tpr, cpu_set_apic_tpr, rreg, h2,
      if_true, u64, Function.update_same]
    generalize env.io_read _ _ = io
    generalize s.hw.reg HV_X86_RAX = rax at hrax' ⊢
    norm_num
    omega
  · intro h4
    rw [store_regs_rax]
    simp only [add_rip, set_rrx, emit, load_regs, update_apic_tpr, cpu_set_apic_tpr, rreg, h4,
      if_true, u64, u32, Function.update_same]
    generalize env.io_read _ _ = io
    norm_num
    omega

/-- The calls made by the loop body before `hv_vcpu_run`: `hvf_put_registers` when
the dirty flag is nonzero, then `hvf_inject_interrupts`. -/
theorem before_run_log (env : VcpuEnv) (s : VcpuState) :
    (hvf_vcpu_exec.before_run env s).log =
      s.log ++ (if s.hvf_vcpu_dirty ≠ 0 then [Event.hvf_put_registers] else []) ++
        [Event.hvf_inject_interrupts] := by
  unfold hvf_vcpu_exec.before_run vmx_update_tpr
  by_cases hd : s.hvf_vcpu_dirty = 0 <;> simp [hd, wreg, wvmcs] <;> split_ifs <;> rfl

/-- The dirty flag is clear at the end of the part of the loop body that precedes
`hv_vcpu_run`. -/
theorem before_run_dirty (env : VcpuEnv) (s : VcpuState) :
    (hvf_vcpu_exec.before_run env s).hvf_vcpu_dirty = 0 := by
  unfold hvf_vcpu_exec.before_run vmx_update_tpr
  by_cases hd : s.hvf_vcpu_dirty = 0 <;> simp [hd, wreg, wvmcs] <;> split_ifs <;> rfl

/-- One iteration of the loop on the next exit `r`: after an early `EXCP_HLT` return
ruled out, `hv_vcpu_run` is entered in the state `before_run` produced, and the
loop goes on exactly when the handler left `ret` at 0. -/
theorem loop_cons (env : VcpuEnv) (mem : HVFState) (r : RunResult) (rest : List RunResult)
    (s : VcpuState) (hrun : env.cpu_is_bsp = true ∨ (hvf_vcpu_exec.before_run env s).halted = 0) :
    hvf_vcpu_exec.loop env mem (r :: rest) s =
      match hvf_vcpu_exec.after_run env mem
          (hvf_vcpu_exec.run (hvf_vcpu_exec.before_run env s) r) r.ret with
      | .done (s2, ret) =>
        if ret = 0 then hvf_vcpu_exec.loop env mem rest s2 else .done (s2, ret)
      | .aborted sa => .aborted sa
      | .blocked sb => .blocked sb := by
  rw [hvf_vcpu_exec.loop]
  rcases hrun with h | h <;> simp [h]

/-- C13: at the top of every iteration of the `hvf_vcpu_exec` loop, the calls made
before `hv_vcpu_run` are `hvf_put_registers` (if and only if `hvf_vcpu_dirty` is
nonzero) followed by `hvf_inject_interrupts`; the dirty flag is 0 when that
part ends, and it is 0 in the state in which `hv_vcpu_run` is invoked, the
call of `hv_vcpu_run` coming after them in the log. -/
theorem C13_sync_before_run (env : VcpuEnv) (s : VcpuState) (r : RunResult) :
    (hvf_vcpu_exec.before_run env s).log =
      s.log ++ (if s.hvf_vcpu_dirty ≠ 0 then [Event.hvf_put_registers] else []) ++
        [Event.hvf_inject_interrupts] ∧
    (Event.hvf_put_registers ∈ (hvf_vcpu_exec.before_run env s).log.drop s.log.length ↔
      s.hvf_vcpu_dirty ≠ 0) ∧
    (hvf_vcpu_exec.before_run env s).hvf_vcpu_dirty = 0 ∧
    (hvf_vcpu_exec.run (hvf_vcpu_exec.before_run env s) r).hvf_vcpu_dirty = 0 ∧
    (hvf_vcpu_exec.run (hvf_vcpu_exec.before_run env s) r).log =
      (hvf_vcpu_exec.before_run env s).log ++ [Event.hv_vcpu_run] := by
  refine ⟨before_run_log env s, ?_, before_run_dirty env s, ?_, rfl⟩
  · rw [before_run_log, List.append_assoc, List.drop_left]
    by_cases hd : s.hvf_vcpu_dirty = 0 <;> simp [hd]
  · exact before_run_dirty env s

/-- C14 fails as stated: called with the dirty flag at 1, neither
`hvf_cpu_synchronize_state` nor `__hvf_cpu_synchronize_state` calls
`hvf_get_registers`. -/
theorem C14_counterexample :
    (hvf_cpu_synchronize_state sample_env
      (sample_vcpu 1 0 (sample_hw 0 0 0 0 0xfff0 0x2 0))).log.count Event.hvf_get_registers = 0 ∧
    (__hvf_cpu_synchronize_state sample_env
      (sample_vcpu 1 0 (sample_hw 0 0 0 0 0xfff0 0x2 0))).log.count Event.hvf_get_registers = 0 := by
  decide

/-- C14, amended: called with the dirty flag at 0, `hvf_cpu_synchronize_state` and
`__hvf_cpu_synchronize_state` call `hvf_get_registers` exactly once and leave
the flag at 1; called with the flag nonzero, neither calls `hvf_get_registers`
(`hvf_cpu_synchronize_state` changes nothing, `__hvf_cpu_synchronize_state`
sets the flag to 1). -/
theorem C14_synchronize_state (env : VcpuEnv) (s : VcpuState) :
    (s.hvf_vcpu_dirty = 0 →
      (__hvf_cpu_synchronize_state env s).log = s.log ++ [Event.hvf_get_registers] ∧
      (hvf_cpu_synchronize_state env s).log = s.log ++ [Event.hvf_get_registers] ∧
      (__hvf_cpu_synchronize_state env s).hvf_vcpu_dirty = 1 ∧
      (hvf_cpu_synchronize_state env s).hvf_vcpu_dirty = 1) ∧
    (s.hvf_vcpu_dirty ≠ 0 →
      (__hvf_cpu_synchronize_state env s).log = s.log ∧
      hvf_cpu_synchronize_state env s = s ∧
      (__hvf_cpu_synchronize_state env s).hvf_vcpu_dirty = 1) := by
  constructor
  · intro hd
    simp [hvf_cpu_synchronize_state, __hvf_cpu_synchronize_state, hd]
  · intro hd
    simp [hvf_cpu_synchronize_state, __hvf_cpu_synchronize_state, hd]

/-- C14 amended, at a clean and at a dirty state. -/
theorem C14_synchronize_state_witness :
    ((__hvf_cpu_synchronize_state sample_env
        (sample_vcpu 0 0 (sample_hw 0 0 0 0 0xfff0 0x2 0))).log = [] ++ [Event.hvf_get_registers] ∧
      (hvf_cpu_synchronize_state sample_env
        (sample_vcpu 0 0 (sample_hw 0 0 0 0 0xfff0 0x2 0))).log = [] ++ [Event.hvf_get_registers] ∧
      (__hvf_cpu_synchronize_state sample_env
        (sample_vcpu 0 0 (sample_hw 0 0 0 0 0xfff0 0x2 0))).hvf_vcpu_dirty = 1 ∧
      (hvf_cpu_synchronize_state sample_env
        (sample_vcpu 0 0 (sample_hw 0 0 0 0 0xfff0 0x2 0))).hvf_vcpu_dirty = 1) ∧
    (__hvf_cpu_synchronize_state sample_env
        (sample_vcpu 1 0 (sample_hw 0 0 0 0 0xfff0 0x2 0))).log = [] :=
  ⟨(C14_synchronize_state sample_env (sample_vcpu 0 0 (sample_hw 0 0 0 0 0xfff0 0x2 0))).1 rfl,
   ((C14_synchronize_state sample_env (sample_vcpu 1 0 (sample_hw 0 0 0 0 0xfff0 0x2 0))).2
      (by decide)).1⟩

/-- Every exit reason is one of the eighteen the `switch` names, or none of them. -/
theorem exit_reason_cases (e : Nat) :
    e = EXIT_REASON_HLT ∨ e = EXIT_REASON_MWAIT ∨ e = EXIT_REASON_EPT_FAULT ∨
    e = EXIT_REASON_INOUT ∨ e = EXIT_REASON_CPUID ∨ e = EXIT_REASON_XSETBV ∨
    e = EXIT_REASON_INTR_WINDOW ∨ e = EXIT_REASON_NMI_WINDOW ∨ e = EXIT_REASON_EXT_INTR ∨
    e = EXIT_REASON_RDMSR ∨ e = EXIT_REASON_WRMSR ∨ e = EXIT_REASON_CR_ACCESS ∨
    e = EXIT_REASON_APIC_ACCESS ∨ e = EXIT_REASON_TPR ∨ e = EXIT_REASON_TASK_SWITCH ∨
    e = EXIT_REASON_TRIPLE_FAULT ∨ e = EXIT_REASON_RDPMC ∨ e = VMX_REASON_VMCALL ∨
    (e ≠ EXIT_REASON_HLT ∧ e ≠ EXIT_REASON_MWAIT ∧ e ≠ EXIT_REASON_EPT_FAULT ∧
      e ≠ EXIT_REASON_INOUT ∧ e ≠ EXIT_REASON_CPUID ∧ e ≠ EXIT_REASON_XSETBV ∧
      e ≠ EXIT_REASON_INTR_WINDOW ∧ e ≠ EXIT_REASON_NMI_WINDOW ∧ e ≠ EXIT_REASON_EXT_INTR ∧
      e ≠ EXIT_REASON_RDMSR ∧ e ≠ EXIT_REASON_WRMSR ∧ e ≠ EXIT_REASON_CR_ACCESS ∧
      e ≠ EXIT_REASON_APIC_ACCESS ∧ e ≠ EXIT_REASON_TPR ∧ e ≠ EXIT_REASON_TASK_SWITCH ∧
      e ≠ EXIT_REASON_TRIPLE_FAULT ∧ e ≠ EXIT_REASON_RDPMC ∧ e ≠ VMX_REASON_VMCALL) := by
  simp only [EXIT_REASON_HLT, EXIT_REASON_MWAIT, EXIT_REASON_EPT_FAULT, EXIT_REASON_INOUT,
    EXIT_REASON_CPUID, EXIT_REASON_XSETBV, EXIT_REASON_INTR_WINDOW, EXIT_REASON_NMI_WINDOW,
    EXIT_REASON_EXT_INTR, EXIT_REASON_RDMSR, EXIT_REASON_WRMSR, EXIT_REASON_CR_ACCESS,
    EXIT_REASON_APIC_ACCESS, EXIT_REASON_TPR, EXIT_REASON_TASK_SWITCH, EXIT_REASON_TRIPLE_FAULT,
    EXIT_REASON_RDPMC, VMX_REASON_VMCALL]
  omega

/-- The value of `ret` after the `switch` is 0, 1 or `EXCP_INTERRUPT`. -/
theorem dispatch_ret (env : VcpuEnv) (mem : HVFState) (s : VcpuState) (x : ExitRecord)
    (s' : VcpuState) (ret : Nat)
    (h : hvf_vcpu_exec.dispatch env mem s x = .done (s', ret)) :
    ret = 0 ∨ ret = 1 ∨ ret = EXCP_INTERRUPT := by
  rcases exit_reason_cases x.exit_reason with
    hr | hr | hr | hr | hr | hr | hr | hr | hr | hr | hr | hr | hr | hr | hr | hr | hr | hr | hr
  case inr.inr.inr.inr.inr.inr.inr.inr.inr.inr.inr.inr.inr.inr.inr.inr.inr.inr =>
    simp only [hvf_vcpu_exec.dispatch, hr, if_false, false_or, Exec.done.injEq,
      Prod.mk.injEq] at h
    exact Or.inl h.2.symm
  all_goals
    simp only [hvf_vcpu_exec.dispatch, hr, EXIT_REASON_HLT, EXIT_REASON_MWAIT,
      EXIT_REASON_EPT_FAULT, EXIT_REASON_INOUT, EXIT_REASON_CPUID, EXIT_REASON_XSETBV,
      EXIT_REASON_INTR_WINDOW, EXIT_REASON_NMI_WINDOW, EXIT_REASON_EXT_INTR, EXIT_REASON_RDMSR,
      EXIT_REASON_WRMSR, EXIT_REASON_CR_ACCESS, EXIT_REASON_APIC_ACCESS, EXIT_REASON_TPR,
      EXIT_REASON_TASK_SWITCH, EXIT_REASON_TRIPLE_FAULT, EXIT_REASON_RDPMC, VMX_REASON_VMCALL,
      if_true, if_false, Nat.reduceEqDiff, or_true, true_or, or_false, false_or] at h
  all_goals try split_ifs at h
  all_goals try split at h
  all_goals
    first
    | (simp only [Exec.done.injEq, Prod.mk.injEq] at h
       obtain ⟨-, rfl⟩ := h
       simp)
    | (rename_i heq
       simp only [Exec.done.injEq, Prod.mk.injEq] at heq h
       obtain ⟨-, h1⟩ := heq
       obtain ⟨-, h2⟩ := h
       subst h2
       subst h1
       simp)
    | exact absurd h (by simp)

/-- The value of `ret` after a whole iteration is 0, 1 or `EXCP_INTERRUPT`. -/
theorem after_run_ret (env : VcpuEnv) (mem : HVFState) (s : VcpuState) (hvret : Nat)
    (s' : VcpuState) (ret : Nat)
    (h : hvf_vcpu_exec.after_run env mem s hvret = .done (s', ret)) :
    ret = 0 ∨ ret = 1 ∨ ret = EXCP_INTERRUPT := by
  unfold hvf_vcpu_exec.after_run at h
  split at h
  · exact absurd h (by simp)
  · exact dispatch_ret env mem _ _ s' ret h

/-- Every value the loop returns is `EXCP_HLT`, `EXCP_INTERRUPT` or 1. -/
theorem loop_ret (env : VcpuEnv) (mem : HVFState) (runs : List RunResult) (s s' : VcpuState)
    (v : Nat) (h : hvf_vcpu_exec.loop env mem runs s = .done (s', v)) :
    v = EXCP_HLT ∨ v = EXCP_INTERRUPT ∨ v = 1 := by
  induction runs generalizing s with
  | nil =>
    rw [hvf_vcpu_exec.loop] at h
    split_ifs at h
    · simp only [Exec.done.injEq, Prod.mk.injEq] at h
      exact Or.inl h.2.symm
  | cons r rest ih =>
    rw [hvf_vcpu_exec.loop] at h
    split_ifs at h
    · simp only [Exec.done.injEq, Prod.mk.injEq] at h
      exact Or.inl h.2.symm
    · split at h
      · rename_i s2 ret heq
        have hret := after_run_ret env mem _ _ s2 ret heq
        split_ifs at h with h0
        · exact ih s2 h
        · simp only [Exec.done.injEq, Prod.mk.injEq] at h
          obtain ⟨-, rfl⟩ := h
          rcases hret with h1 | h1 | h1
          · exact absurd h1 h0
          · exact Or.inr (Or.inr h1)
          · exact Or.inr (Or.inl h1)
      · exact absurd h (by simp)
      · exact absurd h (by simp)

/-- C16, amended: for every sequence of VM exits, every value returned by
`hvf_vcpu_exec` is EXCP_HLT, EXCP_INTERRUPT or 1 (the value the TPR-access
handler produces); and in an iteration that reaches `hv_vcpu_run`, the handler
leaves `ret` at 0, 1 or EXCP_INTERRUPT, and the loop runs another iteration
exactly when it left `ret` at 0, returning `ret` otherwise. -/
theorem C16_returned_values (env : VcpuEnv) (mem : HVFState) :
    (∀ (runs : List RunResult) (s s' : VcpuState) (v : Nat),
      hvf_vcpu_exec env mem runs s = .done (s', v) →
        v = EXCP_HLT ∨ v = EXCP_INTERRUPT ∨ v = 1) ∧
    (∀ (r : RunResult) (rest : List RunResult) (t s2 : VcpuState) (ret : Nat),
      (env.cpu_is_bsp = true ∨ (hvf_vcpu_exec.before_run env t).halted = 0) →
      hvf_vcpu_exec.after_run env mem
          (hvf_vcpu_exec.run (hvf_vcpu_exec.before_run env t) r) r.ret = .done (s2, ret) →
        (ret = 0 ∨ ret = 1 ∨ ret = EXCP_INTERRUPT) ∧
        hvf_vcpu_exec.loop env mem (r :: rest) t =
          if ret = 0 then hvf_vcpu_exec.loop env mem rest s2 else .done (s2, ret)) := by
  constructor
  · intro runs s s' v h
    unfold hvf_vcpu_exec at h
    simp only [] at h
    split_ifs at h
    · simp only [Exec.done.injEq, Prod.mk.injEq] at h
      exact Or.inl h.2.symm
    · exact loop_ret env mem runs _ s' v h
  · intro r rest t s2 ret hrun hafter
    refine ⟨after_run_ret env mem _ _ s2 ret hafter, ?_⟩
    rw [loop_cons env mem r rest t hrun, hafter]

/-- C16 fails as stated: on a TPR-access exit `hvf_vcpu_exec` returns 1, which is
neither EXCP_HLT nor EXCP_INTERRUPT, and the loop stops although the handler
produced neither of them. -/
theorem C16_counterexample :
    ∃ s', hvf_vcpu_exec sample_env free_world.hvf_state
        [{ ret := HV_SUCCESS, hw := sample_hw EXIT_REASON_TPR 0 3 0 0xfff0 0x2 0 },
         { ret := HV_SUCCESS, hw := sample_hw EXIT_REASON_HLT 0 1 0 0xfff3 0x2 0 }]
        (sample_vcpu 1 0 (sample_hw 0 0 0 0 0xfff0 0x2 0)) = .done (s', 1) ∧
      s'.log.count Event.hv_vcpu_run = 1 ∧
      1 ≠ EXCP_HLT ∧ 1 ≠ EXCP_INTERRUPT :=
  ⟨_, rfl, by decide, by decide, by decide⟩

/-- C16 amended, on a HLT exit, which returns EXCP_INTERRUPT, and on a CPUID exit
followed by a HLT exit, where the loop goes on after the first. -/
theorem C16_returned_values_witness :
    (EXCP_INTERRUPT = EXCP_HLT ∨ EXCP_INTERRUPT = EXCP_INTERRUPT ∨ EXCP_INTERRUPT = 1) ∧
    ∃ s2,
      hvf_vcpu_exec.after_run sample_env free_world.hvf_state
          (hvf_vcpu_exec.run
            (hvf_vcpu_exec.before_run sample_env
              (sample_vcpu 1 0 (sample_hw 0 0 0 0 0xfff0 0x2 0)))
            { ret := HV_SUCCESS, hw := sample_hw EXIT_REASON_CPUID 0 2 0 0xfff0 0x2 0 })
          HV_SUCCESS = .done (s2, 0) ∧
      hvf_vcpu_exec.loop sample_env free_world.hvf_state
          [{ ret := HV_SUCCESS, hw := sample_hw EXIT_REASON_CPUID 0 2 0 0xfff0 0x2 0 },
           { ret := HV_SUCCESS, hw := sample_hw EXIT_REASON_HLT 0 1 0 0xfff2 0x2 0 }]
          (sample_vcpu 1 0 (sample_hw 0 0 0 0 0xfff0 0x2 0)) =
        if 0 = 0 then
          hvf_vcpu_exec.loop sample_env free_world.hvf_state
            [{ ret := HV_SUCCESS, hw := sample_hw EXIT_REASON_HLT 0 1 0 0xfff2 0x2 0 }] s2
        else .done (s2, 0) :=
  ⟨(C16_returned_values sample_env free_world.hvf_state).1
      [{ ret := HV_SUCCESS, hw := sample_hw EXIT_REASON_HLT 0 1 0 0xfff0 0x2 0 }]
      (sample_vcpu 1 0 (sample_hw 0 0 0 0 0xfff0 0x2 0)) _ EXCP_INTERRUPT rfl,
   _, rfl,
   ((C16_returned_values sample_env free_world.hvf_state).2
      { ret := HV_SUCCESS, hw := sample_hw EXIT_REASON_CPUID 0 2 0 0xfff0 0x2 0 }
      [{ ret := HV_SUCCESS, hw := sample_hw EXIT_REASON_HLT 0 1 0 0xfff2 0x2 0 }]
      (sample_vcpu 1 0 (sample_hw 0 0 0 0 0xfff0 0x2 0)) _ 0 (Or.inl rfl) rfl).2⟩

/-- C17 (a fault on the first byte of a slot is emulated): with [0x1000, 0x2000)
mapped in slot 0, an EPT-violation exit at guest-physical address 0x1000 (a
data write with valid linear address and translation) makes the dispatcher
call `decode_instruction` and `exec_instruction`: `hvf_find_overlap_slot(gpa,
gpa)` needs `gpa > slot->start` and so misses the slot at its first byte. -/
theorem C17_first_byte_of_slot_is_emulated :
    ∃ (w0 w : MemWorld) (s' : VcpuState),
      hvf_accel_init HV_SUCCESS = some w0 ∧
      hvf_set_phys_mem hv_ok w0 (ram_section 0x1000 0x1000 0x7f0000000000) true = .done w ∧
      (∃ slot ∈ w.hvf_state.slots,
        slot.size ≠ 0 ∧ slot.start ≤ 0x1000 ∧ 0x1000 < slot.start + slot.size) ∧
      hvf_find_overlap_slot w.hvf_state 0x1000 0x1000 = none ∧
      hvf_vcpu_exec.after_run sample_env w.hvf_state
        (sample_vcpu 0 0 (sample_hw EXIT_REASON_EPT_FAULT 0x182 3 0x1000 0xfff0 0x2 0))
        HV_SUCCESS = .done (s', 0) ∧
      s'.log = [Event.load_regs, Event.decode_instruction, Event.exec_instruction,
        Event.store_regs] :=
  ⟨_, _, _, rfl, rfl, by decide, by decide, rfl, rfl⟩

/-- The triple-fault handler in closed form. -/
theorem dispatch_triple_fault (env : VcpuEnv) (mem : HVFState) (s : VcpuState) (x : ExitRecord)
    (hx : x.exit_reason = EXIT_REASON_TRIPLE_FAULT) :
    hvf_vcpu_exec.dispatch env mem s x =
      .done (emit (emit s .qemu_system_reset_request) (.usleep (1000 * 100)),
        EXCP_INTERRUPT) := by
  simp [hvf_vcpu_exec.dispatch, hx, EXIT_REASON_TRIPLE_FAULT, EXIT_REASON_HLT,
    EXIT_REASON_MWAIT, EXIT_REASON_EPT_FAULT, EXIT_REASON_INOUT, EXIT_REASON_CPUID,
    EXIT_REASON_XSETBV, EXIT_REASON_INTR_WINDOW, EXIT_REASON_NMI_WINDOW, EXIT_REASON_EXT_INTR,
    EXIT_REASON_RDMSR, EXIT_REASON_WRMSR, EXIT_REASON_CR_ACCESS, EXIT_REASON_APIC_ACCESS,
    EXIT_REASON_TPR, EXIT_REASON_TASK_SWITCH]

/-- C18: for every triple-fault exit that `hv_vcpu_run` delivers with success, in an
iteration that reaches `hv_vcpu_run`: the loop returns EXCP_INTERRUPT, whatever
exits would follow; after `hv_vcpu_run` the only calls are one
`qemu_system_reset_request` and the `usleep`; the native registers and the
VMCS are left as the exit delivered them; and `hv_vcpu_run` has been called
once. -/
theorem C18_triple_fault (env : VcpuEnv) (mem : HVFState) (r : RunResult)
    (rest : List RunResult) (t : VcpuState)
    (hret : r.ret = HV_SUCCESS)
    (hreason : r.hw.vmcs .VMCS_EXIT_REASON = EXIT_REASON_TRIPLE_FAULT)
    (hrun : env.cpu_is_bsp = true ∨ (hvf_vcpu_exec.before_run env t).halted = 0) :
    ∃ s', hvf_vcpu_exec.loop env mem (r :: rest) t = .done (s', EXCP_INTERRUPT) ∧
      s'.log = (hvf_vcpu_exec.before_run env t).log ++
        [Event.hv_vcpu_run, Event.qemu_system_reset_request, Event.usleep 100000] ∧
      (s'.log.drop (hvf_vcpu_exec.before_run env t).log.length).count
        Event.qemu_system_reset_request = 1 ∧
      (s'.log.drop (hvf_vcpu_exec.before_run env t).log.length).count Event.hv_vcpu_run = 1 ∧
      s'.hw.reg = r.hw.reg ∧ s'.hw.vmcs = r.hw.vmcs := by
  have hx : rvmcs (hvf_vcpu_exec.run (hvf_vcpu_exec.before_run env t) r) .VMCS_EXIT_REASON =
      EXIT_REASON_TRIPLE_FAULT := hreason
  rw [loop_cons env mem r rest t hrun, hret, after_run_success, dispatch_triple_fault _ _ _ _ hx]
  refine ⟨_, rfl, ?_, ?_, ?_, rfl, rfl⟩
  · simp [emit, update_apic_tpr, cpu_set_apic_tpr, hvf_vcpu_exec.run]
  · simp [emit, update_apic_tpr, cpu_set_apic_tpr, hvf_vcpu_exec.run]
  · simp [emit, update_apic_tpr, cpu_set_apic_tpr, hvf_vcpu_exec.run]

/-- C11 at a HLT exit of length 1 at RIP 0xfff0 with nothing pending: the vCPU is
halted and RIP is 0xfff1. -/
theorem C11_hlt_exit_witness :
    ∃ s', hvf_vcpu_exec.after_run sample_env free_world.hvf_state
        (sample_vcpu 0 0 (sample_hw EXIT_REASON_HLT 0 1 0 0xfff0 0x2 0)) HV_SUCCESS =
          .done (s', EXCP_INTERRUPT) ∧
      EXCP_INTERRUPT ≠ EXCP_HLT ∧
      rreg s' HV_X86_RIP =
        u64 (rreg (sample_vcpu 0 0 (sample_hw EXIT_REASON_HLT 0 1 0 0xfff0 0x2 0)) HV_X86_RIP +
          u32 (rvmcs (sample_vcpu 0 0 (sample_hw EXIT_REASON_HLT 0 1 0 0xfff0 0x2 0))
            .VMCS_EXIT_INSTRUCTION_LENGTH)) ∧
      (hlt_halts (sample_vcpu 0 0 (sample_hw EXIT_REASON_HLT 0 1 0 0xfff0 0x2 0)) →
        s'.halted = 1) ∧
      (¬ hlt_halts (sample_vcpu 0 0 (sample_hw EXIT_REASON_HLT 0 1 0 0xfff0 0x2 0)) →
        s'.halted = (sample_vcpu 0 0 (sample_hw EXIT_REASON_HLT 0 1 0 0xfff0 0x2 0)).halted) :=
  C11_hlt_exit sample_env free_world.hvf_state
    (sample_vcpu 0 0 (sample_hw EXIT_REASON_HLT 0 1 0 0xfff0 0x2 0)) rfl

/-- C12 at a one-byte IN from port 0x3f8 with RAX = 0x1122334455667788: the access is
logged once and RAX becomes 0x11223344556677cd. -/
theorem C12_port_in_witness :
    ∃ s' v,
      v = sample_env.io_read (inout_port 0x03f80008) (inout_size 0x03f80008) %
          2 ^ (8 * inout_size 0x03f80008) ∧
      hvf_vcpu_exec.after_run sample_env free_world.hvf_state
        (sample_vcpu 0 0 (sample_hw EXIT_REASON_INOUT 0x03f80008 1 0 0xfff0 0x2
          0x1122334455667788)) HV_SUCCESS = .done (s', 0) ∧
      s'.log = [] ++
        [Event.load_regs,
         Event.address_space_rw (inout_port 0x03f80008) (inout_size 0x03f80008) 0 v,
         Event.store_regs] ∧
      rreg s' HV_X86_RIP = u64 (0xfff0 + u32 1) ∧
      (inout_size 0x03f80008 = 1 →
        rreg s' HV_X86_RAX % 2 ^ 8 = v ∧
        rreg s' HV_X86_RAX / 2 ^ 8 = 0x1122334455667788 / 2 ^ 8) ∧
      (inout_size 0x03f80008 = 2 →
        rreg s' HV_X86_RAX % 2 ^ 16 = v ∧
        rreg s' HV_X86_RAX / 2 ^ 16 = 0x1122334455667788 / 2 ^ 16) ∧
      (inout_size 0x03f80008 = 4 → rreg s' HV_X86_RAX = v) :=
  C12_port_in sample_env free_world.hvf_state
    (sample_vcpu 0 0 (sample_hw EXIT_REASON_INOUT 0x03f80008 1 0 0xfff0 0x2 0x1122334455667788))
    rfl (by decide) (by decide) (Or.inl (by decide)) (by decide)

/-- C18 at a triple-fault exit followed by a HLT exit that is never reached. -/
theorem C18_triple_fault_witness :
    ∃ s', hvf_vcpu_exec.loop sample_env free_world.hvf_state
        [{ ret := HV_SUCCESS, hw := sample_hw EXIT_REASON_TRIPLE_FAULT 0 0 0 0xfff0 0x2 0 },
         { ret := HV_SUCCESS, hw := sample_hw EXIT_REASON_HLT 0 1 0 0xfff0 0x2 0 }]
        (sample_vcpu 1 0 (sample_hw 0 0 0 0 0xfff0 0x2 0)) = .done (s', EXCP_INTERRUPT) ∧
      s'.log =
        (hvf_vcpu_exec.before_run sample_env
          (sample_vcpu 1 0 (sample_hw 0 0 0 0 0xfff0 0x2 0))).log ++
        [Event.hv_vcpu_run, Event.qemu_system_reset_request, Event.usleep 100000] ∧
      (s'.log.drop (hvf_vcpu_exec.before_run sample_env
          (sample_vcpu 1 0 (sample_hw 0 0 0 0 0xfff0 0x2 0))).log.length).count
        Event.qemu_system_reset_request = 1 ∧
      (s'.log.drop (hvf_vcpu_exec.before_run sample_env
          (sample_vcpu 1 0 (sample_hw 0 0 0 0 0xfff0 0x2 0))).log.length).count
        Event.hv_vcpu_run = 1 ∧
      s'.hw.reg = (sample_hw EXIT_REASON_TRIPLE_FAULT 0 0 0 0xfff0 0x2 0).reg ∧
      s'.hw.vmcs = (sample_hw EXIT_REASON_TRIPLE_FAULT 0 0 0 0xfff0 0x2 0).vmcs :=
  C18_triple_fault sample_env free_world.hvf_state
    { ret := HV_SUCCESS, hw := sample_hw EXIT_REASON_TRIPLE_FAULT 0 0 0 0xfff0 0x2 0 }
    [{ ret := HV_SUCCESS, hw := sample_hw EXIT_REASON_HLT 0 1 0 0xfff0 0x2 0 }]
    (sample_vcpu 1 0 (sample_hw 0 0 0 0 0xfff0 0x2 0)) rfl rfl (Or.inl rfl)

/-! ## Hypervisor status checks -/

/-- Every call `__hvf_set_memory` issues is followed by `assert_hvf_ok`: when it
returns, it returns 0 and every call it issued succeeded; when it aborts, the
last call issued is the first that did not succeed. -/
theorem set_memory_calls (hv : List HvCall → Nat) (w : MemWorld) (i : Nat) :
    (∀ w' r, __hvf_set_memory hv w i = .done (w', r) →
      r = 0 ∧ ∃ calls, w'.trace = w.trace ++ calls ∧
        ∀ n, n < calls.length → hv (w.trace ++ calls.take (n + 1)) = HV_SUCCESS) ∧
    (∀ w', __hvf_set_memory hv w i = .aborted w' →
      ∃ calls c, w'.trace = w.trace ++ calls ++ [c] ∧ hv w'.trace ≠ HV_SUCCESS ∧
        ∀ n, n < calls.length → hv (w.trace ++ calls.take (n + 1)) = HV_SUCCESS) := by
  constructor
  · intro w' r h
    unfold __hvf_set_memory at h
    simp only [hv_call, assert_hvf_ok] at h
    split_ifs at h <;> (try simp only [] at h) <;> (try split_ifs at h) <;>
      (try simp only [] at h) <;>
      simp only [Run.done.injEq, Prod.mk.injEq, reduceCtorEq] at h <;>
      obtain ⟨rfl, rfl⟩ := h <;> refine ⟨rfl, ?_⟩
    all_goals
      first
      | (refine ⟨[], ?_, ?_⟩
         · simp
         · simp)
      | (refine ⟨[_], rfl, ?_⟩
         intro n hn
         have hn0 : n = 0 := by simpa using hn
         subst hn0
         show hv (w.trace ++ [_]) = HV_SUCCESS
         assumption)
      | (refine ⟨[_, _], List.append_assoc _ _ _, ?_⟩
         intro n hn
         have hn' : n = 0 ∨ n = 1 := by
           simp only [List.length_cons, List.length_nil] at hn
           omega
         rcases hn' with rfl | rfl
         · show hv (w.trace ++ [_]) = HV_SUCCESS
           assumption
         · show hv (w.trace ++ ([_] ++ [_])) = HV_SUCCESS
           rw [← List.append_assoc]
           assumption)
  · intro w' h
    unfold __hvf_set_memory at h
    simp only [hv_call, assert_hvf_ok] at h
    split_ifs at h <;> (try simp only [] at h) <;> (try split_ifs at h) <;>
      (try simp only [] at h) <;>
      simp only [Run.aborted.injEq, reduceCtorEq] at h <;> subst h
    all_goals
      first
      | (refine ⟨[], _, congrArg (fun l => l ++ [_]) (List.append_nil w.trace).symm, ?_, ?_⟩
         · assumption
         · simp)
      | (refine ⟨[_], _, rfl, ?_, ?_⟩
         · assumption
         · intro n hn
           have hn0 : n = 0 := by simpa using hn
           subst hn0
           show hv (w.trace ++ [_]) = HV_SUCCESS
           assumption)

/-- C21: `assert_hvf_ok` returns normally if and only if its argument is HV_SUCCESS
and aborts for every other status; every `hv_vm_map` / `hv_vm_unmap` that
`__hvf_set_memory` issues is checked: when `__hvf_set_memory` returns it
returns 0 and each call it issued succeeded, and when it aborts the last call
issued is the first that did not succeed; `hvf_vcpu_exec` aborts, in the state
`hv_vcpu_run` came back in, when `hv_vcpu_run` does not succeed; and
`hvf_vcpu_destroy` returns when `hv_vcpu_destroy` succeeds and aborts
otherwise. -/
theorem C21_hypervisor_failure_aborts :
    (∀ ret, (assert_hvf_ok ret = some () ↔ ret = HV_SUCCESS) ∧
      (assert_hvf_ok ret = none ↔ ret ≠ HV_SUCCESS)) ∧
    (∀ (hv : List HvCall → Nat) (w : MemWorld) (i : Nat),
      (∀ w' r, __hvf_set_memory hv w i = .done (w', r) →
        r = 0 ∧ ∃ calls, w'.trace = w.trace ++ calls ∧
          ∀ n, n < calls.length → hv (w.trace ++ calls.take (n + 1)) = HV_SUCCESS) ∧
      (∀ w', __hvf_set_memory hv w i = .aborted w' →
        ∃ calls c, w'.trace = w.trace ++ calls ++ [c] ∧ hv w'.trace ≠ HV_SUCCESS ∧
          ∀ n, n < calls.length → hv (w.trace ++ calls.take (n + 1)) = HV_SUCCESS)) ∧
    (∀ (env : VcpuEnv) (mem : HVFState) (s : VcpuState) (ret : Nat), ret ≠ HV_SUCCESS →
      hvf_vcpu_exec.after_run env mem s ret = .aborted s) ∧
    (∀ (env : VcpuEnv) (mem : HVFState) (r : RunResult) (rest : List RunResult) (t : VcpuState),
      r.ret ≠ HV_SUCCESS →
      (env.cpu_is_bsp = true ∨ (hvf_vcpu_exec.before_run env t).halted = 0) →
      hvf_vcpu_exec.loop env mem (r :: rest) t =
        .aborted (hvf_vcpu_exec.run (hvf_vcpu_exec.before_run env t) r)) ∧
    (∀ (ret : Nat) (s : VcpuState),
      (ret = HV_SUCCESS → hvf_vcpu_destroy ret s = .done (emit s .hv_vcpu_destroy)) ∧
      (ret ≠ HV_SUCCESS → hvf_vcpu_destroy ret s = .aborted (emit s .hv_vcpu_destroy))) := by
  have hafter : ∀ (env : VcpuEnv) (mem : HVFState) (s : VcpuState) (ret : Nat),
      ret ≠ HV_SUCCESS → hvf_vcpu_exec.after_run env mem s ret = .aborted s := by
    intro env mem s ret hne
    simp [hvf_vcpu_exec.after_run, assert_hvf_ok, hne]
  refine ⟨?_, set_memory_calls, hafter, ?_, ?_⟩
  · intro ret
    by_cases h : ret = HV_SUCCESS <;> simp [assert_hvf_ok, h]
  · intro env mem r rest t hne hrun
    rw [loop_cons env mem r rest t hrun, hafter _ _ _ _ hne]
  · intro ret s
    constructor
    · intro h
      simp [hvf_vcpu_destroy, assert_hvf_ok, h]
    · intro h
      simp [hvf_vcpu_destroy, assert_hvf_ok, h]

/-- C21 when `hv_vcpu_run` comes back with status 1: the loop body aborts in the state
`hv_vcpu_run` came back in; and when `hv_vm_map` comes back with status 1 for
the first slot of the empty table, `__hvf_set_memory` does not return. -/
theorem C21_hypervisor_failure_aborts_witness :
    hvf_vcpu_exec.after_run sample_env free_world.hvf_state
        (sample_vcpu 0 0 (sample_hw EXIT_REASON_HLT 0 1 0 0xfff0 0x2 0)) 1 =
      .aborted (sample_vcpu 0 0 (sample_hw EXIT_REASON_HLT 0 1 0 0xfff0 0x2 0)) ∧
    hvf_vcpu_destroy 1 (sample_vcpu 0 0 (sample_hw 0 0 0 0 0 0 0)) =
      .aborted (emit (sample_vcpu 0 0 (sample_hw 0 0 0 0 0 0 0)) .hv_vcpu_destroy) :=
  ⟨C21_hypervisor_failure_aborts.2.2.1 sample_env free_world.hvf_state
      (sample_vcpu 0 0 (sample_hw EXIT_REASON_HLT 0 1 0 0xfff0 0x2 0)) 1 (by decide),
   (C21_hypervisor_failure_aborts.2.2.2.2 1 (sample_vcpu 0 0 (sample_hw 0 0 0 0 0 0 0))).2
      (by decide)⟩

/-! ## Exit handlers: XSETBV, control registers, EPT violations, port I/O, hypercalls -/

/-- The XSETBV handler in closed form. -/
theorem dispatch_xsetbv (env : VcpuEnv) (mem : HVFState) (s : VcpuState) (x : ExitRecord)
    (hx : x.exit_reason = EXIT_REASON_XSETBV) :
    hvf_vcpu_exec.dispatch env mem s x =
      .done
        (if u32 (rreg s HV_X86_RCX) ≠ 0 then macvm_set_rip s (x.rip + x.ins_len)
         else
           macvm_set_rip
             (wreg { s with env_xcr0 := (u32 (rreg s HV_X86_RDX) <<< 32) ||| u32 (rreg s HV_X86_RAX) }
               HV_X86_XCR0 (((u32 (rreg s HV_X86_RDX) <<< 32) ||| u32 (rreg s HV_X86_RAX)) ||| 1))
             (x.rip + x.ins_len), 0) := by
  simp only [hvf_vcpu_exec.dispatch, hx, EXIT_REASON_XSETBV, EXIT_REASON_HLT, EXIT_REASON_MWAIT,
    EXIT_REASON_EPT_FAULT, EXIT_REASON_INOUT, EXIT_REASON_CPUID, Nat.reduceEqDiff, if_false,
    if_true]
  split_ifs <;> rfl

/-- A 64-bit value assembled from two 32-bit halves, with bit 0 set, fits 64 bits. -/
theorem xcr0_value_lt (a d : Nat) : ((u32 d <<< 32) ||| u32 a) ||| 1 < 2 ^ 64 := by
  have ha : u32 a < 2 ^ 32 := Nat.mod_lt _ (by decide)
  have hd : u32 d < 2 ^ 32 := Nat.mod_lt _ (by decide)
  apply Nat.or_lt_two_pow
  · apply Nat.or_lt_two_pow
    · rw [Nat.shiftLeft_eq]
      omega
    · omega
  · decide

/-- C22: for every XSETBV exit with guest eax, ecx, edx (the low 32 bits of RAX, RCX,
RDX), RIP r and reported instruction length L: the handler returns with
`ret` = 0 and RIP = r + L (as a 64-bit value); if ecx is not 0 the virtual XCR0
(`env->xcr0`) and the native XCR0 register keep their values; if ecx is 0
the virtual XCR0 becomes (edx << 32) | eax and the native XCR0 register
holds that value with bit 0 set. -/
theorem C22_xsetbv_exit (env : VcpuEnv) (mem : HVFState) (s : VcpuState)
    (hreason : rvmcs s .VMCS_EXIT_REASON = EXIT_REASON_XSETBV) :
    ∃ s', hvf_vcpu_exec.after_run env mem s HV_SUCCESS = .done (s', 0) ∧
      rreg s' HV_X86_RIP =
        u64 (rreg s HV_X86_RIP + u32 (rvmcs s .VMCS_EXIT_INSTRUCTION_LENGTH)) ∧
      (u32 (rreg s HV_X86_RCX) ≠ 0 →
        s'.env_xcr0 = s.env_xcr0 ∧ rreg s' HV_X86_XCR0 = rreg s HV_X86_XCR0) ∧
      (u32 (rreg s HV_X86_RCX) = 0 →
        s'.env_xcr0 = (u32 (rreg s HV_X86_RDX) <<< 32) ||| u32 (rreg s HV_X86_RAX) ∧
        rreg s' HV_X86_XCR0 =
          ((u32 (rreg s HV_X86_RDX) <<< 32) ||| u32 (rreg s HV_X86_RAX)) ||| 1) := by
  rw [after_run_success, dispatch_xsetbv _ _ _ _ hreason]
  refine ⟨_, rfl, ?_, ?_, ?_⟩
  · split_ifs <;> simp [rreg, macvm_set_rip, wreg, update_apic_tpr, cpu_set_apic_tpr]
  · intro hc
    have hc' : u32 (rreg (update_apic_tpr
        { s with emu := { s.emu with rflags := rreg s HV_X86_RFLAGS },
                 env_eflags := rreg s HV_X86_RFLAGS }) HV_X86_RCX) ≠ 0 := hc
    rw [if_pos hc']
    simp [rreg, macvm_set_rip, wreg, update_apic_tpr, cpu_set_apic_tpr, HV_X86_XCR0, HV_X86_RIP]
  · intro hc
    have hc' : ¬ u32 (rreg (update_apic_tpr
        { s with emu := { s.emu with rflags := rreg s HV_X86_RFLAGS },
                 env_eflags := rreg s HV_X86_RFLAGS }) HV_X86_RCX) ≠ 0 := by
      intro h
      exact h hc
    rw [if_neg hc']
    have hlt := xcr0_value_lt (s.hw.reg HV_X86_RAX) (s.hw.reg HV_X86_RDX)
    refine ⟨rfl, ?_⟩
    simp only [rreg, macvm_set_rip, wreg, update_apic_tpr, cpu_set_apic_tpr, HV_X86_XCR0,
      HV_X86_RIP]
    simp only [Function.update, eq_rec_constant, dite_eq_ite]
    simp only [Nat.reduceEqDiff, if_false, if_true]
    exact Nat.mod_eq_of_lt hlt

/-- C22 at an XSETBV exit of length 3 at RIP 0xfff0 with ecx = 0, eax = 7, edx = 0: the
virtual XCR0 becomes 7, and RIP 0xfff3. -/
theorem C22_xsetbv_exit_witness :
    ∃ s', hvf_vcpu_exec.after_run sample_env free_world.hvf_state
        (sample_vcpu 0 0 (sample_hw EXIT_REASON_XSETBV 0 3 0 0xfff0 0x2 7)) HV_SUCCESS =
          .done (s', 0) ∧
      rreg s' HV_X86_RIP = u64 (0xfff0 + u32 3) ∧
      (u32 0 ≠ 0 → s'.env_xcr0 = 0 ∧ rreg s' HV_X86_XCR0 = 0) ∧
      (u32 0 = 0 → s'.env_xcr0 = (u32 0 <<< 32) ||| u32 7 ∧
        rreg s' HV_X86_XCR0 = ((u32 0 <<< 32) ||| u32 7) ||| 1) :=
  C22_xsetbv_exit sample_env free_world.hvf_state
    (sample_vcpu 0 0 (sample_hw EXIT_REASON_XSETBV 0 3 0 0xfff0 0x2 7)) rfl

/-- The native registers of the sixteen general registers are the registers 2..17,
and `emu_gpr` inverts `hv_gpr`. -/
theorem hv_gpr_spec : ∀ reg, reg < 16 →
    2 ≤ hv_gpr reg ∧ hv_gpr reg < 18 ∧ emu_gpr (hv_gpr reg) = reg := by
  decide

/-- The control-register-access handler in closed form. -/
theorem dispatch_cr_access (env : VcpuEnv) (mem : HVFState) (s : VcpuState) (x : ExitRecord)
    (hx : x.exit_reason = EXIT_REASON_CR_ACCESS) :
    hvf_vcpu_exec.dispatch env mem s x =
      if x.exit_qual &&& 15 = 0 then
        .done (store_regs (add_rip
          (hw_call (fun h => env.macvm_set_cr0 h ((load_regs s).emu.regs ((x.exit_qual >>> 8) &&& 15)))
            (.macvm_set_cr0 ((load_regs s).emu.regs ((x.exit_qual >>> 8) &&& 15))) (load_regs s))
          x.ins_len), 0)
      else if x.exit_qual &&& 15 = 4 then
        .done (store_regs (add_rip
          (hw_call (fun h => env.macvm_set_cr4 h ((load_regs s).emu.regs ((x.exit_qual >>> 8) &&& 15)))
            (.macvm_set_cr4 ((load_regs s).emu.regs ((x.exit_qual >>> 8) &&& 15))) (load_regs s))
          x.ins_len), 0)
      else if x.exit_qual &&& 15 = 8 then
        if x.exit_qual &&& 0x10 ≠ 0 then
          .done (store_regs (add_rip
            (set_rrx (load_regs s) ((x.exit_qual >>> 8) &&& 15) (cpu_get_apic_tpr (load_regs s)))
            x.ins_len), 0)
        else
          .done (store_regs (add_rip
            (cpu_set_apic_tpr (load_regs s) ((load_regs s).emu.regs ((x.exit_qual >>> 8) &&& 15)))
            x.ins_len), EXCP_INTERRUPT)
      else .aborted (load_regs s) := by
  simp only [hvf_vcpu_exec.dispatch, hx, EXIT_REASON_CR_ACCESS, EXIT_REASON_XSETBV,
    EXIT_REASON_HLT, EXIT_REASON_MWAIT, EXIT_REASON_EPT_FAULT, EXIT_REASON_INOUT,
    EXIT_REASON_CPUID, EXIT_REASON_INTR_WINDOW, EXIT_REASON_NMI_WINDOW, EXIT_REASON_EXT_INTR,
    EXIT_REASON_RDMSR, EXIT_REASON_WRMSR, Nat.reduceEqDiff, if_false, if_true, or_self]
  split_ifs <;> rfl

/-- C23: for every control-register-access exit with cr = qual & 15 and
reg = (qual >> 8) & 15: if cr is not 0, 4 or 8 the dispatcher aborts; if
cr = 8 and bit 4 of the qualification is clear (a write) the APIC task priority
is set from general register reg (its low 8 bits, the `uint8_t` argument of
`cpu_set_apic_tpr`) and `ret` is EXCP_INTERRUPT; if cr = 8 and bit 4 is set (a
read) general register reg receives the APIC task priority, which
`update_apic_tpr` has just taken from the native TPR, and `ret` stays 0; for
cr = 0 and cr = 4 `ret` stays 0; in every case that does not abort the guest
RIP advances by the reported instruction length. -/
theorem C23_cr_access_exit (env : VcpuEnv) (mem : HVFState) (s : VcpuState)
    (hreason : rvmcs s .VMCS_EXIT_REASON = EXIT_REASON_CR_ACCESS) :
    (rvmcs s .VMCS_EXIT_QUALIFICATION &&& 15 ≠ 0 ∧
      rvmcs s .VMCS_EXIT_QUALIFICATION &&& 15 ≠ 4 ∧
      rvmcs s .VMCS_EXIT_QUALIFICATION &&& 15 ≠ 8 →
        ∃ sa, hvf_vcpu_exec.after_run env mem s HV_SUCCESS = .aborted sa) ∧
    (rvmcs s .VMCS_EXIT_QUALIFICATION &&& 15 = 8 ∧
      rvmcs s .VMCS_EXIT_QUALIFICATION &&& 0x10 = 0 →
        ∃ s', hvf_vcpu_exec.after_run env mem s HV_SUCCESS = .done (s', EXCP_INTERRUPT) ∧
          cpu_get_apic_tpr s' =
            rreg s (hv_gpr ((rvmcs s .VMCS_EXIT_QUALIFICATION >>> 8) &&& 15)) % 256 ∧
          rreg s' HV_X86_RIP =
            u64 (rreg s HV_X86_RIP + u32 (rvmcs s .VMCS_EXIT_INSTRUCTION_LENGTH))) ∧
    (rvmcs s .VMCS_EXIT_QUALIFICATION &&& 15 = 8 ∧
      rvmcs s .VMCS_EXIT_QUALIFICATION &&& 0x10 ≠ 0 →
        ∃ s', hvf_vcpu_exec.after_run env mem s HV_SUCCESS = .done (s', 0) ∧
          cpu_get_apic_tpr s' = (rreg s HV_X86_TPR >>> 4) % 256 ∧
          rreg s' (hv_gpr ((rvmcs s .VMCS_EXIT_QUALIFICATION >>> 8) &&& 15)) =
            cpu_get_apic_tpr s' ∧
          rreg s' HV_X86_RIP =
            u64 (rreg s HV_X86_RIP + u32 (rvmcs s .VMCS_EXIT_INSTRUCTION_LENGTH))) ∧
    (rvmcs s .VMCS_EXIT_QUALIFICATION &&& 15 = 0 ∨
      rvmcs s .VMCS_EXIT_QUALIFICATION &&& 15 = 4 →
        ∃ s', hvf_vcpu_exec.after_run env mem s HV_SUCCESS = .done (s', 0) ∧
          rreg s' HV_X86_RIP =
            u64 (rreg s HV_X86_RIP + u32 (rvmcs s .VMCS_EXIT_INSTRUCTION_LENGTH))) := by
  have hreg : (rvmcs s .VMCS_EXIT_QUALIFICATION >>> 8) &&& 15 < 16 :=
    Nat.lt_succ_of_le Nat.and_le_right
  obtain ⟨hg1, hg2, hg3⟩ := hv_gpr_spec _ hreg
  rw [after_run_success, dispatch_cr_access _ _ _ _ hreason]
  refine ⟨?_, ?_, ?_, ?_⟩
  · rintro ⟨h0, h4, h8⟩
    simp only [h0, h4, h8, if_false]
    exact ⟨_, rfl⟩
  · rintro ⟨h8, hw⟩
    simp only [h8, hw, Nat.reduceEqDiff, if_false, if_true, ne_eq, not_true_eq_false]
    refine ⟨_, rfl, ?_, ?_⟩
    · simp [cpu_get_apic_tpr, store_regs, add_rip, cpu_set_apic_tpr, load_regs, update_apic_tpr,
        rreg, hreg]
    · rw [store_regs_rip]
      simp [add_rip, cpu_set_apic_tpr, load_regs, update_apic_tpr, rreg, u64]
  · rintro ⟨h8, hr⟩
    simp only [h8, Nat.reduceEqDiff, if_false, if_true, ne_eq, hr, not_false_eq_true]
    refine ⟨_, rfl, ?_, ?_, ?_⟩
    · simp [cpu_get_apic_tpr, store_regs, add_rip, set_rrx, cpu_set_apic_tpr, load_regs,
        update_apic_tpr, rreg]
    · have hrip : hv_gpr ((rvmcs s .VMCS_EXIT_QUALIFICATION >>> 8) &&& 15) ≠ HV_X86_RIP := by
        unfold HV_X86_RIP; omega
      have hfl : hv_gpr ((rvmcs s .VMCS_EXIT_QUALIFICATION >>> 8) &&& 15) ≠ HV_X86_RFLAGS := by
        unfold HV_X86_RFLAGS; omega
      simp only [rreg, store_regs, hrip, hfl, if_false, hg1, hg2, and_self, if_true, hg3, add_rip,
        set_rrx, Function.update_same, cpu_get_apic_tpr, load_regs, update_apic_tpr,
        cpu_set_apic_tpr, u64]
      rw [hg3, Function.update_same]
      have : s.hw.reg HV_X86_TPR >>> 4 % 256 < 256 := Nat.mod_lt _ (by decide)
      omega
    · rw [store_regs_rip]
      simp [add_rip, set_rrx, load_regs, update_apic_tpr, cpu_set_apic_tpr, rreg, u64]
  · rintro (h0 | h4)
    · simp only [h0, if_true]
      refine ⟨_, rfl, ?_⟩
      rw [store_regs_rip]
      simp [add_rip, hw_call, load_regs, update_apic_tpr, cpu_set_apic_tpr, rreg, u64]
    · simp only [h4, Nat.reduceEqDiff, if_false, if_true]
      refine ⟨_, rfl, ?_⟩
      rw [store_regs_rip]
      simp [add_rip, hw_call, load_regs, update_apic_tpr, cpu_set_apic_tpr, rreg, u64]

/-- C23 at a MOV to CR8 from RAX = 0x55 (qualification 8), length 3 at RIP 0xfff0: the
APIC task priority becomes 0x55 and `ret` is EXCP_INTERRUPT. -/
theorem C23_cr_access_exit_witness :
    ∃ s', hvf_vcpu_exec.after_run sample_env free_world.hvf_state
        (sample_vcpu 0 0 (sample_hw EXIT_REASON_CR_ACCESS 8 3 0 0xfff0 0x2 0x55)) HV_SUCCESS =
          .done (s', EXCP_INTERRUPT) ∧
      cpu_get_apic_tpr s' =
        rreg (sample_vcpu 0 0 (sample_hw EXIT_REASON_CR_ACCESS 8 3 0 0xfff0 0x2 0x55))
          (hv_gpr ((8 >>> 8) &&& 15)) % 256 ∧
      rreg s' HV_X86_RIP = u64 (0xfff0 + u32 3) :=
  (C23_cr_access_exit sample_env free_world.hvf_state
    (sample_vcpu 0 0 (sample_hw EXIT_REASON_CR_ACCESS 8 3 0 0xfff0 0x2 0x55)) rfl).2.1
    ⟨by decide, by decide⟩

/-- A mask test with a single bit reads that bit. -/
theorem and_bit_eq_zero (q k : Nat) : q &&& (1 <<< k) = 0 ↔ q.testBit k = false := by
  rw [Nat.one_shiftLeft, Nat.and_two_pow]
  cases q.testBit k <;> simp

/-- `ept_emulation_fault` in terms of the bits of the qualification. -/
theorem ept_emulation_fault_iff (q : Nat) :
    ept_emulation_fault q = true ↔
      q.testBit 2 = false ∧ (q.testBit 0 = true ∨ q.testBit 1 = true) ∧
      q.testBit 7 = true ∧ q.testBit 8 = true := by
  unfold ept_emulation_fault
  simp only [EPT_VIOLATION_INST_FETCH, EPT_VIOLATION_DATA_READ, EPT_VIOLATION_DATA_WRITE,
    EPT_VIOLATION_GLA_VALID, EPT_VIOLATION_XLAT_VALID, ne_eq, and_bit_eq_zero]
  cases q.testBit 0 <;> cases q.testBit 1 <;> cases q.testBit 2 <;> cases q.testBit 7 <;>
    cases q.testBit 8 <;> decide

/-- The EPT-violation handler for a guest-physical address that the slot lookup
places in no slot. -/
theorem dispatch_ept_unmapped (env : VcpuEnv) (mem : HVFState) (s : VcpuState) (x : ExitRecord)
    (hx : x.exit_reason = EXIT_REASON_EPT_FAULT)
    (hslot : hvf_find_overlap_slot mem (rvmcs s .VMCS_GUEST_PHYSICAL_ADDRESS)
      (rvmcs s .VMCS_GUEST_PHYSICAL_ADDRESS) = none) :
    hvf_vcpu_exec.dispatch env mem s x =
      if ept_emulation_fault x.exit_qual = true then
        .done (store_regs (collab_call env.exec_instruction .exec_instruction
          (emit { load_regs
                    (if x.idtvec_info &&& VMCS_IDT_VEC_VALID = 0 ∧
                        x.exit_qual &&& EXIT_QUAL_NMIUDTI ≠ 0 then
                      hw_call env.vmx_set_nmi_blocking .vmx_set_nmi_blocking s
                    else s) with fetch_rip := x.rip } .decode_instruction)), 0)
      else
        .done (if x.idtvec_info &&& VMCS_IDT_VEC_VALID = 0 ∧
                  x.exit_qual &&& EXIT_QUAL_NMIUDTI ≠ 0 then
                hw_call env.vmx_set_nmi_blocking .vmx_set_nmi_blocking s
              else s, 0) := by
  simp only [hvf_vcpu_exec.dispatch, hx, EXIT_REASON_EPT_FAULT, EXIT_REASON_HLT,
    EXIT_REASON_MWAIT, Nat.reduceEqDiff, if_false, if_true, hslot, and_true,
    emulate_instruction, Option.isSome_none, Bool.false_eq_true, false_and]
  by_cases he : ept_emulation_fault x.exit_qual = true
  · simp only [he, if_true]
  · simp only [he, Bool.false_eq_true, if_false]
    cases env.DIRTY_VGA_TRACKING <;> rfl

/-- C25: for every exit qualification q, `ept_emulation_fault(q)` is true if and only
if the instruction-fetch bit (bit 2) is clear, at least one of the data-read
(bit 0) and data-write (bit 1) bits is set, and the guest-linear-address-valid
(bit 7) and translation-valid (bit 8) bits are both set; and for an EPT exit at
a guest-physical address that `hvf_find_overlap_slot(gpa, gpa)` places in no
slot, the handler returns with `ret` = 0 and, apart from `vmx_set_nmi_blocking`
when the exit asks for it, calls `load_regs`, `decode_instruction`,
`exec_instruction`, `store_regs` once each when `ept_emulation_fault(q)` is
true, with `fetch_rip` equal to the exit's RIP in the state handed to the
decoder and the executor, and calls nothing when it is false. -/
theorem C25_ept_emulation (env : VcpuEnv) (mem : HVFState) (s : VcpuState)
    (hreason : rvmcs s .VMCS_EXIT_REASON = EXIT_REASON_EPT_FAULT)
    (hslot : hvf_find_overlap_slot mem (rvmcs s .VMCS_GUEST_PHYSICAL_ADDRESS)
      (rvmcs s .VMCS_GUEST_PHYSICAL_ADDRESS) = none) :
    (∀ q, ept_emulation_fault q = true ↔
      q.testBit 2 = false ∧ (q.testBit 0 = true ∨ q.testBit 1 = true) ∧
      q.testBit 7 = true ∧ q.testBit 8 = true) ∧
    ∃ s' calls, hvf_vcpu_exec.after_run env mem s HV_SUCCESS = .done (s', 0) ∧
      calls = s.log ++
        (if rvmcs s .VMCS_IDT_VECTORING_INFO &&& VMCS_IDT_VEC_VALID = 0 ∧
            rvmcs s .VMCS_EXIT_QUALIFICATION &&& EXIT_QUAL_NMIUDTI ≠ 0 then
          [Event.vmx_set_nmi_blocking]
         else []) ∧
      (ept_emulation_fault (rvmcs s .VMCS_EXIT_QUALIFICATION) = true →
        s'.log = calls ++ [Event.load_regs, Event.decode_instruction, Event.exec_instruction,
          Event.store_regs] ∧
        ∃ t, t.fetch_rip = rreg s HV_X86_RIP ∧
          t.log = calls ++ [Event.load_regs, Event.decode_instruction] ∧
          s' = store_regs (collab_call env.exec_instruction .exec_instruction t)) ∧
      (ept_emulation_fault (rvmcs s .VMCS_EXIT_QUALIFICATION) = false → s'.log = calls) := by
  refine ⟨ept_emulation_fault_iff, ?_⟩
  have hslot' : hvf_find_overlap_slot mem
      (rvmcs (update_apic_tpr
        { s with emu := { s.emu with rflags := rreg s HV_X86_RFLAGS },
                 env_eflags := rreg s HV_X86_RFLAGS }) .VMCS_GUEST_PHYSICAL_ADDRESS)
      (rvmcs (update_apic_tpr
        { s with emu := { s.emu with rflags := rreg s HV_X86_RFLAGS },
                 env_eflags := rreg s HV_X86_RFLAGS }) .VMCS_GUEST_PHYSICAL_ADDRESS) = none :=
    hslot
  rw [after_run_success, dispatch_ept_unmapped _ _ _ _ hreason hslot']
  by_cases he : ept_emulation_fault (rvmcs s .VMCS_EXIT_QUALIFICATION) = true
  · rw [if_pos he]
    refine ⟨_, _, rfl, rfl, ?_, ?_⟩
    · intro _
      refine ⟨?_, _, rfl, ?_, rfl⟩
      · split_ifs <;>
          simp [store_regs, collab_call, emit, load_regs, hw_call, update_apic_tpr,
            cpu_set_apic_tpr]
      · split_ifs <;>
          simp [emit, load_regs, hw_call, update_apic_tpr, cpu_set_apic_tpr]
    · intro hf
      rw [he] at hf
      exact absurd hf (by decide)
  · rw [if_neg he]
    refine ⟨_, _, rfl, rfl, ?_, ?_⟩
    · intro ht
      exact absurd ht he
    · intro _
      split_ifs <;> simp [hw_call, update_apic_tpr, cpu_set_apic_tpr]

/-- C25 at a data-write fault (qualification 0x182) at an address outside every slot:
the instruction is decoded and executed. -/
theorem C25_ept_emulation_witness :
    ept_emulation_fault 0x182 = true ∧
    ∃ s', hvf_vcpu_exec.after_run sample_env free_world.hvf_state
        (sample_vcpu 0 0 (sample_hw EXIT_REASON_EPT_FAULT 0x182 3 0xfee00000 0xfff0 0x2 0))
        HV_SUCCESS = .done (s', 0) ∧
      s'.log = [Event.load_regs, Event.decode_instruction, Event.exec_instruction,
        Event.store_regs] := by
  obtain ⟨hiff, s', calls, hrun, hcalls, htrue, -⟩ :=
    C25_ept_emulation sample_env free_world.hvf_state
      (sample_vcpu 0 0 (sample_hw EXIT_REASON_EPT_FAULT 0x182 3 0xfee00000 0xfff0 0x2 0))
      rfl (by decide)
  have he : ept_emulation_fault 0x182 = true := (hiff 0x182).2 (by decide)
  refine ⟨he, s', hrun, ?_⟩
  rw [(htrue he).1, hcalls]
  rfl

/-- The non-string IN path of the port-I/O handler for a size other than 1, 2 and 4:
`VM_PANIC("size")` after the access. -/
theorem dispatch_in_other_size (env : VcpuEnv) (mem : HVFState) (s : VcpuState) (x : ExitRecord)
    (hx : x.exit_reason = EXIT_REASON_INOUT)
    (hstr : x.exit_qual &&& 16 = 0) (hin : x.exit_qual &&& 8 ≠ 0)
    (hsize : inout_size x.exit_qual ≠ 1 ∧ inout_size x.exit_qual ≠ 2 ∧
      inout_size x.exit_qual ≠ 4) :
    hvf_vcpu_exec.dispatch env mem s x =
      .aborted
        (emit (load_regs s)
          (.address_space_rw (inout_port x.exit_qual) (inout_size x.exit_qual) 0
            (env.io_read (inout_port x.exit_qual) (inout_size x.exit_qual) %
              2 ^ (8 * inout_size x.exit_qual)))) := by
  simp only [hvf_vcpu_exec.dispatch, hx, EXIT_REASON_INOUT, EXIT_REASON_HLT, EXIT_REASON_MWAIT,
    EXIT_REASON_EPT_FAULT, hstr, inout_size_u32, hvf_handle_io, address_space_rw, inout_port_u16]
  simp [hsize, hin]

/-- The non-string OUT path of the port-I/O handler. -/
theorem dispatch_out (env : VcpuEnv) (mem : HVFState) (s : VcpuState) (x : ExitRecord)
    (hx : x.exit_reason = EXIT_REASON_INOUT)
    (hstr : x.exit_qual &&& 16 = 0) (hout : x.exit_qual &&& 8 = 0) :
    hvf_vcpu_exec.dispatch env mem s x =
      .done (macvm_set_rip
        (emit (set_rrx s 0 (rreg s HV_X86_RAX))
          (.address_space_rw (inout_port x.exit_qual) (inout_size x.exit_qual) 1
            (u64 (rreg s HV_X86_RAX) % 2 ^ (8 * inout_size x.exit_qual))))
        (x.rip + x.ins_len), 0) := by
  simp only [hvf_vcpu_exec.dispatch, hx, EXIT_REASON_INOUT, EXIT_REASON_HLT, EXIT_REASON_MWAIT,
    EXIT_REASON_EPT_FAULT, hstr, hout, inout_size_u32, hvf_handle_io, address_space_rw,
    inout_port_u16]
  simp [set_rrx]

/-- The string path of the port-I/O handler: the delegation to the emulator. -/
theorem dispatch_string_io (env : VcpuEnv) (mem : HVFState) (s : VcpuState) (x : ExitRecord)
    (hx : x.exit_reason = EXIT_REASON_INOUT) (hstr : x.exit_qual &&& 16 ≠ 0) :
    hvf_vcpu_exec.dispatch env mem s x =
      if env.decode_len { load_regs s with fetch_rip := x.rip } = x.ins_len then
        .done (store_regs (collab_call env.exec_instruction .exec_instruction
          (emit { load_regs s with fetch_rip := x.rip } .decode_instruction)), 0)
      else .aborted (emit { load_regs s with fetch_rip := x.rip } .decode_instruction) := by
  simp only [hvf_vcpu_exec.dispatch, hx, EXIT_REASON_INOUT, EXIT_REASON_HLT, EXIT_REASON_MWAIT,
    EXIT_REASON_EPT_FAULT, Nat.reduceEqDiff, if_false, if_true, emulate_instruction]
  simp only [ne_eq, hstr, not_false_eq_true, not_true_eq_false, false_and, if_false,
    Option.isSome_some, true_and, Option.some.injEq]
  by_cases hl : x.ins_len = env.decode_len { load_regs s with fetch_rip := x.rip }
  · simp [hl]
  · have hl' : ¬ env.decode_len { load_regs s with fetch_rip := x.rip } = x.ins_len :=
      fun e => hl e.symm
    simp [hl, hl']

/-- The access size of a port-I/O exit is between 1 and 8. -/
theorem inout_size_le (qual : Nat) : 1 ≤ inout_size qual ∧ inout_size qual ≤ 8 := by
  have h : qual &&& 7 ≤ 7 := Nat.and_le_right
  unfold inout_size
  omega

/-- The low `size` bytes of a value survive its reduction to 64 bits, `size` ≤ 8. -/
theorem low_bytes_u64 (v size : Nat) (h : size ≤ 8) : u64 v % 2 ^ (8 * size) = v % 2 ^ (8 * size) := by
  unfold u64
  exact Nat.mod_mod_of_dvd v (Nat.pow_dvd_pow 2 (by omega))

/-- The three paths of the port-I/O handler. When the string bit (bit 4) of the
qualification is set the handler calls `load_regs` and `decode_instruction`
with `fetch_rip` at the exit's RIP, and then `exec_instruction` and
`store_regs` when the decoded length equals the reported instruction length,
and aborts otherwise; when the string bit is clear neither
`decode_instruction` nor `exec_instruction` is called; when it is clear and the
direction is OUT, the handler returns with `ret` = 0 after exactly one I/O-space
write of size = (qual & 7) + 1 bytes, the low `size` bytes of the native RAX,
to the port in bits 31..16 of the qualification, the native RAX is unchanged
and RIP advances by the reported instruction length, whatever the size; when
it is clear and the direction is IN, a size other than 1, 2 and 4 makes the
handler abort. -/
theorem inout_exit_paths (env : VcpuEnv) (mem : HVFState) (s : VcpuState)
    (hreason : rvmcs s .VMCS_EXIT_REASON = EXIT_REASON_INOUT) :
    (rvmcs s .VMCS_EXIT_QUALIFICATION &&& 16 ≠ 0 →
      ∃ t, t.fetch_rip = rreg s HV_X86_RIP ∧ t.log = s.log ++ [Event.load_regs] ∧
        (env.decode_len t = u32 (rvmcs s .VMCS_EXIT_INSTRUCTION_LENGTH) →
          ∃ s', hvf_vcpu_exec.after_run env mem s HV_SUCCESS = .done (s', 0) ∧
            s'.log = s.log ++ [Event.load_regs, Event.decode_instruction,
              Event.exec_instruction, Event.store_regs]) ∧
        (env.decode_len t ≠ u32 (rvmcs s .VMCS_EXIT_INSTRUCTION_LENGTH) →
          ∃ sa, hvf_vcpu_exec.after_run env mem s HV_SUCCESS = .aborted sa ∧
            sa.log = s.log ++ [Event.load_regs, Event.decode_instruction])) ∧
    (rvmcs s .VMCS_EXIT_QUALIFICATION &&& 16 = 0 →
      Event.decode_instruction ∉ (hvf_vcpu_exec.after_run env mem s HV_SUCCESS).state.log.drop
        s.log.length ∧
      Event.exec_instruction ∉ (hvf_vcpu_exec.after_run env mem s HV_SUCCESS).state.log.drop
        s.log.length) ∧
    (rvmcs s .VMCS_EXIT_QUALIFICATION &&& 16 = 0 ∧ rvmcs s .VMCS_EXIT_QUALIFICATION &&& 8 = 0 →
      ∃ s', hvf_vcpu_exec.after_run env mem s HV_SUCCESS = .done (s', 0) ∧
        1 ≤ inout_size (rvmcs s .VMCS_EXIT_QUALIFICATION) ∧
        inout_size (rvmcs s .VMCS_EXIT_QUALIFICATION) ≤ 8 ∧
        s'.log = s.log ++
          [Event.address_space_rw (inout_port (rvmcs s .VMCS_EXIT_QUALIFICATION))
            (inout_size (rvmcs s .VMCS_EXIT_QUALIFICATION)) 1
            (rreg s HV_X86_RAX % 2 ^ (8 * inout_size (rvmcs s .VMCS_EXIT_QUALIFICATION)))] ∧
        rreg s' HV_X86_RAX = rreg s HV_X86_RAX ∧
        rreg s' HV_X86_RIP =
          u64 (rreg s HV_X86_RIP + u32 (rvmcs s .VMCS_EXIT_INSTRUCTION_LENGTH))) ∧
    (rvmcs s .VMCS_EXIT_QUALIFICATION &&& 16 = 0 ∧ rvmcs s .VMCS_EXIT_QUALIFICATION &&& 8 ≠ 0 ∧
      inout_size (rvmcs s .VMCS_EXIT_QUALIFICATION) ≠ 1 ∧
      inout_size (rvmcs s .VMCS_EXIT_QUALIFICATION) ≠ 2 ∧
      inout_size (rvmcs s .VMCS_EXIT_QUALIFICATION) ≠ 4 →
      ∃ sa, hvf_vcpu_exec.after_run env mem s HV_SUCCESS = .aborted sa) := by
  have hsz := inout_size_le (rvmcs s .VMCS_EXIT_QUALIFICATION)
  rw [after_run_success]
  refine ⟨?_, ?_, ?_, ?_⟩
  · intro hstr
    rw [dispatch_string_io _ _ _ _ hreason hstr]
    refine ⟨{ load_regs (update_apic_tpr
        { s with emu := { s.emu with rflags := rreg s HV_X86_RFLAGS },
                 env_eflags := rreg s HV_X86_RFLAGS }) with fetch_rip := rreg s HV_X86_RIP },
      rfl, ?_, ?_, ?_⟩
    · simp [load_regs, update_apic_tpr, cpu_set_apic_tpr]
    · intro hl
      rw [if_pos hl]
      refine ⟨_, rfl, ?_⟩
      simp [store_regs, collab_call, emit, load_regs, update_apic_tpr, cpu_set_apic_tpr]
    · intro hl
      rw [if_neg hl]
      refine ⟨_, rfl, ?_⟩
      simp [emit, load_regs, update_apic_tpr, cpu_set_apic_tpr]
  · intro hstr
    by_cases hin : rvmcs s .VMCS_EXIT_QUALIFICATION &&& 8 = 0
    · rw [dispatch_out _ _ _ _ hreason hstr hin]
      simp [Exec.state, macvm_set_rip, wreg, emit, set_rrx, update_apic_tpr, cpu_set_apic_tpr]
    · by_cases hs : inout_size (rvmcs s .VMCS_EXIT_QUALIFICATION) = 1 ∨
          inout_size (rvmcs s .VMCS_EXIT_QUALIFICATION) = 2 ∨
          inout_size (rvmcs s .VMCS_EXIT_QUALIFICATION) = 4
      · rw [dispatch_in _ _ _ _ hreason hstr hin hs]
        simp [Exec.state, store_regs, add_rip, emit, set_rrx, load_regs, update_apic_tpr,
          cpu_set_apic_tpr]
      · rw [dispatch_in_other_size _ _ _ _ hreason hstr hin (by simpa [not_or] using hs)]
        simp [Exec.state, emit, load_regs, update_apic_tpr, cpu_set_apic_tpr]
  · rintro ⟨hstr, hout⟩
    rw [dispatch_out _ _ _ _ hreason hstr hout]
    refine ⟨_, rfl, hsz.1, hsz.2, ?_, ?_, ?_⟩
    · have hb := low_bytes_u64 (s.hw.reg HV_X86_RAX) _ hsz.2
      simpa [macvm_set_rip, wreg, emit, set_rrx, update_apic_tpr, cpu_set_apic_tpr, rreg, rvmcs]
        using hb
    · simp [macvm_set_rip, wreg, emit, set_rrx, update_apic_tpr, cpu_set_apic_tpr, rreg,
        HV_X86_RAX, HV_X86_RIP]
    · simp [macvm_set_rip, wreg, emit, set_rrx, update_apic_tpr, cpu_set_apic_tpr, rreg]
  · rintro ⟨hstr, hin, hs⟩
    rw [dispatch_in_other_size _ _ _ _ hreason hstr hin hs]
    exact ⟨_, rfl⟩

/-- C26 (the OUT path does not check the size): a non-string OUT whose size field is 2,
a size of 3 bytes, is carried out: the handler writes the three low bytes
0x667788 of RAX to port 0x3f8 in one I/O-space write, leaves RAX alone,
advances RIP and leaves `ret` at 0, without calling `decode_instruction` or
`exec_instruction`; the IN path aborts (`VM_PANIC("size")`) on the same
size. -/
theorem C26_out_size_unchecked :
    0x03f80002 &&& 16 = 0 ∧ 0x03f80002 &&& 8 = 0 ∧ inout_size 0x03f80002 = 3 ∧
    inout_port 0x03f80002 = 0x3f8 ∧
    (∃ s', hvf_vcpu_exec.after_run sample_env free_world.hvf_state
        (sample_vcpu 0 0 (sample_hw EXIT_REASON_INOUT 0x03f80002 1 0 0xfff0 0x2
          0x1122334455667788)) HV_SUCCESS = .done (s', 0) ∧
      s'.log = [Event.address_space_rw 0x3f8 3 1 0x667788] ∧
      rreg s' HV_X86_RAX = 0x1122334455667788 ∧
      rreg s' HV_X86_RIP = 0xfff1) ∧
    0x03f8000a &&& 16 = 0 ∧ 0x03f8000a &&& 8 ≠ 0 ∧ inout_size 0x03f8000a = 3 ∧
    (∃ sa, hvf_vcpu_exec.after_run sample_env free_world.hvf_state
        (sample_vcpu 0 0 (sample_hw EXIT_REASON_INOUT 0x03f8000a 1 0 0xfff0 0x2
          0x1122334455667788)) HV_SUCCESS = .aborted sa ∧
      sa.log = [Event.load_regs, Event.address_space_rw 0x3f8 3 0 0x34abcd]) :=
  ⟨by decide, by decide, by decide, by decide, ⟨_, rfl, by decide, by decide, by decide⟩,
   by decide, by decide, by decide, ⟨_, rfl, by decide⟩⟩

/-- The VMCALL handler does nothing. -/
theorem dispatch_vmcall (env : VcpuEnv) (mem : HVFState) (s : VcpuState) (x : ExitRecord)
    (hx : x.exit_reason = VMX_REASON_VMCALL) :
    hvf_vcpu_exec.dispatch env mem s x = .done (s, 0) := by
  simp [hvf_vcpu_exec.dispatch, hx, EXIT_REASON_TRIPLE_FAULT, EXIT_REASON_HLT,
    EXIT_REASON_MWAIT, EXIT_REASON_EPT_FAULT, EXIT_REASON_INOUT, EXIT_REASON_CPUID,
    EXIT_REASON_XSETBV, EXIT_REASON_INTR_WINDOW, EXIT_REASON_NMI_WINDOW, EXIT_REASON_EXT_INTR,
    EXIT_REASON_RDMSR, EXIT_REASON_WRMSR, EXIT_REASON_CR_ACCESS, EXIT_REASON_APIC_ACCESS,
    EXIT_REASON_TPR, EXIT_REASON_TASK_SWITCH, EXIT_REASON_RDPMC, VMX_REASON_VMCALL]

/-- The `default` label of the `switch` only prints. -/
theorem dispatch_default (env : VcpuEnv) (mem : HVFState) (s : VcpuState) (x : ExitRecord)
    (hx : x.exit_reason ∉
      [EXIT_REASON_HLT, EXIT_REASON_MWAIT, EXIT_REASON_EPT_FAULT, EXIT_REASON_INOUT,
       EXIT_REASON_CPUID, EXIT_REASON_XSETBV, EXIT_REASON_INTR_WINDOW, EXIT_REASON_NMI_WINDOW,
       EXIT_REASON_EXT_INTR, EXIT_REASON_RDMSR, EXIT_REASON_WRMSR, EXIT_REASON_CR_ACCESS,
       EXIT_REASON_APIC_ACCESS, EXIT_REASON_TPR, EXIT_REASON_TASK_SWITCH,
       EXIT_REASON_TRIPLE_FAULT, EXIT_REASON_RDPMC, VMX_REASON_VMCALL]) :
    hvf_vcpu_exec.dispatch env mem s x =
      .done (emit s (.unhandled_exit x.rip x.exit_reason), 0) := by
  simp only [List.mem_cons, List.mem_singleton, not_or, List.not_mem_nil, not_false_eq_true,
    and_true] at hx
  simp only [hvf_vcpu_exec.dispatch, hx, if_false, false_or]

/-- C29: for every exit that `hv_vcpu_run` delivers with success, in an iteration that
reaches `hv_vcpu_run`, whose reason is VMCALL or is none of the reasons the
`switch` names: the handler leaves the native registers and the VMCS as the
exit delivered them (RIP is not advanced), `cpu->halted` keeps its value, the
only call made is the diagnostic print of the `default` label, `ret` stays 0,
and the loop goes on with the next iteration instead of returning. -/
theorem C29_vmcall_and_unhandled_exits (env : VcpuEnv) (mem : HVFState) (r : RunResult)
    (rest : List RunResult) (t : VcpuState)
    (hret : r.ret = HV_SUCCESS)
    (hreason : r.hw.vmcs .VMCS_EXIT_REASON = VMX_REASON_VMCALL ∨
      r.hw.vmcs .VMCS_EXIT_REASON ∉
        [EXIT_REASON_HLT, EXIT_REASON_MWAIT, EXIT_REASON_EPT_FAULT, EXIT_REASON_INOUT,
         EXIT_REASON_CPUID, EXIT_REASON_XSETBV, EXIT_REASON_INTR_WINDOW,
         EXIT_REASON_NMI_WINDOW, EXIT_REASON_EXT_INTR, EXIT_REASON_RDMSR, EXIT_REASON_WRMSR,
         EXIT_REASON_CR_ACCESS, EXIT_REASON_APIC_ACCESS, EXIT_REASON_TPR,
         EXIT_REASON_TASK_SWITCH, EXIT_REASON_TRIPLE_FAULT, EXIT_REASON_RDPMC,
         VMX_REASON_VMCALL])
    (hrun : env.cpu_is_bsp = true ∨ (hvf_vcpu_exec.before_run env t).halted = 0) :
    ∃ s', hvf_vcpu_exec.after_run env mem
        (hvf_vcpu_exec.run (hvf_vcpu_exec.before_run env t) r) r.ret = .done (s', 0) ∧
      s'.hw.reg = r.hw.reg ∧ s'.hw.vmcs = r.hw.vmcs ∧
      rreg s' HV_X86_RIP = r.hw.reg HV_X86_RIP ∧
      s'.halted = (hvf_vcpu_exec.before_run env t).halted ∧
      s'.log = (hvf_vcpu_exec.before_run env t).log ++ Event.hv_vcpu_run ::
        (if r.hw.vmcs .VMCS_EXIT_REASON = VMX_REASON_VMCALL then []
         else [Event.unhandled_exit (r.hw.reg HV_X86_RIP) (r.hw.vmcs .VMCS_EXIT_REASON)]) ∧
      hvf_vcpu_exec.loop env mem (r :: rest) t = hvf_vcpu_exec.loop env mem rest s' := by
  rw [loop_cons env mem r rest t hrun, hret, after_run_success]
  rcases hreason with h | h
  · have hx : rvmcs (hvf_vcpu_exec.run (hvf_vcpu_exec.before_run env t) r) .VMCS_EXIT_REASON =
        VMX_REASON_VMCALL := h
    rw [dispatch_vmcall _ _ _ _ hx]
    refine ⟨_, rfl, rfl, rfl, rfl, rfl, ?_, rfl⟩
    simp [update_apic_tpr, cpu_set_apic_tpr, hvf_vcpu_exec.run, h]
  · have hne : r.hw.vmcs .VMCS_EXIT_REASON ≠ VMX_REASON_VMCALL := by
      intro e
      apply h
      rw [e]
      simp
    rw [dispatch_default _ _ _ _ h]
    refine ⟨_, rfl, rfl, rfl, rfl, rfl, ?_, rfl⟩
    simp [update_apic_tpr, cpu_set_apic_tpr, hvf_vcpu_exec.run, hne, emit, rreg, rvmcs]

/-- C29 at a VMCALL exit followed by a HLT exit: the loop goes on to the HLT exit. -/
theorem C29_vmcall_and_unhandled_exits_witness :
    ∃ s', hvf_vcpu_exec.after_run sample_env free_world.hvf_state
        (hvf_vcpu_exec.run
          (hvf_vcpu_exec.before_run sample_env (sample_vcpu 1 0 (sample_hw 0 0 0 0 0xfff0 0x2 0)))
          { ret := HV_SUCCESS, hw := sample_hw VMX_REASON_VMCALL 0 3 0 0xfff0 0x2 0 })
        HV_SUCCESS = .done (s', 0) ∧
      s'.hw.reg = (sample_hw VMX_REASON_VMCALL 0 3 0 0xfff0 0x2 0).reg ∧
      s'.hw.vmcs = (sample_hw VMX_REASON_VMCALL 0 3 0 0xfff0 0x2 0).vmcs ∧
      rreg s' HV_X86_RIP = 0xfff0 ∧
      s'.halted =
        (hvf_vcpu_exec.before_run sample_env
          (sample_vcpu 1 0 (sample_hw 0 0 0 0 0xfff0 0x2 0))).halted ∧
      s'.log =
        (hvf_vcpu_exec.before_run sample_env
          (sample_vcpu 1 0 (sample_hw 0 0 0 0 0xfff0 0x2 0))).log ++ Event.hv_vcpu_run ::
        (if (sample_hw VMX_REASON_VMCALL 0 3 0 0xfff0 0x2 0).vmcs .VMCS_EXIT_REASON =
            VMX_REASON_VMCALL then []
         else [Event.unhandled_exit 0xfff0 VMX_REASON_VMCALL]) ∧
      hvf_vcpu_exec.loop sample_env free_world.hvf_state
          [{ ret := HV_SUCCESS, hw := sample_hw VMX_REASON_VMCALL 0 3 0 0xfff0 0x2 0 },
           { ret := HV_SUCCESS, hw := sample_hw EXIT_REASON_HLT 0 1 0 0xfff0 0x2 0 }]
          (sample_vcpu 1 0 (sample_hw 0 0 0 0 0xfff0 0x2 0)) =
        hvf_vcpu_exec.loop sample_env free_world.hvf_state
          [{ ret := HV_SUCCESS, hw := sample_hw EXIT_REASON_HLT 0 1 0 0xfff0 0x2 0 }] s' :=
  C29_vmcall_and_unhandled_exits sample_env free_world.hvf_state
    { ret := HV_SUCCESS, hw := sample_hw VMX_REASON_VMCALL 0 3 0 0xfff0 0x2 0 }
    [{ ret := HV_SUCCESS, hw := sample_hw EXIT_REASON_HLT 0 1 0 0xfff0 0x2 0 }]
    (sample_vcpu 1 0 (sample_hw 0 0 0 0 0xfff0 0x2 0)) rfl (Or.inl rfl) (Or.inl rfl)

/-! ## Task priority -/

/-- The arithmetic right shift by 4 of an `int` is the floor of the division by 16. -/
theorem int_shiftRight_four (m : Int) : m >>> (4 : Int) = m / 16 := by
  have h4 : (4 : Int) = ((4 : Nat) : Int) := rfl
  cases m with
  | ofNat v =>
    rw [h4, Int.ofNat_eq_coe, Int.shiftRight_coe_nat, Nat.shiftRight_eq_div_pow]
    omega
  | negSucc v =>
    rw [h4, Int.shiftRight_negSucc, Nat.shiftRight_eq_div_pow, Int.negSucc_eq, Int.negSucc_eq]
    omega

/-- C28: for every APIC task priority t in 0..15 and every value irr of
`apic_get_highest_priority_irr`: `vmx_update_tpr` writes t << 4 to the native
TPR register and writes the TPR threshold as 0 when irr = -1 and as
min(irr, t << 4) >> 4 otherwise (as a 64-bit value; for a vector irr ≥ 0 this
is the natural number min(irr, t << 4) >> 4); `update_apic_tpr` sets the APIC
task priority to (native TPR) >> 4 (as the `uint8_t` the APIC model takes); so
`vmx_update_tpr` followed by `update_apic_tpr` restores t. -/
theorem C28_tpr_round_trip (env : VcpuEnv) (s : VcpuState) (ht : cpu_get_apic_tpr s ≤ 15) :
    rreg (vmx_update_tpr env s) HV_X86_TPR = cpu_get_apic_tpr s <<< 4 ∧
    (env.apic_get_highest_priority_irr s = -1 →
      rvmcs (vmx_update_tpr env s) .VMCS_TPR_THRESHOLD = 0) ∧
    (env.apic_get_highest_priority_irr s ≠ -1 →
      (rvmcs (vmx_update_tpr env s) .VMCS_TPR_THRESHOLD : Int) =
        (min (env.apic_get_highest_priority_irr s) ((cpu_get_apic_tpr s <<< 4 : Nat) : Int)
          >>> 4) % 2 ^ 64) ∧
    (∀ v : Nat, env.apic_get_highest_priority_irr s = (v : Int) →
      rvmcs (vmx_update_tpr env s) .VMCS_TPR_THRESHOLD = min v (cpu_get_apic_tpr s <<< 4) >>> 4) ∧
    (∀ u : VcpuState, cpu_get_apic_tpr (update_apic_tpr u) = (rreg u HV_X86_TPR >>> 4) % 256) ∧
    cpu_get_apic_tpr (update_apic_tpr (vmx_update_tpr env s)) = cpu_get_apic_tpr s := by
  have ht' : s.apic_tpr ≤ 15 := ht
  have hsh : s.apic_tpr <<< 4 = s.apic_tpr * 16 := by rw [Nat.shiftLeft_eq]
  have htpr : rreg (vmx_update_tpr env s) HV_X86_TPR = s.apic_tpr <<< 4 := by
    unfold vmx_update_tpr
    simp only []
    split_ifs
    all_goals
      simp only [rreg, wvmcs, wreg, cpu_get_apic_tpr, Function.update_same, Int.toNat_ofNat, u64]
      rw [hsh]
      omega
  refine ⟨htpr, ?_, ?_, ?_, ?_, ?_⟩
  · intro hirr
    unfold vmx_update_tpr
    simp [hirr, rvmcs, wvmcs, wreg, u64]
  · intro hirr
    unfold vmx_update_tpr
    simp only [hirr, if_false, rvmcs, wvmcs, wreg, cpu_get_apic_tpr, Function.update_same,
      Int.toNat_ofNat, u64]
    generalize env.apic_get_highest_priority_irr s = irr
    rw [hsh]
    split_ifs with hgt
    · rw [min_eq_right (le_of_lt hgt), int_shiftRight_four, Nat.shiftRight_eq_div_pow]
      omega
    · rw [min_eq_left (not_lt.mp hgt), int_shiftRight_four]
      omega
  · intro v hirr
    unfold vmx_update_tpr
    have hne : (v : Int) ≠ -1 := by omega
    simp only [hirr, hne, if_false, rvmcs, wvmcs, wreg, cpu_get_apic_tpr, Function.update_same,
      Int.toNat_ofNat, u64]
    rw [hsh]
    split_ifs with hgt
    · have hv : s.apic_tpr * 16 ≤ v := by omega
      rw [min_eq_right hv, Nat.shiftRight_eq_div_pow]
      omega
    · have hv : v ≤ s.apic_tpr * 16 := by omega
      rw [int_shiftRight_four, min_eq_left hv, Nat.shiftRight_eq_div_pow]
      omega
  · intro u
    rfl
  · show (rreg (vmx_update_tpr env s) HV_X86_TPR >>> 4) % 256 = s.apic_tpr
    rw [htpr, hsh, Nat.shiftRight_eq_div_pow]
    omega

/-- C28 at task priority 5 with no interrupt pending: TPR is 0x50, the threshold 0, and
the round trip gives 5 again. -/
theorem C28_tpr_round_trip_witness :
    rreg (vmx_update_tpr sample_env { sample_vcpu 0 0 (sample_hw 0 0 0 0 0 0 0) with apic_tpr := 5 })
      HV_X86_TPR = 5 <<< 4 ∧
    rvmcs (vmx_update_tpr sample_env
      { sample_vcpu 0 0 (sample_hw 0 0 0 0 0 0 0) with apic_tpr := 5 }) .VMCS_TPR_THRESHOLD = 0 ∧
    cpu_get_apic_tpr (update_apic_tpr (vmx_update_tpr sample_env
      { sample_vcpu 0 0 (sample_hw 0 0 0 0 0 0 0) with apic_tpr := 5 })) = 5 :=
  ⟨(C28_tpr_round_trip sample_env
      { sample_vcpu 0 0 (sample_hw 0 0 0 0 0 0 0) with apic_tpr := 5 } (by decide)).1,
   (C28_tpr_round_trip sample_env
      { sample_vcpu 0 0 (sample_hw 0 0 0 0 0 0 0) with apic_tpr := 5 } (by decide)).2.1 rfl,
   (C28_tpr_round_trip sample_env
      { sample_vcpu 0 0 (sample_hw 0 0 0 0 0 0 0) with apic_tpr := 5 } (by decide)).2.2.2.2.2⟩

/-! ## vCPU reset and creation -/

/-- Two hardware states are equal when their register files and their VMCS are. -/
theorem HwState.eq_of (a b : HwState) (hr : a.reg = b.reg) (hv : a.vmcs = b.vmcs) : a = b := by
  cases a
  cases b
  simp only [HwState.mk.injEq]
  exact ⟨hr, hv⟩

/-- `wvmcs` leaves the native registers alone. -/
theorem wvmcs_reg (s : VcpuState) (f : vmcs_field) (v : Nat) :
    (wvmcs s f v).hw.reg = s.hw.reg := rfl

/-- `wvmcs` writes one field. -/
theorem wvmcs_vmcs (s : VcpuState) (f : vmcs_field) (v : Nat) :
    (wvmcs s f v).hw.vmcs = Function.update s.hw.vmcs f (u64 v) := rfl

/-- `wreg` writes one register. -/
theorem wreg_reg (s : VcpuState) (r v : Nat) :
    (wreg s r v).hw.reg = Function.update s.hw.reg r (u64 v) := rfl

/-- `wreg` leaves the VMCS alone. -/
theorem wreg_vmcs (s : VcpuState) (r v : Nat) : (wreg s r v).hw.vmcs = s.hw.vmcs := rfl

/-- `wvmcs` changes the hardware side only. -/
theorem wvmcs_frame (a t : VcpuState) (f : vmcs_field) (v : Nat)
    (h : a = { t with hw := a.hw }) : wvmcs a f v = { t with hw := (wvmcs a f v).hw } := by
  rw [h]
  rfl

/-- `wreg` changes the hardware side only. -/
theorem wreg_frame (a t : VcpuState) (r v : Nat)
    (h : a = { t with hw := a.hw }) : wreg a r v = { t with hw := (wreg a r v).hw } := by
  rw [h]
  rfl

/-- The guest-state part of the reset changes the hardware side only. -/
theorem reset_guest_state_frame (t : VcpuState) :
    vmx_reset_vcpu.guest_state t = { t with hw := (vmx_reset_vcpu.guest_state t).hw } := by
  unfold vmx_reset_vcpu.guest_state
  simp only [List.range, List.range.loop, List.foldl]
  repeat (first | apply wvmcs_frame | apply wreg_frame)
  rfl

/-- The native registers after the guest-state part of the reset. -/
theorem reset_guest_state_reg (t : VcpuState) (r : Nat) :
    (vmx_reset_vcpu.guest_state t).hw.reg r =
      if r = HV_X86_RIP then 0xfff0
      else if r = HV_X86_RDX then 0x623
      else if r = HV_X86_RFLAGS then 0x2
      else if r < 18 then 0
      else t.hw.reg r := by
  unfold vmx_reset_vcpu.guest_state
  simp only [List.range, List.range.loop, List.foldl]
  simp only [wvmcs_reg, wreg_reg]
  simp only [Function.update_apply]
  simp only [HV_X86_RIP, HV_X86_RDX, HV_X86_RFLAGS, HV_X86_RSP, HV_X86_RAX, HV_X86_RBX, HV_X86_RCX,
    HV_X86_RSI, HV_X86_RDI, HV_X86_RBP, HV_X86_R8, u64, Nat.reduceAdd, Nat.reduceMod, Nat.reducePow]
  by_cases h : r < 18
  · interval_cases r <;> rfl
  · simp (disch := omega) only [if_neg]

/-- The VMCS after the guest-state part of the reset: the fields it writes hold the
same values whatever was there before, the others are untouched. -/
theorem reset_guest_state_vmcs (t u : VcpuState) (f : vmcs_field) :
    (vmx_reset_vcpu.guest_state t).hw.vmcs f = (vmx_reset_vcpu.guest_state u).hw.vmcs f ∨
    ((vmx_reset_vcpu.guest_state t).hw.vmcs f = t.hw.vmcs f ∧
     (vmx_reset_vcpu.guest_state u).hw.vmcs f = u.hw.vmcs f) := by
  unfold vmx_reset_vcpu.guest_state
  simp only [List.range, List.range.loop, List.foldl]
  simp only [wvmcs_vmcs, wreg_vmcs]
  cases f <;> simp [Function.update_apply]

/-- Applied to a state whose hardware side it produced, the guest-state part of the
reset changes nothing. -/
theorem reset_guest_state_again (t u : VcpuState)
    (h : u.hw = (vmx_reset_vcpu.guest_state t).hw) :
    (vmx_reset_vcpu.guest_state u).hw = u.hw := by
  apply HwState.eq_of
  · funext r
    rw [reset_guest_state_reg, h, reset_guest_state_reg]
    split_ifs <;> rfl
  · funext f
    rcases reset_guest_state_vmcs u t f with h1 | ⟨h1, -⟩
    · rw [h1, h]
    · exact h1

/-- The whole reset: the hardware side is what the guest-state part makes of the
state `macvm_set_cr0` leaves, `halted` is 0, four calls are recorded, and
nothing else changes. -/
theorem reset_eq (env : VcpuEnv) (s : VcpuState) :
    vmx_reset_vcpu env s =
      { s with
        hw := (vmx_reset_vcpu.guest_state
          (hw_call (fun h => env.macvm_set_cr0 h 0x60000010) (.macvm_set_cr0 0x60000010)
            (wvmcs (wvmcs s .VMCS_ENTRY_CTLS 0) .VMCS_GUEST_IA32_EFER 0))).hw,
        halted := 0,
        log := s.log ++ [.macvm_set_cr0 0x60000010, .hv_vm_sync_tsc 0, .hv_vcpu_invalidate_tlb,
          .hv_vcpu_flush] } := by
  unfold vmx_reset_vcpu
  simp only []
  rw [reset_guest_state_frame]
  simp [emit, hw_call, wvmcs]

/-- The values the reset leaves in the VMCS fields named by the claim. -/
theorem reset_guest_state_fields (t : VcpuState) :
    (vmx_reset_vcpu.guest_state t).hw.vmcs .VMCS_GUEST_CS_SELECTOR = 0xf000 ∧
    (vmx_reset_vcpu.guest_state t).hw.vmcs .VMCS_GUEST_CS_BASE = 0xffff0000 ∧
    (vmx_reset_vcpu.guest_state t).hw.vmcs .VMCS_GUEST_CS_LIMIT = 0xffff ∧
    (vmx_reset_vcpu.guest_state t).hw.vmcs .VMCS_GUEST_CS_ACCESS_RIGHTS = 0x9b ∧
    (vmx_reset_vcpu.guest_state t).hw.vmcs .VMCS_GUEST_CR3 = 0 ∧
    (vmx_reset_vcpu.guest_state t).hw.vmcs .VMCS_CR4_SHADOW = 0 ∧
    (vmx_reset_vcpu.guest_state t).hw.vmcs .VMCS_GUEST_CR4 = CR4_VMXE_MASK ∧
    (vmx_reset_vcpu.guest_state t).hw.vmcs .VMCS_CR4_MASK = CR4_VMXE_MASK := by
  unfold vmx_reset_vcpu.guest_state
  simp only [List.range, List.range.loop, List.foldl]
  simp only [wvmcs_vmcs, wreg_vmcs]
  simp [Function.update_apply, u64, CR4_VMXE_MASK]

/-- The two fields written before `macvm_set_cr0` are not written again by the
guest-state part of the reset. -/
theorem reset_guest_state_entry_efer (t : VcpuState) :
    (vmx_reset_vcpu.guest_state t).hw.vmcs .VMCS_ENTRY_CTLS = t.hw.vmcs .VMCS_ENTRY_CTLS ∧
    (vmx_reset_vcpu.guest_state t).hw.vmcs .VMCS_GUEST_IA32_EFER =
      t.hw.vmcs .VMCS_GUEST_IA32_EFER := by
  unfold vmx_reset_vcpu.guest_state
  simp only [List.range, List.range.loop, List.foldl]
  simp only [wvmcs_vmcs, wreg_vmcs]
  simp [Function.update_apply]

/-- C24, amended: for every prior vCPU state, after `vmx_reset_vcpu`: RIP = 0xfff0,
RDX = 0x623, RAX, RBX, RCX, RSI, RDI, RBP, RSP and R8..R15 are 0, RFLAGS = 2,
CS has selector 0xf000 and base 0xffff0000, `cpu->halted` = 0; the guest CR3
field and the CR4 read shadow (`VMCS_CR4_SHADOW`) are 0, the guest CR4 field
and the CR4 mask hold exactly the VMXE bit (bit 13), and CR0 is programmed by
one call `macvm_set_cr0(0x60000010)`, which with `hv_vm_sync_tsc(0)`,
`hv_vcpu_invalidate_tlb` and `hv_vcpu_flush` is all the reset calls; the dirty
flag is not modified. A second run leaves all of this as the first left it, and
changes nothing at all but the call log when the second
`macvm_set_cr0(0x60000010)` finds the hardware state as it has to leave it. -/
theorem C24_reset_state (env : VcpuEnv) (s : VcpuState) :
    rreg (vmx_reset_vcpu env s) HV_X86_RIP = 0xfff0 ∧
    rreg (vmx_reset_vcpu env s) HV_X86_RDX = 0x623 ∧
    (∀ r ∈ [HV_X86_RAX, HV_X86_RBX, HV_X86_RCX, HV_X86_RSI, HV_X86_RDI, HV_X86_RBP, HV_X86_RSP],
      rreg (vmx_reset_vcpu env s) r = 0) ∧
    (∀ i, i < 8 → rreg (vmx_reset_vcpu env s) (HV_X86_R8 + i) = 0) ∧
    rreg (vmx_reset_vcpu env s) HV_X86_RFLAGS = 2 ∧
    rvmcs (vmx_reset_vcpu env s) .VMCS_GUEST_CS_SELECTOR = 0xf000 ∧
    rvmcs (vmx_reset_vcpu env s) .VMCS_GUEST_CS_BASE = 0xffff0000 ∧
    (vmx_reset_vcpu env s).halted = 0 ∧
    rvmcs (vmx_reset_vcpu env s) .VMCS_GUEST_CR3 = 0 ∧
    rvmcs (vmx_reset_vcpu env s) .VMCS_CR4_SHADOW = 0 ∧
    rvmcs (vmx_reset_vcpu env s) .VMCS_GUEST_CR4 = 2 ^ 13 ∧
    rvmcs (vmx_reset_vcpu env s) .VMCS_CR4_MASK = 2 ^ 13 ∧
    (vmx_reset_vcpu env s).log =
      s.log ++ [Event.macvm_set_cr0 0x60000010, Event.hv_vm_sync_tsc 0,
        Event.hv_vcpu_invalidate_tlb, Event.hv_vcpu_flush] ∧
    (vmx_reset_vcpu env s).hvf_vcpu_dirty = s.hvf_vcpu_dirty ∧
    (env.macvm_set_cr0
        (wvmcs (wvmcs (vmx_reset_vcpu env s) .VMCS_ENTRY_CTLS 0) .VMCS_GUEST_IA32_EFER 0).hw
        0x60000010 = (vmx_reset_vcpu env s).hw →
      vmx_reset_vcpu env (vmx_reset_vcpu env s) =
        { vmx_reset_vcpu env s with
          log := (vmx_reset_vcpu env s).log ++
            [Event.macvm_set_cr0 0x60000010, Event.hv_vm_sync_tsc 0,
              Event.hv_vcpu_invalidate_tlb, Event.hv_vcpu_flush] }) := by
  have hreg : ∀ r, rreg (vmx_reset_vcpu env s) r =
      if r = HV_X86_RIP then 0xfff0
      else if r = HV_X86_RDX then 0x623
      else if r = HV_X86_RFLAGS then 0x2
      else if r < 18 then 0
      else (env.macvm_set_cr0
        (wvmcs (wvmcs s .VMCS_ENTRY_CTLS 0) .VMCS_GUEST_IA32_EFER 0).hw 0x60000010).reg r := by
    intro r
    rw [reset_eq]
    exact reset_guest_state_reg _ r
  obtain ⟨f1, f2, -, -, f5, f6, f7, f8⟩ := reset_guest_state_fields
    (hw_call (fun h => env.macvm_set_cr0 h 0x60000010) (.macvm_set_cr0 0x60000010)
      (wvmcs (wvmcs s .VMCS_ENTRY_CTLS 0) .VMCS_GUEST_IA32_EFER 0))
  refine ⟨?_, ?_, ?_, ?_, ?_, ?_, ?_, ?_, ?_, ?_, ?_, ?_, ?_, ?_, ?_⟩
  · rw [hreg]; rfl
  · rw [hreg]; rfl
  · intro r hr
    rw [hreg]
    simp only [List.mem_cons, List.mem_singleton, List.not_mem_nil, or_false] at hr
    rcases hr with rfl | rfl | rfl | rfl | rfl | rfl | rfl <;> rfl
  · intro i hi
    rw [hreg]
    interval_cases i <;> rfl
  · rw [hreg]; rfl
  · rw [reset_eq]; exact f1
  · rw [reset_eq]; exact f2
  · rw [reset_eq]
  · rw [reset_eq]; exact f5
  · rw [reset_eq]; exact f6
  · rw [reset_eq]; exact f7
  · rw [reset_eq]; exact f8
  · rw [reset_eq]
  · rw [reset_eq]
  · have ha : (vmx_reset_vcpu env s).hw =
        (vmx_reset_vcpu.guest_state
          (hw_call (fun h => env.macvm_set_cr0 h 0x60000010) (.macvm_set_cr0 0x60000010)
            (wvmcs (wvmcs s .VMCS_ENTRY_CTLS 0) .VMCS_GUEST_IA32_EFER 0))).hw := by
      rw [reset_eq]
    have hb : (vmx_reset_vcpu env s).halted = 0 := by rw [reset_eq]
    generalize vmx_reset_vcpu env s = s' at ha hb ⊢
    intro hM
    have h2 := reset_guest_state_again
      (hw_call (fun h => env.macvm_set_cr0 h 0x60000010) (.macvm_set_cr0 0x60000010)
        (wvmcs (wvmcs s .VMCS_ENTRY_CTLS 0) .VMCS_GUEST_IA32_EFER 0))
      (hw_call (fun h => env.macvm_set_cr0 h 0x60000010) (.macvm_set_cr0 0x60000010)
        (wvmcs (wvmcs s' .VMCS_ENTRY_CTLS 0) .VMCS_GUEST_IA32_EFER 0))
      (hM.trans ha)
    have key := h2.trans hM
    rw [reset_eq env s', key]
    cases s'
    simp only [] at hb
    subst hb
    rfl

/-- With a `macvm_set_cr0` that leaves the hardware state alone, the two writes that
precede it find their fields already 0 after a reset. -/
theorem sample_reset_fixed (s : VcpuState) :
    sample_env.macvm_set_cr0
        (wvmcs (wvmcs (vmx_reset_vcpu sample_env s) .VMCS_ENTRY_CTLS 0)
          .VMCS_GUEST_IA32_EFER 0).hw 0x60000010 =
      (vmx_reset_vcpu sample_env s).hw := by
  have ha : (vmx_reset_vcpu sample_env s).hw.vmcs .VMCS_ENTRY_CTLS = 0 ∧
      (vmx_reset_vcpu sample_env s).hw.vmcs .VMCS_GUEST_IA32_EFER = 0 := by
    rw [reset_eq]
    obtain ⟨h1, h2⟩ := reset_guest_state_entry_efer
      (hw_call (fun h => sample_env.macvm_set_cr0 h 0x60000010) (.macvm_set_cr0 0x60000010)
        (wvmcs (wvmcs s .VMCS_ENTRY_CTLS 0) .VMCS_GUEST_IA32_EFER 0))
    exact ⟨h1.trans rfl, h2.trans rfl⟩
  generalize vmx_reset_vcpu sample_env s = s' at ha ⊢
  show (wvmcs (wvmcs s' .VMCS_ENTRY_CTLS 0) .VMCS_GUEST_IA32_EFER 0).hw = s'.hw
  apply HwState.eq_of
  · rfl
  · funext f
    simp only [wvmcs_vmcs, Function.update_apply]
    split_ifs with h1 h2
    · rw [h1, ha.2]; rfl
    · rw [h2, ha.1]; rfl
    · rfl

/-- C24 fails as stated: after a reset the CR4 read shadow is 0, so its VMXE bit
(bit 13) is clear; the bit is set in the guest CR4 field and in the CR4 mask;
and CR0 is not zeroed but programmed with 0x60000010. -/
theorem C24_counterexample :
    rvmcs (vmx_reset_vcpu sample_env (sample_vcpu 0 0 (sample_hw 0 0 0 0 0 0 0)))
      .VMCS_CR4_SHADOW = 0 ∧
    (rvmcs (vmx_reset_vcpu sample_env (sample_vcpu 0 0 (sample_hw 0 0 0 0 0 0 0)))
      .VMCS_CR4_SHADOW).testBit 13 = false ∧
    (rvmcs (vmx_reset_vcpu sample_env (sample_vcpu 0 0 (sample_hw 0 0 0 0 0 0 0)))
      .VMCS_GUEST_CR4).testBit 13 = true ∧
    (rvmcs (vmx_reset_vcpu sample_env (sample_vcpu 0 0 (sample_hw 0 0 0 0 0 0 0)))
      .VMCS_CR4_MASK).testBit 13 = true ∧
    (vmx_reset_vcpu sample_env (sample_vcpu 0 0 (sample_hw 0 0 0 0 0 0 0))).log =
      [Event.macvm_set_cr0 0x60000010, Event.hv_vm_sync_tsc 0, Event.hv_vcpu_invalidate_tlb,
        Event.hv_vcpu_flush] ∧
    (0x60000010 : Nat) ≠ 0 := by
  obtain ⟨-, -, -, -, -, f6, f7, f8⟩ := reset_guest_state_fields
    (hw_call (fun h => sample_env.macvm_set_cr0 h 0x60000010) (.macvm_set_cr0 0x60000010)
      (wvmcs (wvmcs (sample_vcpu 0 0 (sample_hw 0 0 0 0 0 0 0)) .VMCS_ENTRY_CTLS 0)
        .VMCS_GUEST_IA32_EFER 0))
  rw [reset_eq]
  refine ⟨f6, ?_, ?_, ?_, rfl, by decide⟩
  · show ((vmx_reset_vcpu.guest_state _).hw.vmcs .VMCS_CR4_SHADOW).testBit 13 = false
    rw [f6]
    decide
  · show ((vmx_reset_vcpu.guest_state _).hw.vmcs .VMCS_GUEST_CR4).testBit 13 = true
    rw [f7]
    decide
  · show ((vmx_reset_vcpu.guest_state _).hw.vmcs .VMCS_CR4_MASK).testBit 13 = true
    rw [f8]
    decide

/-- C24 amended, with a `macvm_set_cr0` that leaves the hardware state alone: a second
reset changes nothing but the call log. -/
theorem C24_reset_state_witness :
    vmx_reset_vcpu sample_env
        (vmx_reset_vcpu sample_env (sample_vcpu 1 0 (sample_hw 0 0 0 0 0x1234 0x246 7))) =
      { vmx_reset_vcpu sample_env (sample_vcpu 1 0 (sample_hw 0 0 0 0 0x1234 0x246 7)) with
        log := (vmx_reset_vcpu sample_env
            (sample_vcpu 1 0 (sample_hw 0 0 0 0 0x1234 0x246 7))).log ++
          [Event.macvm_set_cr0 0x60000010, Event.hv_vm_sync_tsc 0,
            Event.hv_vcpu_invalidate_tlb, Event.hv_vcpu_flush] } :=
  (C24_reset_state sample_env
    (sample_vcpu 1 0 (sample_hw 0 0 0 0 0x1234 0x246 7))).2.2.2.2.2.2.2.2.2.2.2.2.2.2
    (sample_reset_fixed _)

/-- The bits of `cap2ctrl(cap, ctrl)`: a required bit, or a requested bit that is
allowed. -/
theorem cap2ctrl_testBit (cap ctrl i : Nat) :
    (cap2ctrl cap ctrl).testBit i =
      ((decide (i < 32) && cap.testBit i) || (ctrl.testBit i && cap.testBit (32 + i))) := by
  unfold cap2ctrl
  have h : (0xffffffff : Nat) = 2 ^ 32 - 1 := by norm_num
  rw [Nat.testBit_or, Nat.testBit_and, Nat.testBit_and, Nat.testBit_shiftRight, h,
    Nat.testBit_two_pow_sub_one, Bool.and_comm (cap.testBit i)]

/-- A bit of a value reduced to 64 bits. -/
theorem u64_testBit (v i : Nat) : (u64 v).testBit i = (decide (i < 64) && v.testBit i) := by
  unfold u64
  rw [Nat.testBit_mod_two_pow]

/-- The value `cap2ctrl` computes fits a capability word in which every required bit
is allowed, for requested bits below bit 32. -/
theorem ctl_fits_cap2ctrl (cap req : Nat) (hreq : req < 2 ^ 32) (hc : cap_consistent cap) :
    ctl_fits cap req (u64 (cap2ctrl cap req)) := by
  have hhigh : ∀ i, req.testBit i = true → i < 32 := by
    intro i hi
    by_contra hge
    have : req < 2 ^ i := lt_of_lt_of_le hreq (Nat.pow_le_pow_right (by decide) (by omega))
    rw [Nat.testBit_lt_two_pow this] at hi
    exact absurd hi (by decide)
  refine ⟨?_, ?_, ?_⟩
  · rintro i ⟨hi, hb⟩
    rw [u64_testBit, cap2ctrl_testBit]
    have h64 : i < 64 := by omega
    simp [hi, hb, h64]
  · intro i hv
    rw [u64_testBit, cap2ctrl_testBit] at hv
    simp only [Bool.and_eq_true, Bool.or_eq_true, decide_eq_true_eq] at hv
    rcases hv with ⟨-, ⟨hi, hb⟩ | ⟨hq, ha⟩⟩
    · exact ⟨hi, hc i hi hb⟩
    · exact ⟨hhigh i hq, ha⟩
  · intro i hq
    have hi := hhigh i hq
    have h64 : i < 64 := by omega
    rw [u64_testBit, cap2ctrl_testBit]
    constructor
    · intro hv
      simp only [Bool.and_eq_true, Bool.or_eq_true, decide_eq_true_eq] at hv
      rcases hv with ⟨-, ⟨-, hb⟩ | ⟨-, ha⟩⟩
      · exact ⟨hi, hc i hi hb⟩
      · exact ⟨hi, ha⟩
    · rintro ⟨-, ha⟩
      simp [h64, hq, ha]

/-- The control values written by the "set VMCS control fields" block. -/
theorem set_controls_values (t : VcpuState) :
    rvmcs (hvf_init_vcpu.set_controls t) .VMCS_PIN_BASED_CTLS =
      u64 (cap2ctrl t.hvf_caps.vmx_cap_pinbased 0) ∧
    rvmcs (hvf_init_vcpu.set_controls t) .VMCS_PRI_PROC_BASED_CTLS =
      u64 (cap2ctrl t.hvf_caps.vmx_cap_procbased
          (VMCS_PRI_PROC_BASED_CTLS_HLT ||| VMCS_PRI_PROC_BASED_CTLS_MWAIT |||
            VMCS_PRI_PROC_BASED_CTLS_TSC_OFFSET ||| VMCS_PRI_PROC_BASED_CTLS_TPR_SHADOW) |||
        VMCS_PRI_PROC_BASED_CTLS_SEC_CONTROL) ∧
    rvmcs (hvf_init_vcpu.set_controls t) .VMCS_SEC_PROC_BASED_CTLS =
      u64 (cap2ctrl t.hvf_caps.vmx_cap_procbased2 VMCS_PRI_PROC_BASED2_CTLS_APIC_ACCESSES) ∧
    rvmcs (hvf_init_vcpu.set_controls t) .VMCS_ENTRY_CTLS =
      u64 (cap2ctrl t.hvf_caps.vmx_cap_entry 0) := by
  refine ⟨rfl, rfl, rfl, rfl⟩

/-- When `hv_vcpu_create` and the four capability reads succeed, `hvf_init_vcpu`
returns 0, and the state returned is given in closed form: the control fields
are programmed in the state `init_emu` and `init_decoder` left, with the dirty
flag set, the four words stored and the calls so far logged; then the vCPU is
reset and the native MSRs are enabled. -/
theorem init_vcpu_run (env : VcpuEnv) (ienv : VcpuInitEnv) (s : VcpuState)
    (hcreate : ienv.hv_vcpu_create = HV_SUCCESS)
    (hread : ∀ f, (ienv.hv_vmx_read_capability f).1 = 0) :
    hvf_init_vcpu env ienv s =
      .done ([native_msr.MSR_STAR, .MSR_LSTAR, .MSR_CSTAR, .MSR_FMASK, .MSR_FSBASE,
          .MSR_GSBASE, .MSR_KERNELGSBASE, .MSR_TSC_AUX, .MSR_IA32_SYSENTER_CS,
          .MSR_IA32_SYSENTER_EIP, .MSR_IA32_SYSENTER_ESP].foldl
        (fun t m => emit t (.hv_vcpu_enable_native_msr m))
        (vmx_reset_vcpu env (hvf_init_vcpu.set_controls
          { ienv.init_decoder (collab_call ienv.init_emu .init_emu s) with
            hvf_vcpu_dirty := 1,
            hvf_caps :=
              { (ienv.init_decoder (collab_call ienv.init_emu .init_emu s)).hvf_caps with
                vmx_cap_pinbased := u64 (ienv.hv_vmx_read_capability .HV_VMX_CAP_PINBASED).2,
                vmx_cap_procbased := u64 (ienv.hv_vmx_read_capability .HV_VMX_CAP_PROCBASED).2,
                vmx_cap_procbased2 :=
                  u64 (ienv.hv_vmx_read_capability .HV_VMX_CAP_PROCBASED2).2,
                vmx_cap_entry := u64 (ienv.hv_vmx_read_capability .HV_VMX_CAP_ENTRY).2 },
            log := s.log ++ [Event.init_emu, .init_decoder, .init_cpuid, .hv_vcpu_create,
              .hv_vmx_read_capability .HV_VMX_CAP_PINBASED,
              .hv_vmx_read_capability .HV_VMX_CAP_PROCBASED,
              .hv_vmx_read_capability .HV_VMX_CAP_PROCBASED2,
              .hv_vmx_read_capability .HV_VMX_CAP_ENTRY] })), 0) := by
  unfold hvf_init_vcpu
  simp only [assert_hvf_ok, hcreate, if_true, hvf_init_vcpu.read_capability, hread, ne_eq,
    not_true_eq_false, if_false]
  simp only [emit, collab_call, List.append_assoc, List.singleton_append, List.cons_append,
    List.nil_append]

/-- C30 (the profile selected is "vmX", not "core2duo"): `init_cpuid` takes entry 2 of
`builtin_cpus`, whose entries are named "vmx32", "core2duo" and "vmX" in this
order; the active profile is therefore "vmX" with level 0xd, and CPUID leaf 0
returns eax = 13, not 10, for every host result. -/
theorem C30_init_cpuid_selects_vmX :
    builtin_cpus.map (fun p => p.name) = ["vmx32", "core2duo", "vmX"] ∧
    init_cpuid = cpu_vmX ∧ init_cpuid.name = "vmX" ∧ init_cpuid.name ≠ "core2duo" ∧
    init_cpuid.level = 0xd ∧ init_cpuid.xlevel = 0x80000008 ∧
    (∀ (host : cpuid_regs) (apic_id nr_cores nr_threads cnt : Nat),
      (get_cpuid_func init_cpuid host apic_id nr_cores nr_threads 0 cnt).eax = 13 ∧
      (get_cpuid_func init_cpuid host apic_id nr_cores nr_threads 0 cnt).eax ≠ 10) := by
  refine ⟨rfl, rfl, rfl, by decide, rfl, rfl, ?_⟩
  intro host apic_id nr_cores nr_threads cnt
  have h : (get_cpuid_func init_cpuid host apic_id nr_cores nr_threads 0 cnt).eax = 13 := by
    simp [get_cpuid_func, init_cpuid, builtin_cpus, cpu_vmX]
  exact ⟨h, by rw [h]; decide⟩

/-! ## Slot manager: the shadow table -/

/-- `getD` after `set`, at the index written. -/
theorem getD_set_same {α : Type} (l : List α) (i : Nat) (a d : α) (h : i < l.length) :
    (l.set i a).getD i d = a := by
  simp [List.getD_eq_getElem?_getD, List.getElem?_set, h]

/-- `getD` after `set`, at another index. -/
theorem getD_set_other {α : Type} (l : List α) (i k : Nat) (a d : α) (h : k ≠ i) :
    (l.set i a).getD k d = l.getD k d := by
  have h' : i ≠ k := fun e => h e.symm
  simp [List.getD_eq_getElem?_getD, List.getElem?_set, h']

/-- `__hvf_set_memory` when every hypervisor call succeeds: it returns 0, leaves the
slot table alone, works on the one entry `mac_slots[slot->slot_id]`, issues an
unmap of the recorded range when the entry is present with another size, and
then, for a slot of nonzero size, records and maps the slot's range. -/
theorem set_memory_ok (w : MemWorld) (i : Nat) (slot : hvf_slot) (mac : mac_slot)
    (hslot : w.hvf_state.slots.getD i hvf_slot.zero = slot)
    (hmac : w.mac_slots.getD slot.slot_id mac_slot.zero = mac)
    (hm : slot.slot_id < w.mac_slots.length) :
    ∃ w', __hvf_set_memory hv_ok w i = .done (w', 0) ∧
      w'.hvf_state = w.hvf_state ∧ w'.mac_slots.length = w.mac_slots.length ∧
      (∀ k, k ≠ slot.slot_id →
        w'.mac_slots.getD k mac_slot.zero = w.mac_slots.getD k mac_slot.zero) ∧
      __hvf_set_memory.calls hv_ok w i =
        (if mac.present ≠ 0 ∧ mac.size ≠ slot.size then
          [(slot.slot_id, HvCall.hv_vm_unmap mac.gpa_start mac.size)] else []) ++
        (if slot.size = 0 then []
         else [(slot.slot_id, HvCall.hv_vm_map slot.mem slot.start slot.size HV_MEMORY_RWX)]) ∧
      w'.trace = w.trace ++
        ((if mac.present ≠ 0 ∧ mac.size ≠ slot.size then
          [HvCall.hv_vm_unmap mac.gpa_start mac.size] else []) ++
        (if slot.size = 0 then []
         else [HvCall.hv_vm_map slot.mem slot.start slot.size HV_MEMORY_RWX])) ∧
      w'.mac_slots.getD slot.slot_id mac_slot.zero =
        (if slot.size = 0 then
          (if mac.present ≠ 0 ∧ mac.size ≠ slot.size then { mac with present := 0 } else mac)
         else { present := 1, size := slot.size, gpa_start := slot.start, gva := mac.gva }) := by
  unfold __hvf_set_memory.calls set_memory_world __hvf_set_memory
  simp only [hv_call, hv_ok, assert_hvf_ok, hslot, hmac, if_true]
  by_cases hc : mac.present ≠ 0 ∧ mac.size ≠ slot.size
  · by_cases hz : slot.size = 0
    · have hc0 := hc
      rw [hz] at hc0
      simp only [hz, if_pos hc0, if_true]
      refine ⟨_, rfl, rfl, by simp, ?_, by simp, by simp, ?_⟩
      · intro k hk
        exact getD_set_other _ _ _ _ _ hk
      · exact getD_set_same _ _ _ _ hm
    · simp only [if_pos hc, if_neg hz]
      refine ⟨_, rfl, rfl, by simp, ?_, by simp, by simp, ?_⟩
      · intro k hk
        simp only []
        rw [getD_set_other _ _ _ _ _ hk, getD_set_other _ _ _ _ _ hk]
      · simp only []
        rw [getD_set_same _ _ _ _ (by simpa using hm), getD_set_same _ _ _ _ hm]
  · by_cases hz : slot.size = 0
    · have hc0 := hc
      rw [hz] at hc0
      simp only [hz, if_neg hc0, if_true]
      exact ⟨_, rfl, rfl, rfl, fun _ _ => rfl, by simp, by simp, hmac⟩
    · simp only [if_neg hc, if_neg hz]
      refine ⟨_, rfl, rfl, by simp, ?_, by simp, by simp, ?_⟩
      · intro k hk
        exact getD_set_other _ _ _ _ _ hk
      · simp only []
        rw [getD_set_same _ _ _ _ hm, hmac]

/-- A call for another entry does not change the most recent call for `m`. -/
theorem last_call_for_append_other (m t : Nat) (c : HvCall) (L : List (Nat × HvCall))
    (h : t ≠ m) : last_call_for m (L ++ [(t, c)]) = last_call_for m L := by
  simp [last_call_for, List.filter_append, List.filter_cons, h]

/-- A call for `m` appended to the log is the most recent call for `m`. -/
theorem last_call_for_append_same (m : Nat) (c : HvCall) (L : List (Nat × HvCall)) :
    last_call_for m (L ++ [(m, c)]) = some c := by
  simp [last_call_for, List.filter_append, List.filter_cons]

/-- Appending one call keeps `unmaps_match`, provided that the call, when it is an
unmap, is issued for the range of the most recent call for its entry, a map. -/
theorem unmaps_match_append (L : List (Nat × HvCall)) (p : Nat × HvCall) (hL : unmaps_match L)
    (hp : ∀ gpa size, p.2 = HvCall.hv_vm_unmap gpa size →
      ∃ uva flags, last_call_for p.1 L = some (HvCall.hv_vm_map uva gpa size flags)) :
    unmaps_match (L ++ [p]) := by
  intro k m gpa size hk
  rcases Nat.lt_trichotomy k L.length with hlt | heq | hgt
  · rw [List.getElem?_append_left hlt] at hk
    obtain ⟨uva, flags, h⟩ := hL k m gpa size hk
    refine ⟨uva, flags, ?_⟩
    rw [List.take_append_of_le_length (le_of_lt hlt)]
    exact h
  · subst heq
    simp only [List.getElem?_concat_length, Option.some.injEq] at hk
    subst hk
    rw [List.take_left]
    exact hp gpa size rfl
  · rw [List.getElem?_eq_none (by simp; omega)] at hk
    exact absurd hk (by simp)
/-- Calls for other entries do not change the most recent call for `m`. -/
theorem last_call_for_append_others (m : Nat) (L C : List (Nat × HvCall))
    (h : ∀ p ∈ C, p.1 ≠ m) : last_call_for m (L ++ C) = last_call_for m L := by
  have hnil : C.filter (fun p => decide (p.1 = m)) = [] := by
    rw [List.filter_eq_nil_iff]
    intro p hp
    simpa using h p hp
  simp [last_call_for, List.filter_append, hnil]

/-- One `__hvf_set_memory` on a slot whose fields were just rewritten (its `slot_id`
kept), when every hypervisor call succeeds: it returns 0, and the agreement of
the shadow table with the slot table, the record of the most recent map in
every present entry, and the matching of every unmap are all kept. -/
theorem set_memory_inv (w : MemWorld) (L : List (Nat × HvCall)) (i : Nat)
    (f : hvf_slot → hvf_slot) (hi : i < 32) (hf : ∀ s, (f s).slot_id = s.slot_id)
    (hs : shadow_inv w) (hr : records_last_map w L) (hu : unmaps_match L) :
    ∃ w', __hvf_set_memory hv_ok (update_slot w i f) i = .done (w', 0) ∧
      shadow_inv w' ∧
      records_last_map w' (L ++ __hvf_set_memory.calls hv_ok (update_slot w i f) i) ∧
      unmaps_match (L ++ __hvf_set_memory.calls hv_ok (update_slot w i f) i) ∧
      w'.trace =
        w.trace ++ (__hvf_set_memory.calls hv_ok (update_slot w i f) i).map Prod.snd := by
  obtain ⟨hl, hn, hml, hall⟩ := hs
  have hri := hr i hi
  obtain ⟨hid, hpres, hrec⟩ := hall i hi
  generalize hs0 : w.hvf_state.slots.getD i hvf_slot.zero = s at hid hpres hrec
  generalize hm0 : w.mac_slots.getD i mac_slot.zero = mac at hpres hrec hri
  have hslot : (update_slot w i f).hvf_state.slots.getD i hvf_slot.zero = f s := by
    simp only [update_slot]
    rw [getD_set_same _ _ _ _ (by omega), hs0]
  have hfid : (f s).slot_id = i := by rw [hf, hid]
  have hmac : (update_slot w i f).mac_slots.getD (f s).slot_id mac_slot.zero = mac := by
    rw [hfid]
    exact hm0
  have hmlen : (f s).slot_id < (update_slot w i f).mac_slots.length := by
    rw [hfid]
    simp only [update_slot]
    omega
  obtain ⟨w', hrun, hst, hlen, hoth, hcalls, htr, hent⟩ :=
    set_memory_ok (update_slot w i f) i (f s) mac hslot hmac hmlen
  rw [hfid] at hoth hcalls hent
  have hslots : ∀ j, j ≠ i → w'.hvf_state.slots.getD j hvf_slot.zero =
      w.hvf_state.slots.getD j hvf_slot.zero := by
    intro j hj
    rw [hst]
    simp only [update_slot]
    exact getD_set_other _ _ _ _ _ hj
  have hsloti : w'.hvf_state.slots.getD i hvf_slot.zero = f s := by
    rw [hst]
    exact hslot
  have hshape : w'.hvf_state.slots.length = 32 ∧ w'.hvf_state.num_slots = 32 ∧
      w'.mac_slots.length = 32 := by
    rw [hst, hlen]
    simp only [update_slot, List.length_set]
    exact ⟨hl, hn, hml⟩
  have hother : ∀ j, j < 32 → j ≠ i →
      (w'.hvf_state.slots.getD j hvf_slot.zero).slot_id = j ∧
      ((w'.mac_slots.getD j mac_slot.zero).present ≠ 0 ↔
        (w'.hvf_state.slots.getD j hvf_slot.zero).size ≠ 0) ∧
      ((w'.mac_slots.getD j mac_slot.zero).present ≠ 0 →
        (w'.mac_slots.getD j mac_slot.zero).gpa_start =
          (w'.hvf_state.slots.getD j hvf_slot.zero).start ∧
        (w'.mac_slots.getD j mac_slot.zero).size =
          (w'.hvf_state.slots.getD j hvf_slot.zero).size) := by
    intro j hj hji
    rw [hslots j hji, hoth j hji]
    exact hall j hj
  have hrother : ∀ C : List (Nat × HvCall), (∀ p ∈ C, p.1 = i) → ∀ m, m < 32 → m ≠ i →
      (w'.mac_slots.getD m mac_slot.zero).present ≠ 0 →
      ∃ uva flags, last_call_for m (L ++ C) =
        some (HvCall.hv_vm_map uva (w'.mac_slots.getD m mac_slot.zero).gpa_start
          (w'.mac_slots.getD m mac_slot.zero).size flags) := by
    intro C hC m hm hmi
    rw [hoth m hmi, last_call_for_append_others m L C
      (fun p hp e => hmi (by rw [← e, hC p hp]))]
    exact hr m hm
  have htr' : w'.trace =
      w.trace ++ (__hvf_set_memory.calls hv_ok (update_slot w i f) i).map Prod.snd := by
    rw [htr, hcalls]
    simp only [update_slot]
    split_ifs <;> rfl
  have hkey : mac.present ≠ 0 → mac.size ≠ 0 := fun hp e =>
    hpres.1 hp (by rw [← (hrec hp).2]; exact e)
  have htag : ∀ p ∈ __hvf_set_memory.calls hv_ok (update_slot w i f) i, p.1 = i := by
    rw [hcalls]
    intro p hp
    rcases List.mem_append.1 hp with h | h
    · split_ifs at h
      · rw [List.mem_singleton.1 h]
      · exact absurd h (List.not_mem_nil p)
    · split_ifs at h
      · exact absurd h (List.not_mem_nil p)
      · rw [List.mem_singleton.1 h]
  refine ⟨w', hrun, ?_, ?_, ?_, htr'⟩
  · refine ⟨hshape.1, hshape.2.1, hshape.2.2, ?_⟩
    intro j hj
    by_cases hji : j = i
    · subst hji
      rw [hsloti, hent]
      refine ⟨hfid, ?_, ?_⟩
      · by_cases hz : (f s).size = 0
        · by_cases hc : mac.present ≠ 0 ∧ mac.size ≠ (f s).size
          · rw [if_pos hz, if_pos hc]
            simp [hz]
          · rw [if_pos hz, if_neg hc]
            constructor
            · intro hp
              exact absurd ⟨hp, by rw [hz]; exact hkey hp⟩ hc
            · intro h
              exact absurd hz h
        · rw [if_neg hz]
          simp [hz]
      · by_cases hz : (f s).size = 0
        · by_cases hc : mac.present ≠ 0 ∧ mac.size ≠ (f s).size
          · rw [if_pos hz, if_pos hc]
            intro h
            exact absurd rfl h
          · rw [if_pos hz, if_neg hc]
            intro hp
            exact absurd ⟨hp, by rw [hz]; exact hkey hp⟩ hc
        · rw [if_neg hz]
          intro _
          exact ⟨rfl, rfl⟩
    · exact hother j hj hji
  · intro m hm hp
    by_cases hmi : m = i
    · subst hmi
      rw [hent] at hp ⊢
      rw [hcalls]
      by_cases hz : (f s).size = 0
      · exfalso
        by_cases hc : mac.present ≠ 0 ∧ mac.size ≠ (f s).size
        · rw [if_pos hz, if_pos hc] at hp
          exact hp rfl
        · rw [if_pos hz, if_neg hc] at hp
          exact hc ⟨hp, by rw [hz]; exact hkey hp⟩
      · rw [if_neg hz, if_neg hz, ← List.append_assoc, last_call_for_append_same]
        exact ⟨_, _, rfl⟩
    · exact hrother _ htag m hm hmi hp
  · rw [hcalls]
    have h1 : unmaps_match (L ++ (if mac.present ≠ 0 ∧ mac.size ≠ (f s).size then
        [(i, HvCall.hv_vm_unmap mac.gpa_start mac.size)] else [])) := by
      by_cases hc : mac.present ≠ 0 ∧ mac.size ≠ (f s).size
      · rw [if_pos hc]
        refine unmaps_match_append L _ hu ?_
        intro gpa size e
        simp only [HvCall.hv_vm_unmap.injEq] at e
        obtain ⟨e1, e2⟩ := e
        subst e1
        subst e2
        exact hri hc.1
      · rw [if_neg hc, List.append_nil]
        exact hu
    rw [← List.append_assoc]
    by_cases hz : (f s).size = 0
    · rw [if_pos hz, List.append_nil]
      exact h1
    · rw [if_neg hz]
      refine unmaps_match_append _ _ h1 ?_
      intro gpa size e
      exact absurd e (by simp)

/-- The overlap scan returns an index below `num_slots`. -/
theorem find_overlap_lt (s : HVFState) (start end_ : Nat) (i : Nat)
    (h : hvf_find_overlap_slot s start end_ = some i) : i < s.num_slots := by
  have hspec := find_overlap_loop_spec start end_ (s.slots.take s.num_slots) 0
  unfold hvf_find_overlap_slot at h
  rw [h] at hspec
  obtain ⟨k, slot, hik, hk, -, -⟩ := hspec
  have hlt : k < (s.slots.take s.num_slots).length := by
    rcases List.getElem?_eq_some_iff.1 hk with ⟨hlt, -⟩
    exact hlt
  rw [List.length_take] at hlt
  omega

/-- The free-slot scan returns an index below `num_slots`. -/
theorem find_free_lt (s : HVFState) (x : Nat)
    (h : find_free_slot (s.slots.take s.num_slots) 0 = some x) : x < s.num_slots := by
  have hspec := find_free_slot_spec (s.slots.take s.num_slots) 0
  rw [h] at hspec
  obtain ⟨k, slot, hik, hk, -, -⟩ := hspec
  have hlt : k < (s.slots.take s.num_slots).length := by
    rcases List.getElem?_eq_some_iff.1 hk with ⟨hlt, -⟩
    exact hlt
  rw [List.length_take] at hlt
  omega

/-- One `hvf_set_phys_mem` when every hypervisor call succeeds: in the state it ends
in, the shadow table agrees with the slot table, every present entry records
the most recent map issued for it, every unmap matches, and the trace has grown
by exactly the calls attributed to the event. -/
theorem set_phys_mem_inv (w : MemWorld) (L : List (Nat × HvCall)) (sec : MemoryRegionSection)
    (add : Bool) (hs : shadow_inv w) (hr : records_last_map w L) (hu : unmaps_match L) :
    shadow_inv (hvf_set_phys_mem hv_ok w sec add).world ∧
    records_last_map (hvf_set_phys_mem hv_ok w sec add).world
      (L ++ hvf_set_phys_mem.calls hv_ok w sec add) ∧
    unmaps_match (L ++ hvf_set_phys_mem.calls hv_ok w sec add) ∧
    (hvf_set_phys_mem hv_ok w sec add).world.trace =
      w.trace ++ (hvf_set_phys_mem.calls hv_ok w sec add).map Prod.snd := by
  have base : shadow_inv w ∧ records_last_map w (L ++ []) ∧ unmaps_match (L ++ []) ∧
      w.trace = w.trace ++ ([] : List (Nat × HvCall)).map Prod.snd := by
    rw [List.append_nil, List.map_nil, List.append_nil]
    exact ⟨hs, hr, hu, rfl⟩
  have second : ∀ (w1 : MemWorld) (C1 : List (Nat × HvCall)) (f : hvf_slot → hvf_slot),
      (∀ s, (f s).slot_id = s.slot_id) →
      shadow_inv w1 → records_last_map w1 (L ++ C1) → unmaps_match (L ++ C1) →
      w1.trace = w.trace ++ C1.map Prod.snd →
      ∀ x, find_free_slot (w1.hvf_state.slots.take w1.hvf_state.num_slots) 0 = some x →
      ∃ w3, __hvf_set_memory hv_ok (update_slot w1 x f) x = .done (w3, 0) ∧
        shadow_inv w3 ∧
        records_last_map w3 (L ++ (C1 ++ __hvf_set_memory.calls hv_ok (update_slot w1 x f) x)) ∧
        unmaps_match (L ++ (C1 ++ __hvf_set_memory.calls hv_ok (update_slot w1 x f) x)) ∧
        w3.trace = w.trace ++
          (C1 ++ __hvf_set_memory.calls hv_ok (update_slot w1 x f) x).map Prod.snd := by
    intro w1 C1 f hf hs1 hr1 hu1 ht1 x hx
    have hx32 : x < 32 := by
      have := find_free_lt w1.hvf_state x hx
      rw [hs1.2.1] at this
      exact this
    obtain ⟨w3, hrun, h1, h2, h3, h4⟩ := set_memory_inv w1 (L ++ C1) x f hx32 hf hs1 hr1 hu1
    refine ⟨w3, hrun, h1, ?_, ?_, ?_⟩
    · rw [← List.append_assoc]
      exact h2
    · rw [← List.append_assoc]
      exact h3
    · rw [h4, ht1, List.map_append, List.append_assoc]
  unfold hvf_set_phys_mem hvf_set_phys_mem.calls
  by_cases hram : sec.is_ram = true
  swap
  · have hram' : sec.is_ram = false := by simpa using hram
    simp only [hram', Bool.not_false, if_true]
    exact base
  simp only [hram, Bool.not_true, Bool.false_eq_true, if_false]
  cases hfind : hvf_find_overlap_slot w.hvf_state sec.offset_within_address_space
      (u64 (sec.offset_within_address_space + sec.size)) with
  | none =>
    simp only [Bool.false_eq_true, if_false]
    cases add with
    | false =>
      simp only [Bool.not_false, if_true]
      exact base
    | true =>
      simp only [Bool.not_true, Bool.false_eq_true, if_false]
      cases hfree : find_free_slot (w.hvf_state.slots.take w.hvf_state.num_slots) 0 with
      | none =>
        simp only []
        exact base
      | some x =>
        simp only []
        obtain ⟨w3, hrun, h1, h2, h3, h4⟩ := second w []
          (fun s => { s with size := sec.size, mem := sec.host,
                             start := sec.offset_within_address_space })
          (fun _ => rfl) base.1 base.2.1 base.2.2.1 base.2.2.2 x hfree
        rw [hrun]
        simp only [ne_eq, not_true_eq_false, if_false, Run.world]
        exact ⟨h1, h2, h3, h4⟩
  | some i =>
    simp only []
    have hi32 : i < 32 := by
      have := find_overlap_lt w.hvf_state _ _ i hfind
      rw [hs.2.1] at this
      exact this
    obtain ⟨w1, hrun1, g1, g2, g3, g4⟩ :=
      set_memory_inv w L i (fun s => { s with size := 0 }) hi32 (fun _ => rfl) hs hr hu
    by_cases hsame : (add && decide ((w.hvf_state.slots.getD i hvf_slot.zero).size = sec.size ∧
        (w.hvf_state.slots.getD i hvf_slot.zero).start = sec.offset_within_address_space ∧
        (w.hvf_state.slots.getD i hvf_slot.zero).mem = sec.host)) = true
    · rw [if_pos hsame, if_pos hsame]
      exact base
    · rw [if_neg hsame, if_neg hsame, hrun1]
      simp only [ne_eq, not_true_eq_false, if_false]
      cases add with
      | false =>
        simp only [Bool.not_false, if_true, Run.world]
        exact ⟨g1, g2, g3, g4⟩
      | true =>
        simp only [Bool.not_true, Bool.false_eq_true, if_false]
        cases hfree : find_free_slot (w1.hvf_state.slots.take w1.hvf_state.num_slots) 0 with
        | none =>
          simp only [Run.world]
          exact ⟨g1, g2, g3, g4⟩
        | some x =>
          simp only []
          obtain ⟨w3, hrun, h1, h2, h3, h4⟩ := second w1 _
            (fun s => { s with size := sec.size, mem := sec.host,
                               start := sec.offset_within_address_space })
            (fun _ => rfl) g1 g2 g3 g4 x hfree
          rw [hrun]
          simp only [ne_eq, not_true_eq_false, if_false, Run.world]
          exact ⟨h1, h2, h3, h4⟩

/-- A sequence of region events when every hypervisor call succeeds: from a state in
which the shadow table agrees with the slot table and the log `L` of the calls
so far is recorded in it, the state the sequence ends in (at its return or at
its abort) has the same properties for `L` extended by the calls of the events,
and its trace has grown by exactly these calls. -/
theorem apply_events_inv (es : List RegionEvent) :
    ∀ (w : MemWorld) (L : List (Nat × HvCall)),
      shadow_inv w → records_last_map w L → unmaps_match L →
      shadow_inv (apply_events hv_ok w es).world ∧
      records_last_map (apply_events hv_ok w es).world (L ++ apply_events.calls hv_ok w es) ∧
      unmaps_match (L ++ apply_events.calls hv_ok w es) ∧
      (apply_events hv_ok w es).world.trace =
        w.trace ++ (apply_events.calls hv_ok w es).map Prod.snd := by
  induction es with
  | nil =>
    intro w L hs hr hu
    simp only [apply_events, apply_events.calls, Run.world, List.append_nil, List.map_nil]
    exact ⟨hs, hr, hu, trivial⟩
  | cons e es ih =>
    intro w L hs hr hu
    obtain ⟨h1, h2, h3, h4⟩ := set_phys_mem_inv w L e.sec e.add hs hr hu
    unfold apply_events apply_events.calls
    cases hstep : hvf_set_phys_mem hv_ok w e.sec e.add with
    | aborted wa =>
      rw [hstep] at h1 h2 h4
      simp only [List.append_nil]
      exact ⟨h1, h2, h3, h4⟩
    | done w1 =>
      rw [hstep] at h1 h2 h4
      simp only [Run.world] at h1 h2 h4
      simp only []
      obtain ⟨k1, k2, k3, k4⟩ := ih w1 (L ++ hvf_set_phys_mem.calls hv_ok w e.sec e.add) h1 h2 h3
      refine ⟨k1, ?_, ?_, ?_⟩
      · rw [← List.append_assoc]
        exact k2
      · rw [← List.append_assoc]
        exact k3
      · rw [k4, h4, List.map_append, List.append_assoc]

/-- The state built by `hvf_accel_init`: 32 free slots numbered by their index, an
empty shadow table, no call issued. -/
theorem accel_init_inv (w0 : MemWorld) (hinit : hvf_accel_init HV_SUCCESS = some w0) :
    shadow_inv w0 ∧ records_last_map w0 [] ∧ unmaps_match [] ∧ w0.trace = [] := by
  simp only [hvf_accel_init, assert_hvf_ok, if_true, Option.some.injEq] at hinit
  subst hinit
  refine ⟨⟨by simp, rfl, by simp, ?_⟩, ?_, ?_, rfl⟩
  · intro i hi
    interval_cases i <;> exact ⟨rfl, by decide, by decide⟩
  · intro m hm hp
    exfalso
    have hm0 : (List.replicate 32 mac_slot.zero).getD m mac_slot.zero = mac_slot.zero := by
      interval_cases m <;> rfl
    simp only [hm0] at hp
    exact hp rfl
  · intro k m gpa size h
    simp at h

/-! ## Slot manager: the shadow-table invariant -/

/-- C31: in every state reached from `hvf_accel_init` by a sequence of
`hvf_set_phys_mem` events with every hypervisor call succeeding (the state the
sequence returns in, or the state at its `abort()` when the table is full), for
every index `i < 32`: `slots[i].slot_id = i`, `mac_slots[i].present` is nonzero
exactly when `slots[i].size` is, and a present entry has
`gpa_start = slots[i].start` and `size = slots[i].size`. The hypervisor calls,
each attributed to the `mac_slots` entry `slot->slot_id` it is issued for, are
exactly the trace of the state, and every `hv_vm_unmap` among them is issued for
the guest-physical start and the size of the most recent call before it for the
same entry, which is an `hv_vm_map`. -/
theorem C31_shadow_table_invariant (w0 : MemWorld) (events : List RegionEvent)
    (hinit : hvf_accel_init HV_SUCCESS = some w0) :
    (∀ i, i < 32 →
      ((apply_events hv_ok w0 events).world.hvf_state.slots.getD i hvf_slot.zero).slot_id = i ∧
      (((apply_events hv_ok w0 events).world.mac_slots.getD i mac_slot.zero).present ≠ 0 ↔
        ((apply_events hv_ok w0 events).world.hvf_state.slots.getD i hvf_slot.zero).size ≠ 0) ∧
      (((apply_events hv_ok w0 events).world.mac_slots.getD i mac_slot.zero).present ≠ 0 →
        ((apply_events hv_ok w0 events).world.mac_slots.getD i mac_slot.zero).gpa_start =
          ((apply_events hv_ok w0 events).world.hvf_state.slots.getD i hvf_slot.zero).start ∧
        ((apply_events hv_ok w0 events).world.mac_slots.getD i mac_slot.zero).size =
          ((apply_events hv_ok w0 events).world.hvf_state.slots.getD i hvf_slot.zero).size)) ∧
    (apply_events.calls hv_ok w0 events).map Prod.snd =
      (apply_events hv_ok w0 events).world.trace ∧
    (∀ k m gpa size,
      (apply_events.calls hv_ok w0 events)[k]? = some (m, HvCall.hv_vm_unmap gpa size) →
      ∃ uva flags, last_call_for m ((apply_events.calls hv_ok w0 events).take k) =
        some (HvCall.hv_vm_map uva gpa size flags)) := by
  obtain ⟨h0, h1, h2, h3⟩ := accel_init_inv w0 hinit
  obtain ⟨k0, -, k2, k3⟩ := apply_events_inv events w0 [] h0 h1 h2
  rw [List.nil_append] at k2
  rw [h3, List.nil_append] at k3
  exact ⟨k0.2.2.2, k3.symm, k2⟩

/-- C31 on the table built by `hvf_accel_init`, for the events: add
[0x1000, 0x2000), add [0x3000, 0x4000), add [0x1000, 0x3000) (which resets
slot 0 and takes it again), delete [0x3000, 0x4000). -/
theorem C31_shadow_table_invariant_witness :
    hvf_accel_init HV_SUCCESS = some free_world ∧
    apply_events.calls hv_ok free_world
      [⟨ram_section 0x1000 0x1000 0x7f0000000000, true⟩,
       ⟨ram_section 0x3000 0x1000 0x7f0000100000, true⟩,
       ⟨ram_section 0x1000 0x2000 0x7f0000200000, true⟩,
       ⟨ram_section 0x3000 0x1000 0x7f0000100000, false⟩] =
      [(0, HvCall.hv_vm_map 0x7f0000000000 0x1000 0x1000 HV_MEMORY_RWX),
       (1, HvCall.hv_vm_map 0x7f0000100000 0x3000 0x1000 HV_MEMORY_RWX),
       (0, HvCall.hv_vm_unmap 0x1000 0x1000),
       (0, HvCall.hv_vm_map 0x7f0000200000 0x1000 0x2000 HV_MEMORY_RWX),
       (1, HvCall.hv_vm_unmap 0x3000 0x1000)] ∧
    (∀ k m gpa size,
      (apply_events.calls hv_ok free_world
        [⟨ram_section 0x1000 0x1000 0x7f0000000000, true⟩,
         ⟨ram_section 0x3000 0x1000 0x7f0000100000, true⟩,
         ⟨ram_section 0x1000 0x2000 0x7f0000200000, true⟩,
         ⟨ram_section 0x3000 0x1000 0x7f0000100000, false⟩])[k]? =
        some (m, HvCall.hv_vm_unmap gpa size) →
      ∃ uva flags, last_call_for m ((apply_events.calls hv_ok free_world
        [⟨ram_section 0x1000 0x1000 0x7f0000000000, true⟩,
         ⟨ram_section 0x3000 0x1000 0x7f0000100000, true⟩,
         ⟨ram_section 0x1000 0x2000 0x7f0000200000, true⟩,
         ⟨ram_section 0x3000 0x1000 0x7f0000100000, false⟩]).take k) =
        some (HvCall.hv_vm_map uva gpa size flags)) :=
  ⟨by decide, by decide,
   (C31_shadow_table_invariant free_world
      [⟨ram_section 0x1000 0x1000 0x7f0000000000, true⟩,
       ⟨ram_section 0x3000 0x1000 0x7f0000100000, true⟩,
       ⟨ram_section 0x1000 0x2000 0x7f0000200000, true⟩,
       ⟨ram_section 0x3000 0x1000 0x7f0000100000, false⟩] (by decide)).2.2⟩

/-! ## CPUID: the extended feature leaf -/

/-- C32: for every host CPUID result and every profile, in particular every built-in
one, `get_cpuid_func` on leaf 0x80000001 returns eax equal to the host's eax,
ebx = 0, ecx equal to the bitwise AND of the profile's `ext3_features` with the
host's ecx, and edx equal to the bitwise AND of the profile's `ext2_features`
with the host's edx; so every bit set in ecx or edx is set both in the profile's
feature word and in the host's register. For the built-in profiles the
`ext2_features` word is LM | SYSCALL | NX. -/
theorem C32_leaf_80000001 (p : x86_cpuid) (h : cpuid_regs)
    (apic_id nr_cores nr_threads cnt : Nat) :
    (get_cpuid_func p h apic_id nr_cores nr_threads 0x80000001 cnt).eax = h.eax ∧
    (get_cpuid_func p h apic_id nr_cores nr_threads 0x80000001 cnt).ebx = 0 ∧
    (get_cpuid_func p h apic_id nr_cores nr_threads 0x80000001 cnt).ecx =
      p.ext3_features &&& h.ecx ∧
    (get_cpuid_func p h apic_id nr_cores nr_threads 0x80000001 cnt).edx =
      p.ext2_features &&& h.edx ∧
    (∀ i, (get_cpuid_func p h apic_id nr_cores nr_threads 0x80000001 cnt).ecx.testBit i = true →
      p.ext3_features.testBit i = true ∧ h.ecx.testBit i = true) ∧
    (∀ i, (get_cpuid_func p h apic_id nr_cores nr_threads 0x80000001 cnt).edx.testBit i = true →
      p.ext2_features.testBit i = true ∧ h.edx.testBit i = true) ∧
    (∀ q ∈ builtin_cpus,
      (get_cpuid_func q h apic_id nr_cores nr_threads 0x80000001 cnt).edx =
        (CPUID_EXT2_LM ||| CPUID_EXT2_SYSCALL ||| CPUID_EXT2_NX) &&& h.edx ∧
      ((get_cpuid_func q h apic_id nr_cores nr_threads 0x80000001 cnt).ecx = 0 ∨
       (get_cpuid_func q h apic_id nr_cores nr_threads 0x80000001 cnt).ecx =
         CPUID_EXT3_LAHF_LM &&& h.ecx)) := by
  have hleaf : ∀ q : x86_cpuid, get_cpuid_func q h apic_id nr_cores nr_threads 0x80000001 cnt =
      { eax := h.eax, ebx := 0, ecx := q.ext3_features &&& h.ecx,
        edx := q.ext2_features &&& h.edx } := by
    intro q
    simp [get_cpuid_func]
  rw [hleaf]
  refine ⟨rfl, rfl, rfl, rfl, ?_, ?_, ?_⟩
  · intro i hi
    simpa [Nat.testBit_and] using hi
  · intro i hi
    simpa [Nat.testBit_and] using hi
  · intro q hq
    rw [hleaf]
    simp only [builtin_cpus, List.mem_cons, List.mem_singleton, List.not_mem_nil, or_false] at hq
    rcases hq with rfl | rfl | rfl
    · exact ⟨rfl, Or.inl (by simp [cpu_vmx32])⟩
    · exact ⟨rfl, Or.inr rfl⟩
    · exact ⟨rfl, Or.inr rfl⟩

end HVF
